import Mathlib

/-!
# Resource manager, planner and producer context of the Rockchip DRM hardware composer

A shallow embedding of `drm/resourcemanager.cpp`, `platform/platform.cpp` and
`rockchip/producer/vpcontext.cpp`, followed by the properties proved about it.

Conventions of the embedding:
* a C++ `int` is an `Int`; the bitwise operators of C act on its 32-bit two's complement pattern
  (`toU32` / `toInt32`);
* a `shared_ptr` is an `Option` of the pointee, and the pointee carries a serial number `id`
  standing for the identity of the object;
* `++` and `--` on an `int` member are taken modulo 2^32 (`wrapInt32`): the overflow of a signed
  counter is undefined in C++, and the two's complement wrap-around is what the increment does
  on the targets of this code;
* a member function that dereferences a null pointer, or that writes past the end of a local
  array, returns `none`;
* outcomes decided outside the translated files (buffer allocation, queue submission, device
  probing) are explicit arguments of the function that observes them.
-/

set_option autoImplicit false

/-! ## Machine integers -/

/-- The 32-bit two's complement pattern of a C `int`, as an unsigned number. -/
def toU32 (x : Int) : Nat := (x % 4294967296).toNat

/-- The C `int` whose 32-bit two's complement pattern is `n` (conversion of `uint32_t` to `int`). -/
def toInt32 (n : Nat) : Int :=
  if n % 4294967296 < 2147483648 then ((n % 4294967296 : Nat) : Int)
  else ((n % 4294967296 : Nat) : Int) - 4294967296

/-- The value a C `int` holds after an arithmetic result `x` has been reduced to 32 bits: `x`
itself between `INT_MIN` and `INT_MAX`, `INT_MIN` for `INT_MAX + 1`, `INT_MAX` for `INT_MIN - 1`. -/
def wrapInt32 (x : Int) : Int := toInt32 (toU32 x)

/-- C `a & b` on `int`. -/
def intAnd (a b : Int) : Int := toInt32 (toU32 a &&& toU32 b)

/-- C `a | b` on `int`. -/
def intOr (a b : Int) : Int := toInt32 (toU32 a ||| toU32 b)

/-- C `~a` on `int`. -/
def intNot (a : Int) : Int := toInt32 (4294967295 - toU32 a)

/-- The macro `ALIGN_DOWN(value, base)`, `(value & (~(base-1)))`, at a `uint32_t` value and an
`int` base: the complement is taken in `int` and converted to `uint32_t` for the conjunction. -/
def ALIGN_DOWN (value : Nat) (base : Int) : Nat :=
  value % 4294967296 &&& toU32 (intNot (base - 1))

/-- The errno value `ENODEV`. -/
def ENODEV : Int := 19

/-- The errno value `EINVAL`. -/
def EINVAL : Int := 22

/-- The libdrm connection state `DRM_MODE_CONNECTED`. -/
def DRM_MODE_CONNECTED : Int := 1

/-- The pixel format `HAL_PIXEL_FORMAT_YCrCb_NV12` of the capture buffers. -/
def HAL_PIXEL_FORMAT_YCrCb_NV12 : Int := 21

/-! ## Devices, connectors, buffers -/

/-- A display mode; `width()` and `height()` are `uint32_t`. -/
structure DrmMode where
  width : Nat
  height : Nat
deriving DecidableEq, Repr

/-- A connector: the display it drives, its connection state and its current mode. -/
structure DrmConnector where
  display : Int
  state : Int
  current_mode : DrmMode
deriving DecidableEq, Repr

/-- A CRTC, known by its object id and the display it is bound to. -/
structure DrmCrtc where
  id : Int
  display : Int
deriving DecidableEq, Repr

/-- A DRM device. `fd` identifies the opened node; `displays` are the display ids the device
handles, `connectors` and `crtcs` its connectors and CRTCs in enumeration order. -/
structure DrmDevice where
  fd : Int
  socId : Int
  drmVersion : Int
  displays : List Int
  connectors : List DrmConnector
  crtcs : List DrmCrtc
deriving DecidableEq, Repr

/-- Modelled from the spec: `DrmDevice::HandlesDisplay` is not among the translated files; a
display is resolved to a device "by membership test". -/
def DrmDevice.HandlesDisplay (drm : DrmDevice) (display : Int) : Bool :=
  drm.displays.contains display

/-- Modelled from the spec: `DrmDevice::GetConnectorForDisplay` is not among the translated
files; it resolves "the display's output connector", absent when the device has none for it. -/
def DrmDevice.GetConnectorForDisplay (drm : DrmDevice) (display : Int) : Option DrmConnector :=
  drm.connectors.find? (fun c => c.display == display)

/-- A plane importer; one instance is created per device. -/
structure Importer where
  device : Int
deriving DecidableEq, Repr

/-- A crop rectangle. -/
structure Crop where
  left : Int
  top : Int
  right : Int
  bottom : Int
deriving DecidableEq, Repr

/-- A buffer object. `id` is the identity of the object (its allocation serial), `valid` the
result of `initCheck()`. -/
structure DrmBuffer where
  id : Nat
  width : Int
  height : Int
  format : Int
  valid : Bool
  crop : Crop
  externalId : Nat
deriving DecidableEq, Repr

/-- The writeback buffer queue: the buffers submitted to it, oldest first. -/
structure DrmBufferQueue where
  queued : List (Option DrmBuffer)
deriving DecidableEq, Repr

/-- Modelled from the spec: `DrmBufferQueue::DequeueDrmBuffer` is not among the translated
files; it hands out "a newly allocated buffer" of the requested geometry, whose initialisation
check may fail. `serial` is the allocation serial of the new object and `ok` the outcome of its
initialisation. -/
def DrmBufferQueue.DequeueDrmBuffer (serial : Nat) (w h format : Int) (ok : Bool) : DrmBuffer :=
  { id := serial, width := w, height := h, format := format, valid := ok,
    crop := ⟨0, 0, 0, 0⟩, externalId := 0 }

/-- Modelled from the spec: `DrmBufferQueue::QueueBuffer` is not among the translated files; it
"submits the buffer into the queue for hardware production" and may reject it. `ret` is the
status the submission reports. -/
def DrmBufferQueue.QueueBuffer (q : DrmBufferQueue) (buffer : Option DrmBuffer) (ret : Int) :
    Int × DrmBufferQueue :=
  if ret = 0 then (0, { queued := q.queued ++ [buffer] }) else (ret, q)

/-- A display compositor; one instance is created per CRTC. -/
structure DrmDisplayCompositor where
  serial : Nat
deriving DecidableEq, Repr

/-- The platform policy instance, bound to a device. -/
structure HwcPlatform where
  device : Int
deriving DecidableEq, Repr

/-! ## The resource manager -/

/-- The members of `ResourceManager` read or written by the translated functions.
`allocated_` is not a member of the class: it counts the buffer objects allocated so far and is
the serial of the next one, so that two buffers are the same object iff their `id`s agree. -/
structure ResourceManager where
  num_displays_ : Int
  drms_ : List DrmDevice
  importers_ : List Importer
  soc_id_ : Int
  drmVersion_ : Int
  fb0_fd : Int
  mapDrmDisplayCompositor_ : List (Int × DrmDisplayCompositor)
  displays_ : List Int
  hwcPlatform_ : Option HwcPlatform
  bEnableWriteBack_ : Int
  iWriteBackDisplayId_ : Int
  mWBMode_ : DrmMode
  iWBWidth_ : Int
  iWBHeight_ : Int
  iWBFormat_ : Int
  mWriteBackBQ_ : Option DrmBufferQueue
  mNextWriteBackBuffer_ : Option DrmBuffer
  mDrawingWriteBackBuffer_ : Option DrmBuffer
  mFinishWriteBackBuffer_ : Option DrmBuffer
  allocated_ : Nat
deriving DecidableEq, Repr

/-- A freshly constructed resource manager: no devices, no displays, writeback disabled
(reference count 0) and bound to no display (sentinel -1). -/
def ResourceManager.new : ResourceManager :=
  { num_displays_ := 0, drms_ := [], importers_ := [], soc_id_ := 0, drmVersion_ := 0,
    fb0_fd := -1, mapDrmDisplayCompositor_ := [], displays_ := [], hwcPlatform_ := none,
    bEnableWriteBack_ := 0, iWriteBackDisplayId_ := -1, mWBMode_ := ⟨0, 0⟩,
    iWBWidth_ := 0, iWBHeight_ := 0, iWBFormat_ := 0, mWriteBackBQ_ := none,
    mNextWriteBackBuffer_ := none, mDrawingWriteBackBuffer_ := none,
    mFinishWriteBackBuffer_ := none, allocated_ := 0 }

/-- The loop of `ResourceManager::GetDrmDevice` over `drms_`: the first device that handles the
display id with the split-mode bits cleared. `splitMask` is `DRM_CONNECTOR_SPILT_MODE_MASK`,
whose definition is in a header outside the translated files. -/
def GetDrmDeviceLoop (splitMask : Int) (display : Int) : List DrmDevice → Option DrmDevice
  | [] => none
  | drm :: rest =>
    if drm.HandlesDisplay (intAnd display (intNot splitMask)) then some drm
    else GetDrmDeviceLoop splitMask display rest

/-- The function `ResourceManager::GetDrmDevice`. -/
def ResourceManager.GetDrmDevice (splitMask : Int) (rm : ResourceManager) (display : Int) :
    Option DrmDevice :=
  GetDrmDeviceLoop splitMask display rm.drms_

/-- The function `ResourceManager::EnableWriteBackMode`. `initOk` is the outcome of the initialisation of
the buffer a dequeue would return. The result is `none` when no device handles the display and
the null device pointer is dereferenced. `bEnableWriteBack_++` is the increment of an `int`. -/
def ResourceManager.EnableWriteBackMode (splitMask : Int) (rm : ResourceManager)
    (display : Int) (initOk : Bool) : Option (Int × ResourceManager) :=
  if rm.bEnableWriteBack_ > 0 then
    if rm.iWriteBackDisplayId_ ≠ display then some (-1, rm)
    else some (0, { rm with bEnableWriteBack_ := wrapInt32 (rm.bEnableWriteBack_ + 1) })
  else
    match rm.GetDrmDevice splitMask display with
    | none => none
    | some drmDevice =>
      match drmDevice.GetConnectorForDisplay display with
      | none => some (-1, rm)
      | some writeBackConn =>
        if writeBackConn.state ≠ DRM_MODE_CONNECTED then some (-1, rm)
        else
          let currentMode := writeBackConn.current_mode
          let rm1 := { rm with
            mWBMode_ := currentMode
            iWBWidth_ := toInt32 (ALIGN_DOWN currentMode.width 16)
            iWBHeight_ := toInt32 currentMode.height
            iWBFormat_ := HAL_PIXEL_FORMAT_YCrCb_NV12 }
          match rm1.mWriteBackBQ_ with
          | none =>
            let next := DrmBufferQueue.DequeueDrmBuffer rm1.allocated_ rm1.iWBWidth_
              rm1.iWBHeight_ rm1.iWBFormat_ initOk
            let rm2 := { rm1 with
              mWriteBackBQ_ := some { queued := [] }
              mNextWriteBackBuffer_ := some next
              allocated_ := rm1.allocated_ + 1 }
            if !next.valid then some (-1, rm2)
            else some (0, { rm2 with
              bEnableWriteBack_ := wrapInt32 (rm2.bEnableWriteBack_ + 1)
              iWriteBackDisplayId_ := display })
          | some _ =>
            some (0, { rm1 with
              bEnableWriteBack_ := wrapInt32 (rm1.bEnableWriteBack_ + 1)
              iWriteBackDisplayId_ := display })

/-- The function `ResourceManager::DisableWriteBackMode`. `bEnableWriteBack_--` is the decrement of an
`int`. -/
def ResourceManager.DisableWriteBackMode (rm : ResourceManager) (display : Int) :
    Int × ResourceManager :=
  if display ≠ rm.iWriteBackDisplayId_ then (0, rm)
  else
    let rm1 := { rm with bEnableWriteBack_ := wrapInt32 (rm.bEnableWriteBack_ - 1) }
    if rm1.bEnableWriteBack_ ≤ 0 then
      (0, { rm1 with
        mNextWriteBackBuffer_ := none
        mDrawingWriteBackBuffer_ := none
        mFinishWriteBackBuffer_ := none
        mWriteBackBQ_ := none
        iWriteBackDisplayId_ := -1 })
    else (0, rm1)

/-- The function `ResourceManager::SwapWBBuffer`. `queueRet` is the status the queue submission reports and
`initOk` the outcome of the initialisation of the replacement buffer. The result is `none` when
the queue pointer is null and is dereferenced. -/
def ResourceManager.SwapWBBuffer (rm : ResourceManager) (queueRet : Int) (initOk : Bool) :
    Option (Int × ResourceManager) :=
  if rm.bEnableWriteBack_ ≤ 0 then some (-1, rm)
  else
    let rm1 := { rm with mFinishWriteBackBuffer_ := rm.mDrawingWriteBackBuffer_ }
    let rm2 := { rm1 with mDrawingWriteBackBuffer_ := rm1.mNextWriteBackBuffer_ }
    match rm2.mWriteBackBQ_ with
    | none => none
    | some bq =>
      let (ret, bq1) := bq.QueueBuffer rm2.mDrawingWriteBackBuffer_ queueRet
      let rm3 := { rm2 with mWriteBackBQ_ := some bq1 }
      if ret ≠ 0 then some (-1, rm3)
      else
        let next := DrmBufferQueue.DequeueDrmBuffer rm3.allocated_ rm3.iWBWidth_
          rm3.iWBHeight_ rm3.iWBFormat_ initOk
        let rm4 := { rm3 with allocated_ := rm3.allocated_ + 1 }
        if !next.valid then some (-1, rm4)
        else some (0, { rm4 with mNextWriteBackBuffer_ := some next })

/-- The function `ResourceManager::UpdateWriteBackResolution`, with the arguments of `EnableWriteBackMode`. -/
def ResourceManager.UpdateWriteBackResolution (splitMask : Int) (rm : ResourceManager)
    (display : Int) (initOk : Bool) : Option (Int × ResourceManager) :=
  if rm.bEnableWriteBack_ > 0 ∧ rm.iWriteBackDisplayId_ ≠ display then some (-1, rm)
  else
    match rm.GetDrmDevice splitMask display with
    | none => none
    | some drmDevice =>
      match drmDevice.GetConnectorForDisplay display with
      | none => some (-1, rm)
      | some writeBackConn =>
        if writeBackConn.state ≠ DRM_MODE_CONNECTED then some (-1, rm)
        else
          let currentMode := writeBackConn.current_mode
          let rm1 := { rm with mWBMode_ := currentMode }
          let tempWBWidth := toInt32 (ALIGN_DOWN rm1.mWBMode_.width 16)
          let tempWBHeight := toInt32 rm1.mWBMode_.height
          if tempWBWidth = rm1.iWBWidth_ ∧ tempWBHeight = rm1.iWBHeight_ then some (0, rm1)
          else
            let rm2 := { rm1 with
              iWBWidth_ := tempWBWidth
              iWBHeight_ := tempWBHeight
              iWBFormat_ := HAL_PIXEL_FORMAT_YCrCb_NV12 }
            let bq : DrmBufferQueue :=
              match rm2.mWriteBackBQ_ with
              | none => { queued := [] }
              | some q => q
            let next := DrmBufferQueue.DequeueDrmBuffer rm2.allocated_ rm2.iWBWidth_
              rm2.iWBHeight_ rm2.iWBFormat_ initOk
            let rm3 := { rm2 with
              mWriteBackBQ_ := some bq
              mNextWriteBackBuffer_ := some next
              allocated_ := rm2.allocated_ + 1 }
            if !next.valid then some (-1, rm3) else some (0, rm3)

/-- What opening and initialising one device node yields: the status and display count of
`DrmDevice::Init`, the device object, and the importer `Importer::CreateInstance` builds for it
(absent when the creation fails). -/
structure DeviceProbe where
  ret : Int
  displays_added : Int
  drm : DrmDevice
  importer : Option Importer
deriving DecidableEq, Repr

/-- The function `ResourceManager::AddDrmDevice`. `probe path first` is what the node at `path` yields when
initialised with `first` as the first display id. -/
def ResourceManager.AddDrmDevice (probe : List Char → Int → DeviceProbe) (rm : ResourceManager)
    (path : List Char) : Int × ResourceManager :=
  let p := probe path rm.num_displays_
  if p.ret ≠ 0 then (p.ret, rm)
  else
    let rm1 := { rm with soc_id_ := p.drm.socId, drmVersion_ := p.drm.drmVersion }
    match p.importer with
    | none => (-ENODEV, rm1)
    | some importer =>
      (p.ret, { rm1 with
        importers_ := rm1.importers_ ++ [importer]
        drms_ := rm1.drms_ ++ [p.drm]
        num_displays_ := rm1.num_displays_ + p.displays_added })

/-- The loop of `ResourceManager::GetImporter`: the importer at the index of the first device
that handles the masked display id. The outer `none` is an index outside `importers_`. -/
def GetImporterLoop (splitMask : Int) (display : Int) (importers : List Importer) :
    Nat → List DrmDevice → Option (Option Importer)
  | _, [] => some none
  | i, drm :: rest =>
    if drm.HandlesDisplay (intAnd display (intNot splitMask)) then
      match importers.get? i with
      | none => none
      | some importer => some (some importer)
    else GetImporterLoop splitMask display importers (i + 1) rest

/-- The function `ResourceManager::GetImporter`. -/
def ResourceManager.GetImporter (splitMask : Int) (rm : ResourceManager) (display : Int) :
    Option (Option Importer) :=
  GetImporterLoop splitMask display rm.importers_ 0 rm.drms_

/-- Lookup in a map kept as an association list. -/
def mapFind {β : Type} (m : List (Int × β)) (key : Int) : Option β :=
  (m.find? (fun e => e.1 == key)).map Prod.snd

/-- The call `std::map::insert`: an entry whose key is present is left as it is. -/
def mapInsert {β : Type} (m : List (Int × β)) (key : Int) (value : β) : List (Int × β) :=
  if (mapFind m key).isSome then m else m ++ [(key, value)]

/-- The function `ResourceManager::GetDrmDisplayCompositor`. The outer `none` is the dereference of the end
iterator that `find` returns for a missing key. -/
def ResourceManager.GetDrmDisplayCompositor (rm : ResourceManager) (crtc : Option DrmCrtc) :
    Option (Option DrmDisplayCompositor) :=
  match crtc with
  | none => some none
  | some c =>
    if rm.mapDrmDisplayCompositor_.length = 0 then some none
    else
      match mapFind rm.mapDrmDisplayCompositor_ c.id with
      | none => none
      | some compositor => some (some compositor)

/-- What `ResourceManager::Init` observes outside the class: the value of the property
`vendor.hwc.drm.device`, the device nodes, the descriptor of the framebuffer console and the
platform instance built for a device (absent when the creation fails). -/
structure InitEnv where
  path_pattern : List Char
  probe : List Char → Int → DeviceProbe
  fb0 : Int
  platform : DrmDevice → Option HwcPlatform

/-- The loop of `ResourceManager::Init` over the numbered device paths, which ends at the first
failing `AddDrmDevice`; `none` when `fuel` iterations did not reach one. -/
def InitLoop (probe : List Char → Int → DeviceProbe) (pathStem : List Char) :
    Nat → Nat → ResourceManager → Option (Int × ResourceManager)
  | 0, _, _ => none
  | fuel + 1, idx, rm =>
    let (ret, rm1) := rm.AddDrmDevice probe (pathStem ++ (Nat.repr idx).toList)
    if ret ≠ 0 then some (ret, rm1) else InitLoop probe pathStem fuel (idx + 1) rm1

/-- The insertions of one compositor per CRTC into `mapDrmDisplayCompositor_`. -/
def insertCompositors (m : List (Int × DrmDisplayCompositor)) :
    List DrmCrtc → List (Int × DrmDisplayCompositor)
  | [] => m
  | crtc :: rest => insertCompositors (mapInsert m crtc.id ⟨m.length⟩) rest

/-- The function `ResourceManager::Init`. `none` when the property value is empty (its last character is
read), when the device loop runs out of `fuel`, or when `drms_.front()` is taken of an empty
sequence. -/
def ResourceManager.Init (env : InitEnv) (fuel : Nat) (rm : ResourceManager) :
    Option (Int × ResourceManager) :=
  match env.path_pattern.getLast? with
  | none => none
  | some last =>
    let added : Option (Int × ResourceManager) :=
      if last ≠ '%' then some (rm.AddDrmDevice env.probe env.path_pattern)
      else InitLoop env.probe env.path_pattern.dropLast fuel 0 rm
    match added with
    | none => none
    | some (ret, rm1) =>
      if rm1.num_displays_ = 0 then some (if ret ≠ 0 then -EINVAL else ret, rm1)
      else
        let rm2 := { rm1 with fb0_fd := env.fb0 }
        match rm2.drms_ with
        | [] => none
        | drm :: _ =>
          let rm3 := { rm2 with
            mapDrmDisplayCompositor_ := insertCompositors rm2.mapDrmDisplayCompositor_ drm.crtcs }
          let rm4 := { rm3 with displays_ := drm.displays }
          if rm4.displays_.length = 0 then some (if ret ≠ 0 then -EINVAL else ret, rm4)
          else
            let rm5 := { rm4 with hwcPlatform_ := env.platform drm }
            match rm5.hwcPlatform_ with
            | none => some (-1, rm5)
            | some _ => some (0, rm5)

/-! ## The planner -/

/-- A hardware plane and the ids of the CRTCs it can be attached to. -/
structure DrmPlane where
  id : Nat
  possible_crtcs : List Int
deriving DecidableEq, Repr

/-- Modelled from the spec: `DrmPlane::GetCrtcSupported` is not among the translated files; a
plane is usable for a CRTC iff it "reports that CRTC as supported". -/
def DrmPlane.GetCrtcSupported (plane : DrmPlane) (crtc : DrmCrtc) : Bool :=
  plane.possible_crtcs.contains crtc.id

/-- A layer handed to the planner. -/
structure DrmHwcLayer where
  id : Nat
  zpos : Int
deriving DecidableEq, Repr

/-- One entry of an assignment: a plane and the layers it scans out. -/
structure DrmCompositionPlane where
  plane : Option DrmPlane
  source_layers : List Nat
deriving DecidableEq, Repr

/-- The call `std::copy_if(first, last, std::back_inserter(out), pred)`. -/
def copy_if {α : Type} (pred : α → Bool) : List α → List α → List α
  | [], out => out
  | x :: rest, out => copy_if pred rest (if pred x then out ++ [x] else out)

/-- The function `Planner::GetUsablePlanes`. -/
def Planner.GetUsablePlanes (crtc : DrmCrtc) (primary_planes overlay_planes : List DrmPlane) :
    List DrmPlane :=
  let usable_planes : List DrmPlane := []
  let usable_planes := copy_if (fun plane => plane.GetCrtcSupported crtc) primary_planes
    usable_planes
  let usable_planes := copy_if (fun plane => plane.GetCrtcSupported crtc) overlay_planes
    usable_planes
  usable_planes

/-- What the provisioning stages share and may change: the assignment accumulator, the layer
list (passed by reference) and the pool of planes. -/
structure PlanState where
  composition : List DrmCompositionPlane
  layers : List DrmHwcLayer
  planes : List DrmPlane
deriving DecidableEq, Repr

/-- A provisioning stage (`PlanStage::TryHwcPolicy`): from the shared state and the CRTC to a
status and the state it leaves. -/
abbrev PlanStage := PlanState → DrmCrtc → Int × PlanState

/-- The loop of `Planner::TryHwcPolicy` over `stages_`. Besides the status and the state at the
point where the loop ends, it returns the number of stages that were called, counted from
`called`. -/
def Planner.runStages (crtc : DrmCrtc) : List PlanStage → PlanState → Nat → Int × PlanState × Nat
  | [], st, called => (0, st, called)
  | i :: rest, st, called =>
    let (ret, st1) := i st crtc
    if ret ≠ 0 then (ret, st1, called + 1) else Planner.runStages crtc rest st1 (called + 1)

/-- The function `Planner::TryHwcPolicy`, returning the number of stages it called next to the status and
the assignment. -/
def Planner.TryHwcPolicyCounted (stages_ : List PlanStage) (layers : List DrmHwcLayer)
    (crtc : DrmCrtc) (primary_planes overlay_planes : List DrmPlane) :
    Int × List DrmCompositionPlane × Nat :=
  let composition : List DrmCompositionPlane := []
  let planes := Planner.GetUsablePlanes crtc primary_planes overlay_planes
  if planes.isEmpty then (-ENODEV, [], 0)
  else
    let (ret, st, called) := Planner.runStages crtc stages_ ⟨composition, layers, planes⟩ 0
    if ret ≠ 0 then (ret, [], called) else (0, st.composition, called)

/-- The function `Planner::TryHwcPolicy`. -/
def Planner.TryHwcPolicy (stages_ : List PlanStage) (layers : List DrmHwcLayer)
    (crtc : DrmCrtc) (primary_planes overlay_planes : List DrmPlane) :
    Int × List DrmCompositionPlane :=
  let r := Planner.TryHwcPolicyCounted stages_ layers crtc primary_planes overlay_planes
  (r.1, r.2.1)

/-- The state the first `k` stages leave when each is run on what its predecessor left, whatever
status they report. -/
def stateAfter (crtc : DrmCrtc) : List PlanStage → PlanState → PlanState
  | [], st => st
  | i :: rest, st => stateAfter crtc rest (i st crtc).2

/-- Every stage of the list reports status 0 when run in list order on the shared state. -/
def allStagesOk (crtc : DrmCrtc) : List PlanStage → PlanState → Bool
  | [], _ => true
  | i :: rest, st => (i st crtc).1 == 0 && allStagesOk crtc rest (i st crtc).2

/-! ## The producer context -/

/-- The producer's buffer descriptor `vt_buffer_t`. -/
structure vt_buffer_t where
  buffer_id : Nat
  handle : Nat
  crop : Crop
deriving DecidableEq, Repr

/-- A release fence: the timeline value it waits for and the ids its name encodes. -/
structure ReleaseFence where
  value : Nat
  tunnel : Int
  buffer_id : Nat
  signaled : Bool
deriving DecidableEq, Repr

/-- A cached record `VpBufferInfo`. -/
structure VpBufferInfo where
  vp_buffer : vt_buffer_t
  drm_buffer : DrmBuffer
  release_fence : Option ReleaseFence
deriving DecidableEq, Repr

/-- The timeline of a context. -/
structure SyncTimeline where
  valid : Bool
  counter : Nat
deriving DecidableEq, Repr

/-- Modelled from the spec: `SyncTimeline::IncTimeline` is not among the translated files; it
"increments the timeline counter", a "monotonically increasing synchronization counter", and
yields the new value. The counter is 64 bits wide; its wrap-around after 2^64 increments is left
out. -/
def SyncTimeline.IncTimeline (t : SyncTimeline) : Nat × SyncTimeline :=
  (t.counter + 1, { t with counter := t.counter + 1 })

/-- The members of `VpContext` read or written by the translated functions. `mMapBuffer_` is
kept as an association list with one entry per key. `imported_` is not a member of the class: it
counts the `DrmBuffer` objects constructed so far and is the serial of the next one. -/
structure VpContext where
  iTunnelId_ : Int
  uFrameNo_ : Nat
  mTimeLine_ : SyncTimeline
  mMapBuffer_ : List (Nat × VpBufferInfo)
  imported_ : Nat
deriving DecidableEq, Repr

/-- The call `mMapBuffer_.count(buffer_id)` together with the read of the entry. -/
def cacheFind (m : List (Nat × VpBufferInfo)) (buffer_id : Nat) : Option VpBufferInfo :=
  (m.find? (fun e => e.1 == buffer_id)).map Prod.snd

/-- The write `mMapBuffer_[buffer_id] = info`, and the update of the record an entry shares. -/
def cacheSet (m : List (Nat × VpBufferInfo)) (buffer_id : Nat) (info : VpBufferInfo) :
    List (Nat × VpBufferInfo) :=
  match m with
  | [] => [(buffer_id, info)]
  | e :: rest =>
    if e.1 == buffer_id then (buffer_id, info) :: rest else e :: cacheSet rest buffer_id info

/-- The keys of the cache. -/
def cacheKeys (m : List (Nat × VpBufferInfo)) : List Nat := m.map Prod.fst

/-- The function `VpContext::GetBufferCache`. `importOk` is the outcome of the validity check of the buffer
an import of the handle would construct. -/
def VpContext.GetBufferCache (ctx : VpContext) (vp_buffer : vt_buffer_t) (importOk : Bool) :
    Option DrmBuffer × VpContext :=
  let buffer_id := vp_buffer.buffer_id
  match cacheFind ctx.mMapBuffer_ buffer_id with
  | some info =>
    let out_buffer := { info.drm_buffer with crop := vp_buffer.crop }
    let info1 := { info with vp_buffer := vp_buffer, drm_buffer := out_buffer }
    (some out_buffer, { ctx with mMapBuffer_ := cacheSet ctx.mMapBuffer_ buffer_id info1 })
  | none =>
    let drm_buffer : DrmBuffer :=
      { id := ctx.imported_, width := 0, height := 0, format := 0, valid := importOk,
        crop := ⟨0, 0, 0, 0⟩, externalId := 0 }
    let ctx1 := { ctx with imported_ := ctx.imported_ + 1 }
    if !drm_buffer.valid then (none, ctx1)
    else
      let drm_buffer1 := { drm_buffer with crop := vp_buffer.crop }
      let drm_buffer2 := { drm_buffer1 with externalId := vp_buffer.buffer_id }
      let vp_buffer_info : VpBufferInfo := ⟨vp_buffer, drm_buffer2, none⟩
      (some vp_buffer_info.drm_buffer,
        { ctx1 with mMapBuffer_ := cacheSet ctx1.mMapBuffer_ buffer_id vp_buffer_info })

/-- The function `VpContext::GetVpBufferInfo`. -/
def VpContext.GetVpBufferInfo (ctx : VpContext) (buffer_id : Nat) : Option vt_buffer_t :=
  (cacheFind ctx.mMapBuffer_ buffer_id).map VpBufferInfo.vp_buffer

/-- The characters `sprintf` produces for the format `RFVP-ID%d-B%llu-FN%llu` of
`VpContext::AddReleaseFence` (the two `PRIu64` conversions written out), the terminating NUL not
included: the tunnel id, the buffer id and the frame number in decimal between the fixed parts
of the name. -/
def fenceName (tunnel : Int) (buffer_id frameNo : Nat) : List Char :=
  "RFVP-ID".toList ++ (toString tunnel).toList ++ "-B".toList ++ (toString buffer_id).toList ++
    "-FN".toList ++ (toString frameNo).toList

/-- The function `VpContext::AddReleaseFence`. The name of the fence is written by `sprintf` into the local
array `char acBuf[32]` after the timeline has been incremented; the result is `none` when the
name and its terminating NUL take more than the 32 bytes of the array, so that `sprintf` writes
past its end. -/
def VpContext.AddReleaseFence (ctx : VpContext) (buffer_id : Nat) : Option (Int × VpContext) :=
  if !ctx.mTimeLine_.valid then some (-1, ctx)
  else
    match cacheFind ctx.mMapBuffer_ buffer_id with
    | some buffer_info =>
      let (frameNo, timeline) := ctx.mTimeLine_.IncTimeline
      let ctx1 := { ctx with mTimeLine_ := timeline, uFrameNo_ := frameNo }
      let acBuf := fenceName ctx1.iTunnelId_ buffer_id ctx1.uFrameNo_
      if 32 < acBuf.length + 1 then none
      else
        let release_fence : ReleaseFence := ⟨ctx1.uFrameNo_, ctx1.iTunnelId_, buffer_id, false⟩
        let buffer_info1 := { buffer_info with release_fence := some release_fence }
        some (0, { ctx1 with mMapBuffer_ := cacheSet ctx1.mMapBuffer_ buffer_id buffer_info1 })
    | none => some (-1, ctx)

/-- The function `VpContext::GetReleaseFence`. -/
def VpContext.GetReleaseFence (ctx : VpContext) (buffer_id : Nat) : Option ReleaseFence :=
  if !ctx.mTimeLine_.valid then none
  else
    match cacheFind ctx.mMapBuffer_ buffer_id with
    | some buffer_info => buffer_info.release_fence
    | none => none

/-- The function `VpContext::SignalReleaseFence`; signalling marks the attached fence satisfied. -/
def VpContext.SignalReleaseFence (ctx : VpContext) (buffer_id : Nat) : Int × VpContext :=
  if !ctx.mTimeLine_.valid then (-1, ctx)
  else
    match cacheFind ctx.mMapBuffer_ buffer_id with
    | some buffer_info =>
      let signaled := buffer_info.release_fence.map (fun f => { f with signaled := true })
      let buffer_info1 := { buffer_info with release_fence := signaled }
      (0, { ctx with mMapBuffer_ := cacheSet ctx.mMapBuffer_ buffer_id buffer_info1 })
    | none => (-1, ctx)

/-! ## Sequences of calls and the predicates of the statements -/

/-- One step of a writeback session: a call of one of the four session operations, or a change
of the devices and of the state of their connectors between two calls. -/
inductive WBCall where
  | enable (display : Int) (initOk : Bool)
  | update (display : Int) (initOk : Bool)
  | disable (display : Int)
  | swap (queueRet : Int) (initOk : Bool)
  | devices (drms : List DrmDevice)
deriving DecidableEq, Repr

/-- The step is an `EnableWriteBackMode` or `DisableWriteBackMode` call that passes the unbound
sentinel -1 as its display argument. -/
def WBCall.passesSentinel : WBCall → Bool
  | .enable display _ => display == -1
  | .disable display => display == -1
  | _ => false

/-- The state after one step; `none` when the call dereferences a null pointer. -/
def ResourceManager.step (splitMask : Int) (rm : ResourceManager) : WBCall → Option ResourceManager
  | .enable display initOk => (rm.EnableWriteBackMode splitMask display initOk).map Prod.snd
  | .update display initOk =>
    (rm.UpdateWriteBackResolution splitMask display initOk).map Prod.snd
  | .disable display => some (rm.DisableWriteBackMode display).2
  | .swap queueRet initOk => (rm.SwapWBBuffer queueRet initOk).map Prod.snd
  | .devices drms => some { rm with drms_ := drms }

/-- The state after a sequence of steps. -/
def ResourceManager.steps (splitMask : Int) : ResourceManager → List WBCall → Option ResourceManager
  | rm, [] => some rm
  | rm, c :: rest =>
    match rm.step splitMask c with
    | none => none
    | some rm1 => ResourceManager.steps splitMask rm1 rest

/-- The reference count is not negative and the session is bound to no display exactly when the
count is zero. -/
def ResourceManager.CountMatchesBinding (rm : ResourceManager) : Prop :=
  0 ≤ rm.bEnableWriteBack_ ∧ (rm.iWriteBackDisplayId_ = -1 ↔ rm.bEnableWriteBack_ = 0)

instance (rm : ResourceManager) : Decidable rm.CountMatchesBinding := by
  unfold ResourceManager.CountMatchesBinding
  infer_instance

/-- The buffer in a slot, if any, was allocated before the `n`-th allocation. -/
def slotAllocated (n : Nat) : Option DrmBuffer → Bool
  | none => true
  | some b => decide (b.id < n)

/-- Every buffer held in a slot is one of the buffers allocated so far. -/
def ResourceManager.SlotsAllocated (rm : ResourceManager) : Prop :=
  slotAllocated rm.allocated_ rm.mNextWriteBackBuffer_ = true ∧
  slotAllocated rm.allocated_ rm.mDrawingWriteBackBuffer_ = true ∧
  slotAllocated rm.allocated_ rm.mFinishWriteBackBuffer_ = true

instance (rm : ResourceManager) : Decidable rm.SlotsAllocated := by
  unfold ResourceManager.SlotsAllocated
  infer_instance

/-- The values of the fences attached by the successful calls of a sequence of
`AddReleaseFence` calls, in the order of the calls, and the context the sequence leaves. The value
is read off the fence the call attached to the record. A call that writes past `acBuf` ends the
sequence: the values are those of the calls before it and there is no context left. -/
def VpContext.addReleaseFences : VpContext → List Nat → List Nat × Option VpContext
  | ctx, [] => ([], some ctx)
  | ctx, buffer_id :: rest =>
    match ctx.AddReleaseFence buffer_id with
    | none => ([], none)
    | some (ret, ctx1) =>
      let (values, ctx2) := VpContext.addReleaseFences ctx1 rest
      if ret = 0 then
        match ctx1.GetReleaseFence buffer_id with
        | some fence => (fence.value :: values, ctx2)
        | none => (values, ctx2)
      else (values, ctx2)

/-- The number of `EnableWriteBackMode` calls among the steps. -/
def enableCalls : List WBCall → Nat
  | [] => 0
  | .enable _ _ :: rest => enableCalls rest + 1
  | _ :: rest => enableCalls rest

/-- A session enabled for display 0 with three distinct buffers in its slots. -/
def sessionExample : ResourceManager :=
  { ResourceManager.new with
    bEnableWriteBack_ := 1
    iWriteBackDisplayId_ := 0
    iWBWidth_ := 1920
    iWBHeight_ := 1080
    iWBFormat_ := HAL_PIXEL_FORMAT_YCrCb_NV12
    mWriteBackBQ_ := some { queued := [] }
    mNextWriteBackBuffer_ := some (DrmBufferQueue.DequeueDrmBuffer 2 1920 1080 21 true)
    mDrawingWriteBackBuffer_ := some (DrmBufferQueue.DequeueDrmBuffer 1 1920 1080 21 true)
    mFinishWriteBackBuffer_ := some (DrmBufferQueue.DequeueDrmBuffer 0 1920 1080 21 true)
    allocated_ := 3 }

/-- A device that handles display 0 through a connected connector in mode 1928x1080. -/
def deviceExample : DrmDevice :=
  { fd := 3, socId := 0, drmVersion := 2, displays := [0],
    connectors := [⟨0, 1, ⟨1928, 1080⟩⟩], crtcs := [⟨71, 0⟩] }

/-- A device node that initialises without error and exposes no display. -/
def probeNoDisplays : List Char → Int → DeviceProbe :=
  fun _ _ => { ret := 0, displays_added := 0,
               drm := { fd := 3, socId := 0, drmVersion := 2, displays := [], connectors := [],
                        crtcs := [] },
               importer := some ⟨3⟩ }

/-- An environment with the single fixed path `/dev/dri/card0`, whose node exposes no display. -/
def envNoDisplays : InitEnv :=
  { path_pattern := "/dev/dri/card0".toList, probe := probeNoDisplays, fb0 := -1,
    platform := fun _ => some ⟨3⟩ }

/-! ## Concrete inputs used by the evaluations -/

/-- The session a `DisableWriteBackMode(-1)` leaves when called on the initial session. -/
def sessionAfterSentinelDisable : ResourceManager :=
  { ResourceManager.new with bEnableWriteBack_ := -1 }

/-- A device with a connected connector registered for the display id -1. -/
def deviceSentinel : DrmDevice :=
  { fd := 3, socId := 0, drmVersion := 2, displays := [-1],
    connectors := [⟨-1, 1, ⟨1920, 1080⟩⟩], crtcs := [] }

/-- A sequence of steps none of which passes the sentinel. -/
def callsExample : List WBCall :=
  [WBCall.devices [deviceExample], WBCall.enable 0 true, WBCall.enable 0 true,
    WBCall.enable 1 true, WBCall.disable 0]

/-- The session `callsExample` leaves. -/
def sessionAfterCalls : ResourceManager :=
  { ResourceManager.new with
    drms_ := [deviceExample]
    bEnableWriteBack_ := 1
    iWriteBackDisplayId_ := 0
    mWBMode_ := ⟨1928, 1080⟩
    iWBWidth_ := 1920
    iWBHeight_ := 1080
    iWBFormat_ := 21
    mWriteBackBQ_ := some { queued := [] }
    mNextWriteBackBuffer_ := some (DrmBufferQueue.DequeueDrmBuffer 0 1920 1080 21 true)
    allocated_ := 1 }

/-- A sequence of steps that enables writeback for display 0 and swaps twice. -/
def callsTwoSwaps : List WBCall :=
  [WBCall.devices [deviceExample], WBCall.enable 0 true, WBCall.swap 0 true,
    WBCall.swap 0 true]

/-- The session `callsTwoSwaps` leaves: three distinct buffers in the three slots. -/
def sessionTwoSwaps : ResourceManager :=
  { sessionAfterCalls with
    mWriteBackBQ_ := some { queued :=
      [some (DrmBufferQueue.DequeueDrmBuffer 0 1920 1080 21 true),
       some (DrmBufferQueue.DequeueDrmBuffer 1 1920 1080 21 true)] }
    mNextWriteBackBuffer_ := some (DrmBufferQueue.DequeueDrmBuffer 2 1920 1080 21 true)
    mDrawingWriteBackBuffer_ := some (DrmBufferQueue.DequeueDrmBuffer 1 1920 1080 21 true)
    mFinishWriteBackBuffer_ := some (DrmBufferQueue.DequeueDrmBuffer 0 1920 1080 21 true)
    allocated_ := 3 }

/-- The session a third successful swap leaves when called on `sessionTwoSwaps`. -/
def sessionThreeSwaps : ResourceManager :=
  { sessionTwoSwaps with
    mWriteBackBQ_ := some { queued :=
      [some (DrmBufferQueue.DequeueDrmBuffer 0 1920 1080 21 true),
       some (DrmBufferQueue.DequeueDrmBuffer 1 1920 1080 21 true),
       some (DrmBufferQueue.DequeueDrmBuffer 2 1920 1080 21 true)] }
    mNextWriteBackBuffer_ := some (DrmBufferQueue.DequeueDrmBuffer 3 1920 1080 21 true)
    mDrawingWriteBackBuffer_ := some (DrmBufferQueue.DequeueDrmBuffer 2 1920 1080 21 true)
    mFinishWriteBackBuffer_ := some (DrmBufferQueue.DequeueDrmBuffer 1 1920 1080 21 true)
    allocated_ := 4 }

/-- A disabled session whose registry holds `deviceExample`. -/
def sessionWithDevice : ResourceManager :=
  { ResourceManager.new with drms_ := [deviceExample] }

/-- A stage that gives the first plane of the pool to the first remaining layer. -/
def stageTakePlane : PlanStage := fun st _ =>
  match st.planes, st.layers with
  | plane :: planes, layer :: layers =>
    (0, { composition := st.composition ++ [⟨some plane, [layer.id]⟩], layers := layers,
          planes := planes })
  | _, _ => (0, st)

/-- A stage that appends an entry and then fails with `-EINVAL`. -/
def stageReject : PlanStage := fun st _ =>
  (-22, { st with composition := st.composition ++ [⟨none, []⟩] })

/-- A CRTC. -/
def crtcExample : DrmCrtc := ⟨71, 0⟩

/-- Two layers. -/
def layersExample : List DrmHwcLayer := [⟨10, 0⟩, ⟨11, 1⟩]

/-- A producer context with an empty cache and a valid timeline. -/
def contextEmpty : VpContext :=
  { iTunnelId_ := 1, uFrameNo_ := 0, mTimeLine_ := ⟨true, 0⟩, mMapBuffer_ := [], imported_ := 0 }

/-- A buffer descriptor for the external id 7. -/
def descriptorFirst : vt_buffer_t := ⟨7, 100, ⟨0, 0, 1920, 1080⟩⟩

/-- A second descriptor for the external id 7, with another crop rectangle. -/
def descriptorSecond : vt_buffer_t := ⟨7, 100, ⟨0, 0, 1280, 720⟩⟩

/-- The buffer the import for `descriptorFirst` constructs in `contextEmpty`. -/
def bufferFirst : DrmBuffer :=
  { id := 0, width := 0, height := 0, format := 0, valid := true,
    crop := ⟨0, 0, 1920, 1080⟩, externalId := 7 }

/-- A producer context that caches the external ids 7 and 8. -/
def contextTwoBuffers : VpContext :=
  ((contextEmpty.GetBufferCache descriptorFirst true).2.GetBufferCache
    ⟨8, 101, ⟨0, 0, 1920, 1080⟩⟩ true).2

/-! ## Concrete inputs used by the evaluations of the later claims -/

/-- The device of `deviceExample` after its connector has changed to mode 1920x1080. -/
def deviceMode1920 : DrmDevice :=
  { fd := 3, socId := 0, drmVersion := 2, displays := [0],
    connectors := [⟨0, 1, ⟨1920, 1080⟩⟩], crtcs := [⟨71, 0⟩] }

/-- The device of `deviceExample` after its connector has changed to mode 1280x720. -/
def deviceMode1280 : DrmDevice :=
  { fd := 3, socId := 0, drmVersion := 2, displays := [0],
    connectors := [⟨0, 1, ⟨1280, 720⟩⟩], crtcs := [⟨71, 0⟩] }

/-- The session `UpdateWriteBackResolution(0)` leaves when called on the disabled session
`sessionWithDevice`. -/
def sessionUpdatedWhileDisabled : ResourceManager :=
  { sessionWithDevice with
    mWBMode_ := ⟨1928, 1080⟩
    iWBWidth_ := 1920
    iWBHeight_ := 1080
    iWBFormat_ := 21
    mWriteBackBQ_ := some { queued := [] }
    mNextWriteBackBuffer_ := some (DrmBufferQueue.DequeueDrmBuffer 0 1920 1080 21 true)
    allocated_ := 1 }

/-- The session a swap leaves when called on `sessionTwoSwaps` with a replacement buffer that
fails its initialisation check. -/
def sessionSwapFailed : ResourceManager :=
  { sessionTwoSwaps with
    mWriteBackBQ_ := some { queued :=
      [some (DrmBufferQueue.DequeueDrmBuffer 0 1920 1080 21 true),
       some (DrmBufferQueue.DequeueDrmBuffer 1 1920 1080 21 true),
       some (DrmBufferQueue.DequeueDrmBuffer 2 1920 1080 21 true)] }
    mDrawingWriteBackBuffer_ := some (DrmBufferQueue.DequeueDrmBuffer 2 1920 1080 21 true)
    mFinishWriteBackBuffer_ := some (DrmBufferQueue.DequeueDrmBuffer 1 1920 1080 21 true)
    allocated_ := 4 }

/-- The session an `EnableWriteBackMode(0)` leaves when called on `sessionWithDevice` with a
dequeued buffer that fails its initialisation check: still disabled, with a queue and with the
failed buffer in the next slot. -/
def sessionAfterFailedEnable : ResourceManager :=
  { sessionWithDevice with
    mWBMode_ := ⟨1928, 1080⟩
    iWBWidth_ := 1920
    iWBHeight_ := 1080
    iWBFormat_ := 21
    mWriteBackBQ_ := some { queued := [] }
    mNextWriteBackBuffer_ := some (DrmBufferQueue.DequeueDrmBuffer 0 1920 1080 21 false)
    allocated_ := 1 }

/-- The session a second `EnableWriteBackMode(0)` leaves when called on
`sessionAfterFailedEnable`. -/
def sessionEnabledWithFailedBuffer : ResourceManager :=
  { sessionAfterFailedEnable with bEnableWriteBack_ := 1, iWriteBackDisplayId_ := 0 }

/-- The session `sessionUpdatedWhileDisabled` after the connector has changed to 1280x720. -/
def sessionUpdatedThenModeChanged : ResourceManager :=
  { sessionUpdatedWhileDisabled with drms_ := [deviceMode1280] }

/-- The session `EnableWriteBackMode(0)` leaves when called on `sessionUpdatedThenModeChanged`:
capture size 1280x720, next buffer of size 1920x1080. -/
def sessionEnabledWithStaleBuffer : ResourceManager :=
  { sessionUpdatedThenModeChanged with
    bEnableWriteBack_ := 1
    iWriteBackDisplayId_ := 0
    mWBMode_ := ⟨1280, 720⟩
    iWBWidth_ := 1280
    iWBHeight_ := 720 }

/-- The enabled session `sessionAfterCalls` after the connector has changed to mode 1920x1080,
which has the capture size of the cached mode 1928x1080. -/
def sessionModeChanged : ResourceManager :=
  { sessionAfterCalls with drms_ := [deviceMode1920] }

/-- The session `sessionExample` with reference count 2. -/
def sessionEnabledTwice : ResourceManager :=
  { sessionExample with bEnableWriteBack_ := 2 }

/-- The session `DisableWriteBackMode(0)` leaves when called on `sessionExample`. -/
def sessionDisabledAgain : ResourceManager :=
  { sessionExample with
    bEnableWriteBack_ := 0
    iWriteBackDisplayId_ := -1
    mWriteBackBQ_ := none
    mNextWriteBackBuffer_ := none
    mDrawingWriteBackBuffer_ := none
    mFinishWriteBackBuffer_ := none }

/-- Primary planes: two for CRTC 71, with one for CRTC 72 between them. -/
def primaryExample : List DrmPlane := [⟨1, [71]⟩, ⟨2, [72]⟩, ⟨3, [71, 72]⟩]

/-- Overlay planes: one for CRTC 72 and one for CRTC 71. -/
def overlayExample : List DrmPlane := [⟨4, [72]⟩, ⟨5, [71]⟩]

/-! ## Sequences of device registrations and inputs of the last claims -/

/-- The resource manager after a sequence of `AddDrmDevice` calls, the i-th of which observes
the i-th element of the list as the outcome of opening and initialising its device node and of
creating its importer. -/
def ResourceManager.addDrmDevices : ResourceManager → List DeviceProbe → ResourceManager
  | rm, [] => rm
  | rm, p :: rest =>
    ResourceManager.addDrmDevices (rm.AddDrmDevice (fun _ _ => p) []).2 rest

/-- The device and the importer of each outcome with initialisation status 0 and an importer,
in the order of the outcomes. -/
def registeredPairs : List DeviceProbe → List (DrmDevice × Importer)
  | [] => []
  | p :: rest =>
    if p.ret = 0 then
      match p.importer with
      | some importer => (p.drm, importer) :: registeredPairs rest
      | none => registeredPairs rest
    else registeredPairs rest

/-- The sum of the display counts of the outcomes with initialisation status 0 and an
importer. -/
def registeredDisplays : List DeviceProbe → Int
  | [] => 0
  | p :: rest =>
    if p.ret = 0 then
      match p.importer with
      | some _ => p.displays_added + registeredDisplays rest
      | none => registeredDisplays rest
    else registeredDisplays rest

/-- A device that handles display 1 through a connected connector. -/
def deviceSecond : DrmDevice :=
  { fd := 4, socId := 0, drmVersion := 2, displays := [1],
    connectors := [⟨1, 1, ⟨1280, 720⟩⟩], crtcs := [⟨85, 1⟩] }

/-- Four outcomes: a device with one display, a node that fails to initialise, a device whose
importer cannot be created, and a second device with one display. -/
def outcomesExample : List DeviceProbe :=
  [{ ret := 0, displays_added := 1, drm := deviceExample, importer := some ⟨3⟩ },
   { ret := -19, displays_added := 0, drm := deviceMode1280, importer := none },
   { ret := 0, displays_added := 1, drm := deviceMode1920, importer := none },
   { ret := 0, displays_added := 1, drm := deviceSecond, importer := some ⟨4⟩ }]

/-- A resource manager whose compositor map has the single key 71. -/
def managerWithCompositor : ResourceManager :=
  { ResourceManager.new with mapDrmDisplayCompositor_ := [(71, ⟨0⟩)] }

/-! ## Concrete inputs at the limits of the machine types -/

/-- The session `sessionAfterCalls` with the reference count at `INT_MAX`. -/
def sessionCountMax : ResourceManager :=
  { sessionAfterCalls with bEnableWriteBack_ := 2147483647 }

/-- The session an `EnableWriteBackMode(0)` leaves when called on `sessionCountMax`: the
reference count is `INT_MIN`, everything else is as in `sessionAfterCalls`. -/
def sessionCountOverflowed : ResourceManager :=
  { sessionAfterCalls with bEnableWriteBack_ := -2147483648 }

/-- The initial session with the reference count at `INT_MIN`. -/
def sessionCountMin : ResourceManager :=
  { ResourceManager.new with bEnableWriteBack_ := -2147483648 }

/-- The session a `DisableWriteBackMode(-1)` leaves when called on `sessionCountMin`: the
reference count is `INT_MAX`, and there is neither a queue nor a bound display. -/
def sessionCountWrapped : ResourceManager :=
  { ResourceManager.new with bEnableWriteBack_ := 2147483647 }

/-- A device that handles display 0 through a connected connector whose mode has the width
2^32 - 1 and the height 2^31. -/
def deviceHugeMode : DrmDevice :=
  { fd := 3, socId := 0, drmVersion := 2, displays := [0],
    connectors := [⟨0, 1, ⟨4294967295, 2147483648⟩⟩], crtcs := [⟨71, 0⟩] }

/-- A disabled session whose registry holds `deviceHugeMode`. -/
def sessionHugeMode : ResourceManager :=
  { ResourceManager.new with drms_ := [deviceHugeMode] }

/-- A producer context with tunnel id 1 that caches the external ids 7 and 2^64 - 1. -/
def contextLongId : VpContext :=
  ((contextEmpty.GetBufferCache descriptorFirst true).2.GetBufferCache
    ⟨18446744073709551615, 101, ⟨0, 0, 1920, 1080⟩⟩ true).2

/-- A producer context with tunnel id 45 that caches the external id 6442450944001 and has
issued 9999 fences. -/
def contextLongRun : VpContext :=
  { iTunnelId_ := 45, uFrameNo_ := 9999, mTimeLine_ := ⟨true, 9999⟩,
    mMapBuffer_ := [(6442450944001, ⟨⟨6442450944001, 100, ⟨0, 0, 1920, 1080⟩⟩,
      { id := 0, width := 0, height := 0, format := 0, valid := true,
        crop := ⟨0, 0, 1920, 1080⟩, externalId := 6442450944001 }, none⟩)],
    imported_ := 1 }

/-! ## Machine integers: lemmas -/

theorem toU32_lt (x : Int) : toU32 x < 4294967296 := by
  unfold toU32; omega

theorem toU32_toInt32 (n : Nat) : toU32 (toInt32 n) = n % 4294967296 := by
  unfold toU32 toInt32
  split <;> omega

theorem toInt32_of_lt (n : Nat) (h : n < 2147483648) : toInt32 n = (n : Int) := by
  unfold toInt32
  have : n % 4294967296 = n := Nat.mod_eq_of_lt (by omega)
  rw [this]; simp [h]

theorem toInt32_eq_ite (n : Nat) (h : n < 4294967296) :
    toInt32 n = if n < 2147483648 then (n : Int) else (n : Int) - 4294967296 := by
  unfold toInt32
  rw [Nat.mod_eq_of_lt h]

theorem wrapInt32_of_range (x : Int) (h1 : -2147483648 ≤ x) (h2 : x ≤ 2147483647) :
    wrapInt32 x = x := by
  unfold wrapInt32 toInt32 toU32
  split <;> omega

theorem wrapInt32_range (x : Int) : -2147483648 ≤ wrapInt32 x ∧ wrapInt32 x ≤ 2147483647 := by
  unfold wrapInt32 toInt32 toU32
  split <;> omega

theorem land_compl_of_lor (a b : Nat) (hb : b < 4294967296) :
    (a ||| b) &&& (4294967295 - b) = a &&& (4294967295 - b) := by
  apply Nat.eq_of_testBit_eq
  intro i
  have h : 4294967295 - b = 2 ^ 32 - (b + 1) := by norm_num; omega
  have hb2 : b < 2 ^ 32 := by norm_num; exact hb
  rw [h]
  simp only [Nat.testBit_and, Nat.testBit_or, Nat.testBit_two_pow_sub_succ hb2]
  cases a.testBit i <;> cases b.testBit i <;> simp

theorem land_compl_idem (a c : Nat) : (a &&& c) &&& c = a &&& c := by
  apply Nat.eq_of_testBit_eq
  intro i
  simp only [Nat.testBit_and]
  cases a.testBit i <;> cases c.testBit i <;> simp

theorem intAnd_intOr_mask (x m : Int) : intAnd (intOr x m) (intNot m) = intAnd x (intNot m) := by
  unfold intAnd intOr intNot
  have ha := toU32_lt x
  have hb := toU32_lt m
  have hor : (toU32 x ||| toU32 m) < 2 ^ 32 :=
    Nat.or_lt_two_pow (by norm_num; exact ha) (by norm_num; exact hb)
  have hor2 : (toU32 x ||| toU32 m) < 4294967296 := by norm_num at hor; exact hor
  rw [toU32_toInt32, toU32_toInt32, Nat.mod_eq_of_lt hor2,
    Nat.mod_eq_of_lt (by omega), land_compl_of_lor _ _ hb]

theorem intAnd_mask_idem (x m : Int) :
    intAnd (intAnd x (intNot m)) (intNot m) = intAnd x (intNot m) := by
  unfold intAnd
  have hand : (toU32 x &&& toU32 (intNot m)) < 4294967296 :=
    lt_of_le_of_lt Nat.and_le_left (toU32_lt x)
  rw [toU32_toInt32, Nat.mod_eq_of_lt hand, land_compl_idem]

theorem align_down_16 (w : Nat) (hw : w < 4294967296) : ALIGN_DOWN w 16 = 16 * (w / 16) := by
  have hmask : toU32 (intNot (16 - 1)) = 2 ^ 4 * (2 ^ 28 - 1) := by decide
  unfold ALIGN_DOWN
  rw [hmask, Nat.mod_eq_of_lt hw]
  apply Nat.eq_of_testBit_eq
  intro i
  have h16 : (16 : Nat) = 2 ^ 4 := by norm_num
  rw [h16, Nat.testBit_and, Nat.testBit_mul_pow_two, Nat.testBit_mul_pow_two,
    Nat.testBit_two_pow_sub_one, ← Nat.shiftRight_eq_div_pow, Nat.testBit_shiftRight]
  by_cases h4 : 4 ≤ i
  · have hi : 4 + (i - 4) = i := by omega
    simp only [h4, decide_True, Bool.true_and, hi]
    by_cases h32 : i < 32
    · have : i - 4 < 28 := by omega
      simp [this]
    · have hge : 2 ^ 32 ≤ 2 ^ i := Nat.pow_le_pow_right (by norm_num) (by omega)
      have : w.testBit i = false := Nat.testBit_eq_false_of_lt (by omega)
      simp [this]
  · simp [h4]

/-! ## Writeback session: lemmas -/

theorem enable_keeps_count_binding (splitMask : Int) (rm rm1 : ResourceManager) (display ret : Int)
    (initOk : Bool) (hinv : rm.CountMatchesBinding) (hmax : rm.bEnableWriteBack_ < 2147483647)
    (hd : display ≠ -1)
    (h : rm.EnableWriteBackMode splitMask display initOk = some (ret, rm1)) :
    rm1.CountMatchesBinding ∧ rm1.bEnableWriteBack_ ≤ rm.bEnableWriteBack_ + 1 := by
  unfold ResourceManager.CountMatchesBinding at hinv ⊢
  obtain ⟨h0, hiff⟩ := hinv
  have hw : wrapInt32 (rm.bEnableWriteBack_ + 1) = rm.bEnableWriteBack_ + 1 :=
    wrapInt32_of_range _ (by omega) (by omega)
  unfold ResourceManager.EnableWriteBackMode at h
  simp only [hw] at h
  repeat' split at h
  all_goals first
    | contradiction
    | (simp only [Option.some.injEq, Prod.mk.injEq] at h
       obtain ⟨-, rfl⟩ := h
       exact ⟨⟨h0, hiff⟩, by omega⟩)
    | (simp only [Option.some.injEq, Prod.mk.injEq] at h
       obtain ⟨-, rfl⟩ := h
       simp only
       refine ⟨⟨by omega, ?_⟩, by omega⟩
       constructor
       · intro hid
         first
           | exact absurd hid hd
           | (have hz := hiff.1 hid
              omega)
       · intro hc
         omega)

theorem disable_keeps_count_binding (rm : ResourceManager) (display : Int)
    (hinv : rm.CountMatchesBinding) (hmax : rm.bEnableWriteBack_ ≤ 2147483647)
    (hd : display ≠ -1) :
    (rm.DisableWriteBackMode display).2.CountMatchesBinding ∧
    (rm.DisableWriteBackMode display).2.bEnableWriteBack_ ≤ rm.bEnableWriteBack_ := by
  unfold ResourceManager.CountMatchesBinding at hinv ⊢
  obtain ⟨h0, hiff⟩ := hinv
  have hw : wrapInt32 (rm.bEnableWriteBack_ - 1) = rm.bEnableWriteBack_ - 1 ∨
      display ≠ rm.iWriteBackDisplayId_ := by
    by_cases hb : display = rm.iWriteBackDisplayId_
    · left
      have hne : rm.bEnableWriteBack_ ≠ 0 := fun hc => hd (hb.trans (hiff.2 hc))
      exact wrapInt32_of_range _ (by omega) (by omega)
    · exact Or.inr hb
  unfold ResourceManager.DisableWriteBackMode
  split
  · exact ⟨⟨h0, hiff⟩, le_refl _⟩
  · rename_i heq
    have heq2 : display = rm.iWriteBackDisplayId_ := by simpa using heq
    have hne : rm.iWriteBackDisplayId_ ≠ -1 := by rw [← heq2]; exact hd
    have hpos : rm.bEnableWriteBack_ ≠ 0 := fun hc => hne (hiff.2 hc)
    have hw1 : wrapInt32 (rm.bEnableWriteBack_ - 1) = rm.bEnableWriteBack_ - 1 := by
      rcases hw with hw | hw
      · exact hw
      · exact absurd heq2 hw
    simp only [hw1]
    split
    · rename_i hle
      simp only at hle ⊢
      exact ⟨⟨by omega, ⟨fun _ => by omega, fun _ => trivial⟩⟩, by omega⟩
    · rename_i hgt
      simp only at hgt ⊢
      refine ⟨⟨by omega, ?_⟩, by omega⟩
      constructor
      · intro hid; exact absurd hid hne
      · intro hc; omega

theorem update_keeps_count (splitMask : Int) (rm rm1 : ResourceManager)
    (display ret : Int) (initOk : Bool)
    (h : rm.UpdateWriteBackResolution splitMask display initOk = some (ret, rm1)) :
    rm1.bEnableWriteBack_ = rm.bEnableWriteBack_ ∧
    rm1.iWriteBackDisplayId_ = rm.iWriteBackDisplayId_ := by
  unfold ResourceManager.UpdateWriteBackResolution at h
  simp only at h
  repeat' split at h
  all_goals first
    | contradiction
    | (simp only [Option.some.injEq, Prod.mk.injEq] at h
       obtain ⟨-, rfl⟩ := h
       exact ⟨rfl, rfl⟩)

theorem swap_keeps_count (rm rm1 : ResourceManager) (queueRet ret : Int) (initOk : Bool)
    (h : rm.SwapWBBuffer queueRet initOk = some (ret, rm1)) :
    rm1.bEnableWriteBack_ = rm.bEnableWriteBack_ ∧
    rm1.iWriteBackDisplayId_ = rm.iWriteBackDisplayId_ := by
  unfold ResourceManager.SwapWBBuffer at h
  simp only at h
  repeat' split at h
  all_goals first
    | contradiction
    | (simp only [Option.some.injEq, Prod.mk.injEq] at h
       obtain ⟨-, rfl⟩ := h
       exact ⟨rfl, rfl⟩)

theorem update_keeps_count_binding (splitMask : Int) (rm rm1 : ResourceManager)
    (display ret : Int) (initOk : Bool) (hinv : rm.CountMatchesBinding)
    (h : rm.UpdateWriteBackResolution splitMask display initOk = some (ret, rm1)) :
    rm1.CountMatchesBinding := by
  obtain ⟨hc, hi⟩ := update_keeps_count splitMask rm rm1 display ret initOk h
  unfold ResourceManager.CountMatchesBinding at hinv ⊢
  rw [hc, hi]
  exact hinv

theorem swap_keeps_count_binding (rm rm1 : ResourceManager) (queueRet ret : Int)
    (initOk : Bool) (hinv : rm.CountMatchesBinding)
    (h : rm.SwapWBBuffer queueRet initOk = some (ret, rm1)) : rm1.CountMatchesBinding := by
  obtain ⟨hc, hi⟩ := swap_keeps_count rm rm1 queueRet ret initOk h
  unfold ResourceManager.CountMatchesBinding at hinv ⊢
  rw [hc, hi]
  exact hinv

theorem enableCalls_cons (c : WBCall) (rest : List WBCall) :
    enableCalls (c :: rest) = enableCalls [c] + enableCalls rest := by
  cases c <;> simp only [enableCalls] <;> omega

theorem step_keeps_count_binding (splitMask : Int) (rm rm1 : ResourceManager) (c : WBCall)
    (hinv : rm.CountMatchesBinding)
    (hmax : rm.bEnableWriteBack_ + (enableCalls [c] : Nat) ≤ 2147483647)
    (hc : c.passesSentinel = false)
    (h : rm.step splitMask c = some rm1) :
    rm1.CountMatchesBinding ∧
    rm1.bEnableWriteBack_ ≤ rm.bEnableWriteBack_ + (enableCalls [c] : Nat) := by
  cases c with
  | enable display initOk =>
    have hd : display ≠ -1 := by simpa [WBCall.passesSentinel] using hc
    have he : enableCalls [WBCall.enable display initOk] = 1 := rfl
    rw [he] at hmax ⊢
    cases hE : rm.EnableWriteBackMode splitMask display initOk with
    | none => simp [ResourceManager.step, hE] at h
    | some r =>
      obtain ⟨ret, rm2⟩ := r
      simp only [ResourceManager.step, hE, Option.map_some', Option.some.injEq] at h
      subst h
      have := enable_keeps_count_binding splitMask rm rm2 display ret initOk hinv
        (by omega) hd hE
      exact ⟨this.1, by have := this.2; omega⟩
  | update display initOk =>
    cases hE : rm.UpdateWriteBackResolution splitMask display initOk with
    | none => simp [ResourceManager.step, hE] at h
    | some r =>
      obtain ⟨ret, rm2⟩ := r
      simp only [ResourceManager.step, hE, Option.map_some', Option.some.injEq] at h
      subst h
      exact ⟨update_keeps_count_binding splitMask rm rm2 display ret initOk hinv hE,
        by rw [(update_keeps_count splitMask rm rm2 display ret initOk hE).1]; omega⟩
  | disable display =>
    have hd : display ≠ -1 := by simpa [WBCall.passesSentinel] using hc
    simp only [ResourceManager.step, Option.some.injEq] at h
    rw [← h]
    have := disable_keeps_count_binding rm display hinv (by omega) hd
    exact ⟨this.1, by have := this.2; omega⟩
  | swap queueRet initOk =>
    cases hE : rm.SwapWBBuffer queueRet initOk with
    | none => simp [ResourceManager.step, hE] at h
    | some r =>
      obtain ⟨ret, rm2⟩ := r
      simp only [ResourceManager.step, hE, Option.map_some', Option.some.injEq] at h
      subst h
      exact ⟨swap_keeps_count_binding rm rm2 queueRet ret initOk hinv hE,
        by rw [(swap_keeps_count rm rm2 queueRet ret initOk hE).1]; omega⟩
  | devices drms =>
    simp only [ResourceManager.step, Option.some.injEq] at h
    rw [← h]
    exact ⟨hinv, by simp only; omega⟩

theorem steps_keep_count_binding (splitMask : Int) (cs : List WBCall) :
    ∀ (rm rm1 : ResourceManager), rm.CountMatchesBinding →
      rm.bEnableWriteBack_ + (enableCalls cs : Nat) ≤ 2147483647 →
      (∀ c ∈ cs, c.passesSentinel = false) →
      ResourceManager.steps splitMask rm cs = some rm1 →
      rm1.CountMatchesBinding ∧
      rm1.bEnableWriteBack_ ≤ rm.bEnableWriteBack_ + (enableCalls cs : Nat) := by
  induction cs with
  | nil =>
    intro rm rm1 hinv _ _ h
    simp only [ResourceManager.steps, Option.some.injEq] at h
    rw [← h]; exact ⟨hinv, by simp [enableCalls]⟩
  | cons c rest ih =>
    intro rm rm1 hinv hmax hcs h
    rw [enableCalls_cons] at hmax ⊢
    simp only [ResourceManager.steps] at h
    split at h
    · exact absurd h (by simp)
    · rename_i rm2 hstep
      have h1 := step_keeps_count_binding splitMask rm rm2 c hinv (by omega)
        (hcs c (List.mem_cons_self _ _)) hstep
      have h2 := ih rm2 rm1 h1.1 (by have := h1.2; omega)
        (fun c1 hc1 => hcs c1 (List.mem_cons_of_mem _ hc1)) h
      exact ⟨h2.1, by have := h1.2; have := h2.2; omega⟩

theorem slotAllocated_mono (n m : Nat) (s : Option DrmBuffer) (h : n ≤ m)
    (hs : slotAllocated n s = true) : slotAllocated m s = true := by
  cases s with
  | none => rfl
  | some b =>
    simp only [slotAllocated, decide_eq_true_eq] at hs ⊢
    omega

theorem slotAllocated_succ (n : Nat) (s : Option DrmBuffer)
    (hs : slotAllocated n s = true) : slotAllocated (n + 1) s = true :=
  slotAllocated_mono n (n + 1) s (Nat.le_succ n) hs

theorem slotAllocated_dequeue (n : Nat) (w h f : Int) (ok : Bool) :
    slotAllocated (n + 1) (some (DrmBufferQueue.DequeueDrmBuffer n w h f ok)) = true := by
  simp [slotAllocated, DrmBufferQueue.DequeueDrmBuffer]

theorem slotAllocated_fresh (n : Nat) (s : Option DrmBuffer) (old : DrmBuffer)
    (hs : slotAllocated n s = true) (hold : s = some old) : old.id ≠ n := by
  subst hold
  simp only [slotAllocated, decide_eq_true_eq] at hs
  omega

theorem swap_keeps_slots_allocated (rm rm1 : ResourceManager) (queueRet ret : Int)
    (initOk : Bool) (hs : rm.SlotsAllocated)
    (h : rm.SwapWBBuffer queueRet initOk = some (ret, rm1)) : rm1.SlotsAllocated := by
  unfold ResourceManager.SlotsAllocated at hs ⊢
  obtain ⟨hn, hd, hf⟩ := hs
  unfold ResourceManager.SwapWBBuffer at h
  simp only at h
  repeat' split at h
  all_goals first
    | contradiction
    | (simp only [Option.some.injEq, Prod.mk.injEq] at h
       obtain ⟨-, rfl⟩ := h
       refine ⟨?_, ?_, ?_⟩ <;> first
         | assumption
         | exact slotAllocated_succ _ _ (by assumption)
         | exact slotAllocated_dequeue _ _ _ _ _)

theorem enable_keeps_slots_allocated (splitMask : Int) (rm rm1 : ResourceManager)
    (display ret : Int) (initOk : Bool) (hs : rm.SlotsAllocated)
    (h : rm.EnableWriteBackMode splitMask display initOk = some (ret, rm1)) :
    rm1.SlotsAllocated := by
  unfold ResourceManager.SlotsAllocated at hs ⊢
  obtain ⟨hn, hd, hf⟩ := hs
  unfold ResourceManager.EnableWriteBackMode at h
  simp only at h
  repeat' split at h
  all_goals first
    | contradiction
    | (simp only [Option.some.injEq, Prod.mk.injEq] at h
       obtain ⟨-, rfl⟩ := h
       refine ⟨?_, ?_, ?_⟩ <;> first
         | assumption
         | exact slotAllocated_succ _ _ (by assumption)
         | exact slotAllocated_dequeue _ _ _ _ _)

theorem update_keeps_slots_allocated (splitMask : Int) (rm rm1 : ResourceManager)
    (display ret : Int) (initOk : Bool) (hs : rm.SlotsAllocated)
    (h : rm.UpdateWriteBackResolution splitMask display initOk = some (ret, rm1)) :
    rm1.SlotsAllocated := by
  unfold ResourceManager.SlotsAllocated at hs ⊢
  obtain ⟨hn, hd, hf⟩ := hs
  unfold ResourceManager.UpdateWriteBackResolution at h
  simp only at h
  repeat' split at h
  all_goals first
    | contradiction
    | (simp only [Option.some.injEq, Prod.mk.injEq] at h
       obtain ⟨-, rfl⟩ := h
       refine ⟨?_, ?_, ?_⟩ <;> first
         | assumption
         | exact slotAllocated_succ _ _ (by assumption)
         | exact slotAllocated_dequeue _ _ _ _ _)

theorem disable_keeps_slots_allocated (rm : ResourceManager) (display : Int)
    (hs : rm.SlotsAllocated) : (rm.DisableWriteBackMode display).2.SlotsAllocated := by
  unfold ResourceManager.SlotsAllocated at hs ⊢
  obtain ⟨hn, hd, hf⟩ := hs
  unfold ResourceManager.DisableWriteBackMode
  simp only
  repeat' split
  all_goals first
    | exact ⟨hn, hd, hf⟩
    | exact ⟨rfl, rfl, rfl⟩

theorem step_keeps_slots_allocated (splitMask : Int) (rm rm1 : ResourceManager) (c : WBCall)
    (hs : rm.SlotsAllocated) (h : rm.step splitMask c = some rm1) : rm1.SlotsAllocated := by
  cases c with
  | enable display initOk =>
    cases hE : rm.EnableWriteBackMode splitMask display initOk with
    | none => simp [ResourceManager.step, hE] at h
    | some r =>
      obtain ⟨ret, rm2⟩ := r
      simp only [ResourceManager.step, hE, Option.map_some', Option.some.injEq] at h
      subst h
      exact enable_keeps_slots_allocated splitMask rm rm2 display ret initOk hs hE
  | update display initOk =>
    cases hE : rm.UpdateWriteBackResolution splitMask display initOk with
    | none => simp [ResourceManager.step, hE] at h
    | some r =>
      obtain ⟨ret, rm2⟩ := r
      simp only [ResourceManager.step, hE, Option.map_some', Option.some.injEq] at h
      subst h
      exact update_keeps_slots_allocated splitMask rm rm2 display ret initOk hs hE
  | disable display =>
    simp only [ResourceManager.step, Option.some.injEq] at h
    rw [← h]
    exact disable_keeps_slots_allocated rm display hs
  | swap queueRet initOk =>
    cases hE : rm.SwapWBBuffer queueRet initOk with
    | none => simp [ResourceManager.step, hE] at h
    | some r =>
      obtain ⟨ret, rm2⟩ := r
      simp only [ResourceManager.step, hE, Option.map_some', Option.some.injEq] at h
      subst h
      exact swap_keeps_slots_allocated rm rm2 queueRet ret initOk hs hE
  | devices drms =>
    simp only [ResourceManager.step, Option.some.injEq] at h
    rw [← h]
    exact hs

theorem steps_keep_slots_allocated (splitMask : Int) (cs : List WBCall) :
    ∀ (rm rm1 : ResourceManager), rm.SlotsAllocated →
      ResourceManager.steps splitMask rm cs = some rm1 → rm1.SlotsAllocated := by
  induction cs with
  | nil =>
    intro rm rm1 hs h
    simp only [ResourceManager.steps, Option.some.injEq] at h
    rw [← h]; exact hs
  | cons c rest ih =>
    intro rm rm1 hs h
    simp only [ResourceManager.steps] at h
    split at h
    · exact absurd h (by simp)
    · rename_i rm2 hstep
      exact ih rm2 rm1 (step_keeps_slots_allocated splitMask rm rm2 c hs hstep) h

theorem swap_success_rotates_of_allocated (rm rm1 : ResourceManager) (queueRet : Int)
    (initOk : Bool) (hs : rm.SlotsAllocated)
    (h : rm.SwapWBBuffer queueRet initOk = some (0, rm1)) :
    rm1.mFinishWriteBackBuffer_ = rm.mDrawingWriteBackBuffer_ ∧
    rm1.mDrawingWriteBackBuffer_ = rm.mNextWriteBackBuffer_ ∧
    rm1.mNextWriteBackBuffer_ = some (DrmBufferQueue.DequeueDrmBuffer rm.allocated_
      rm.iWBWidth_ rm.iWBHeight_ rm.iWBFormat_ initOk) ∧
    ∀ next old : DrmBuffer, rm1.mNextWriteBackBuffer_ = some next →
      (rm.mNextWriteBackBuffer_ = some old ∨ rm.mDrawingWriteBackBuffer_ = some old ∨
        rm.mFinishWriteBackBuffer_ = some old) → old.id ≠ next.id := by
  obtain ⟨hn, hd, hf⟩ := hs
  unfold ResourceManager.SwapWBBuffer at h
  simp only at h
  repeat' split at h
  all_goals first
    | contradiction
    | (simp only [Option.some.injEq, Prod.mk.injEq] at h
       obtain ⟨hret, rfl⟩ := h
       omega)
    | (simp only [Option.some.injEq, Prod.mk.injEq] at h
       obtain ⟨-, rfl⟩ := h
       refine ⟨rfl, rfl, rfl, ?_⟩
       intro next old hnext hold
       simp only [Option.some.injEq] at hnext
       subst hnext
       simp only [DrmBufferQueue.DequeueDrmBuffer]
       rcases hold with ho | ho | ho
       · exact slotAllocated_fresh _ _ _ hn ho
       · exact slotAllocated_fresh _ _ _ hd ho
       · exact slotAllocated_fresh _ _ _ hf ho)

/-! ## Device registry and planner: lemmas -/

theorem init_fixed_zero_displays_succeeds (env : InitEnv) (fuel : Nat) (rm : ResourceManager)
    (last : Char) (importer : Importer)
    (hlast : env.path_pattern.getLast? = some last) (hfixed : last ≠ '%')
    (hz : rm.num_displays_ = 0)
    (hret : (env.probe env.path_pattern rm.num_displays_).ret = 0)
    (hadd : (env.probe env.path_pattern rm.num_displays_).displays_added = 0)
    (himp : (env.probe env.path_pattern rm.num_displays_).importer = some importer) :
    (rm.Init env fuel).map (fun r => (r.1, r.2.num_displays_)) = some (0, 0) := by
  rw [hz] at hret hadd himp
  unfold ResourceManager.Init
  simp [hlast, hfixed, ResourceManager.AddDrmDevice, hret, hadd, himp, hz]

theorem initLoop_status_nonzero (probe : List Char → Int → DeviceProbe) (pathPrefix : List Char)
    (fuel : Nat) : ∀ (idx : Nat) (rm rm1 : ResourceManager) (ret : Int),
      InitLoop probe pathPrefix fuel idx rm = some (ret, rm1) → ret ≠ 0 := by
  induction fuel with
  | zero => intro idx rm rm1 ret h; simp [InitLoop] at h
  | succ n ih =>
    intro idx rm rm1 ret h
    simp only [InitLoop] at h
    split at h
    · simp only [Option.some.injEq, Prod.mk.injEq] at h
      obtain ⟨rfl, -⟩ := h
      assumption
    · exact ih _ _ _ _ h

theorem init_pattern_zero_displays_fails (env : InitEnv) (fuel : Nat) (rm rm1 : ResourceManager)
    (ret : Int) (hpat : env.path_pattern.getLast? = some '%')
    (h : rm.Init env fuel = some (ret, rm1)) (hz : rm1.num_displays_ = 0) : ret = -EINVAL := by
  unfold ResourceManager.Init at h
  rw [hpat] at h
  simp only [ne_eq, not_true_eq_false, if_false] at h
  cases hl : InitLoop env.probe env.path_pattern.dropLast fuel 0 rm with
  | none => simp [hl] at h
  | some r =>
    obtain ⟨ret0, rm0⟩ := r
    have hne := initLoop_status_nonzero _ _ _ _ _ _ _ hl
    simp only [hl] at h
    split at h
    · simp only [hne, ne_eq, not_false_eq_true, if_true, Option.some.injEq, Prod.mk.injEq] at h
      exact h.1.symm
    · rename_i hnz
      repeat' split at h
      all_goals first
        | contradiction
        | (simp only [Option.some.injEq, Prod.mk.injEq] at h
           obtain ⟨-, rfl⟩ := h
           exact absurd hz hnz)

theorem copy_if_eq_filter {α : Type} (pred : α → Bool) (xs : List α) :
    ∀ out : List α, copy_if pred xs out = out ++ xs.filter pred := by
  induction xs with
  | nil => intro out; simp [copy_if]
  | cons x rest ih =>
    intro out
    simp only [copy_if, ih]
    cases hp : pred x <;> simp [List.filter, hp]

theorem getUsablePlanes_eq_filter (crtc : DrmCrtc) (primary overlay : List DrmPlane) :
    Planner.GetUsablePlanes crtc primary overlay =
      primary.filter (fun p => p.GetCrtcSupported crtc) ++
        overlay.filter (fun p => p.GetCrtcSupported crtc) := by
  simp [Planner.GetUsablePlanes, copy_if_eq_filter]

theorem runStages_called (crtc : DrmCrtc) (stages : List PlanStage) :
    ∀ (st : PlanState) (n : Nat),
      Planner.runStages crtc stages st n =
        ((Planner.runStages crtc stages st 0).1, (Planner.runStages crtc stages st 0).2.1,
          n + (Planner.runStages crtc stages st 0).2.2) := by
  induction stages with
  | nil => intro st n; simp [Planner.runStages]
  | cons i rest ih =>
    intro st n
    simp only [Planner.runStages]
    split
    · simp
    · rw [ih _ (n + 1), ih _ (0 + 1)]
      simp only [Prod.mk.injEq, true_and]
      omega

theorem runStages_all_ok (crtc : DrmCrtc) (stages : List PlanStage) :
    ∀ (st : PlanState) (n : Nat), allStagesOk crtc stages st = true →
      Planner.runStages crtc stages st n = (0, stateAfter crtc stages st, n + stages.length) := by
  induction stages with
  | nil => intro st n _; simp [Planner.runStages, stateAfter]
  | cons i rest ih =>
    intro st n hok
    simp only [allStagesOk, Bool.and_eq_true, beq_iff_eq] at hok
    simp only [Planner.runStages, hok.1, ne_eq, not_true_eq_false, if_false, stateAfter,
      List.length_cons]
    rw [ih _ _ hok.2]
    simp only [Prod.mk.injEq, true_and]
    omega

theorem runStages_first_failure (crtc : DrmCrtc) (front : List PlanStage) (s : PlanStage)
    (back : List PlanStage) :
    ∀ (st : PlanState) (n : Nat), allStagesOk crtc front st = true →
      (s (stateAfter crtc front st) crtc).1 ≠ 0 →
      Planner.runStages crtc (front ++ s :: back) st n =
        ((s (stateAfter crtc front st) crtc).1, (s (stateAfter crtc front st) crtc).2,
          n + front.length + 1) := by
  induction front with
  | nil =>
    intro st n _ hr
    simp only [stateAfter] at hr
    simp [Planner.runStages, stateAfter, hr]
  | cons i rest ih =>
    intro st n hok hr
    simp only [allStagesOk, Bool.and_eq_true, beq_iff_eq] at hok
    simp only [stateAfter] at hr
    simp only [List.cons_append, Planner.runStages, hok.1, ne_eq, not_true_eq_false, if_false,
      stateAfter, List.length_cons]
    have h := ih (i st crtc).2 (n + 1) hok.2 hr
    rw [show rest.append (s :: back) = rest ++ s :: back from rfl, h]
    simp only [Prod.mk.injEq, true_and]
    omega

theorem getDrmDeviceLoop_eq_find (splitMask display : Int) (drms : List DrmDevice) :
    GetDrmDeviceLoop splitMask display drms =
      drms.find? (fun drm => drm.HandlesDisplay (intAnd display (intNot splitMask))) := by
  induction drms with
  | nil => rfl
  | cons drm rest ih =>
    simp only [GetDrmDeviceLoop, List.find?_cons]
    cases h : drm.HandlesDisplay (intAnd display (intNot splitMask)) <;> simp [ih]

theorem getImporterLoop_eq_findIdx (splitMask display : Int) (importers : List Importer)
    (drms : List DrmDevice) : ∀ i : Nat,
    GetImporterLoop splitMask display importers i drms =
      if drms.any (fun drm => drm.HandlesDisplay (intAnd display (intNot splitMask))) then
        (importers.get? (i + drms.findIdx
          (fun drm => drm.HandlesDisplay (intAnd display (intNot splitMask))))).map some
      else some none := by
  induction drms with
  | nil => intro i; rfl
  | cons drm rest ih =>
    intro i
    simp only [GetImporterLoop, List.findIdx_cons, List.any_cons]
    cases h : drm.HandlesDisplay (intAnd display (intNot splitMask))
    · simp only [Bool.false_eq_true, if_false, ih (i + 1), Bool.false_or, cond_false]
      have : i + 1 + List.findIdx
          (fun drm => drm.HandlesDisplay (intAnd display (intNot splitMask))) rest =
        i + (List.findIdx
          (fun drm => drm.HandlesDisplay (intAnd display (intNot splitMask))) rest + 1) := by
        omega
      rw [this]
    · simp only [if_true, Bool.true_or, cond_true, Nat.add_zero]
      cases importers.get? i <;> rfl

theorem getDrmDeviceLoop_congr (splitMask x y : Int) (drms : List DrmDevice)
    (h : intAnd x (intNot splitMask) = intAnd y (intNot splitMask)) :
    GetDrmDeviceLoop splitMask x drms = GetDrmDeviceLoop splitMask y drms := by
  rw [getDrmDeviceLoop_eq_find, getDrmDeviceLoop_eq_find, h]

theorem getImporterLoop_congr (splitMask x y : Int) (importers : List Importer)
    (drms : List DrmDevice) (i : Nat)
    (h : intAnd x (intNot splitMask) = intAnd y (intNot splitMask)) :
    GetImporterLoop splitMask x importers i drms = GetImporterLoop splitMask y importers i drms := by
  rw [getImporterLoop_eq_findIdx, getImporterLoop_eq_findIdx, h]

theorem cacheFind_cacheSet_self (m : List (Nat × VpBufferInfo)) (k : Nat) (v : VpBufferInfo) :
    cacheFind (cacheSet m k v) k = some v := by
  induction m with
  | nil => simp [cacheFind, cacheSet]
  | cons e rest ih =>
    simp only [cacheSet]
    by_cases he : e.1 = k
    · simp [he, cacheFind]
    · have hb : (e.1 == k) = false := by simpa using he
      simp only [hb, Bool.false_eq_true, if_false]
      unfold cacheFind at ih ⊢
      simp only [List.find?_cons, hb]
      exact ih

theorem cacheFind_cacheSet_of_ne (m : List (Nat × VpBufferInfo)) (k j : Nat) (v : VpBufferInfo)
    (hne : j ≠ k) : cacheFind (cacheSet m k v) j = cacheFind m j := by
  induction m with
  | nil =>
    have hb : (k == j) = false := by simpa using fun h => hne h.symm
    simp [cacheFind, cacheSet, hb]
  | cons e rest ih =>
    simp only [cacheSet]
    by_cases he : e.1 = k
    · have hb : (e.1 == j) = false := by simpa [he] using fun h => hne h.symm
      have hb2 : (k == j) = false := by simpa using fun h => hne h.symm
      simp [he, cacheFind, List.find?_cons, hb2]
    · have hb : (e.1 == k) = false := by simpa using he
      simp only [hb, Bool.false_eq_true, if_false]
      unfold cacheFind at ih ⊢
      simp only [List.find?_cons]
      cases hj : e.1 == j
      · exact ih
      · rfl

theorem cacheKeys_cacheSet_of_found (m : List (Nat × VpBufferInfo)) (k : Nat)
    (v v0 : VpBufferInfo) (h : cacheFind m k = some v0) :
    cacheKeys (cacheSet m k v) = cacheKeys m := by
  induction m with
  | nil => simp [cacheFind] at h
  | cons e rest ih =>
    simp only [cacheSet]
    by_cases he : e.1 = k
    · simp [he, cacheKeys]
    · have hb : (e.1 == k) = false := by simpa using he
      simp only [hb, Bool.false_eq_true, if_false]
      unfold cacheFind at h
      simp only [List.find?_cons, hb] at h
      have := ih h
      simp only [cacheKeys, List.map_cons] at this ⊢
      rw [this]

theorem cacheFind_isSome_iff (m : List (Nat × VpBufferInfo)) (k : Nat) :
    (cacheFind m k).isSome = true ↔ k ∈ cacheKeys m := by
  induction m with
  | nil => simp [cacheFind, cacheKeys]
  | cons e rest ih =>
    unfold cacheFind at ih ⊢
    simp only [List.find?_cons, cacheKeys, List.map_cons, List.mem_cons]
    by_cases he : e.1 = k
    · simp [he]
    · have hb : (e.1 == k) = false := by simpa using he
      simp only [hb]
      rw [ih]
      simp only [cacheKeys]
      constructor
      · intro h; exact Or.inr h
      · intro h
        rcases h with h | h
        · exact absurd h.symm he
        · exact h

/-! ## Capture size: lemmas -/

theorem align_down_16_facts (w : Nat) (hw : w < 4294967296) :
    ALIGN_DOWN w 16 = 16 * (w / 16) ∧ ALIGN_DOWN w 16 % 16 = 0 ∧ ALIGN_DOWN w 16 ≤ w ∧
    w ≤ ALIGN_DOWN w 16 + 15 ∧ ∀ m : Nat, m % 16 = 0 → m ≤ w → m ≤ ALIGN_DOWN w 16 := by
  rw [align_down_16 w hw]
  refine ⟨rfl, by omega, by omega, by omega, ?_⟩
  intro m hm hle
  omega

theorem capture_size_as_int (w h : Nat) (hw : w < 4294967296) (hh : h < 4294967296) :
    toInt32 (ALIGN_DOWN w 16) =
      (if w < 2147483648 then ((16 * (w / 16) : Nat) : Int)
        else ((16 * (w / 16) : Nat) : Int) - 4294967296) ∧
    toInt32 h = (if h < 2147483648 then (h : Int) else (h : Int) - 4294967296) := by
  refine ⟨?_, toInt32_eq_ite h hh⟩
  rw [align_down_16 w hw, toInt32_eq_ite _ (by omega)]
  by_cases hlt : w < 2147483648
  · have : 16 * (w / 16) < 2147483648 := by omega
    simp only [hlt, this, if_true]
  · have : ¬ 16 * (w / 16) < 2147483648 := by omega
    simp only [hlt, this, if_false]

theorem enable_sets_capture_size (splitMask : Int) (rm : ResourceManager) (display : Int)
    (initOk : Bool) (drm : DrmDevice) (conn : DrmConnector)
    (hdis : rm.bEnableWriteBack_ ≤ 0)
    (hdev : rm.GetDrmDevice splitMask display = some drm)
    (hconn : drm.GetConnectorForDisplay display = some conn)
    (hstate : conn.state = DRM_MODE_CONNECTED) :
    (rm.EnableWriteBackMode splitMask display initOk).map
        (fun r => (r.2.mWBMode_, r.2.iWBWidth_, r.2.iWBHeight_)) =
      some (conn.current_mode, toInt32 (ALIGN_DOWN conn.current_mode.width 16),
        toInt32 conn.current_mode.height) := by
  have hnot : ¬ rm.bEnableWriteBack_ > 0 := by omega
  unfold ResourceManager.EnableWriteBackMode
  simp only [hnot, if_false, hdev, hconn, hstate, ne_eq, not_true_eq_false]
  cases hq : rm.mWriteBackBQ_ with
  | none =>
    cases initOk <;> simp [DrmBufferQueue.DequeueDrmBuffer]
  | some q => simp

theorem update_sets_capture_size (splitMask : Int) (rm : ResourceManager) (display : Int)
    (initOk : Bool) (drm : DrmDevice) (conn : DrmConnector)
    (hok : ¬ (rm.bEnableWriteBack_ > 0 ∧ rm.iWriteBackDisplayId_ ≠ display))
    (hdev : rm.GetDrmDevice splitMask display = some drm)
    (hconn : drm.GetConnectorForDisplay display = some conn)
    (hstate : conn.state = DRM_MODE_CONNECTED) :
    (rm.UpdateWriteBackResolution splitMask display initOk).map
        (fun r => (r.2.mWBMode_, r.2.iWBWidth_, r.2.iWBHeight_)) =
      some (conn.current_mode, toInt32 (ALIGN_DOWN conn.current_mode.width 16),
        toInt32 conn.current_mode.height) := by
  unfold ResourceManager.UpdateWriteBackResolution
  simp only [hok, if_false, hdev, hconn, hstate, ne_eq, not_true_eq_false]
  split
  · rename_i heq
    simp [← heq.1, ← heq.2]
  · cases initOk <;> simp [DrmBufferQueue.DequeueDrmBuffer]

/-! ## Writeback session: lemmas on the single operations -/

theorem update_conflict (splitMask : Int) (rm : ResourceManager) (display : Int)
    (initOk : Bool) (hen : rm.bEnableWriteBack_ > 0) (hne : rm.iWriteBackDisplayId_ ≠ display) :
    rm.UpdateWriteBackResolution splitMask display initOk = some (-1, rm) := by
  unfold ResourceManager.UpdateWriteBackResolution
  simp [hen, hne]

theorem update_same_size (splitMask : Int) (rm : ResourceManager) (display : Int)
    (initOk : Bool) (drm : DrmDevice) (conn : DrmConnector)
    (hok : ¬ (rm.bEnableWriteBack_ > 0 ∧ rm.iWriteBackDisplayId_ ≠ display))
    (hdev : rm.GetDrmDevice splitMask display = some drm)
    (hconn : drm.GetConnectorForDisplay display = some conn)
    (hstate : conn.state = DRM_MODE_CONNECTED)
    (hw : toInt32 (ALIGN_DOWN conn.current_mode.width 16) = rm.iWBWidth_)
    (hh : toInt32 conn.current_mode.height = rm.iWBHeight_) :
    rm.UpdateWriteBackResolution splitMask display initOk =
      some (0, { rm with mWBMode_ := conn.current_mode }) := by
  unfold ResourceManager.UpdateWriteBackResolution
  simp only [hok, if_false, hdev, hconn, hstate, ne_eq, not_true_eq_false, hw, hh, and_self,
    if_true]

theorem update_new_size (splitMask : Int) (rm : ResourceManager) (display : Int)
    (initOk : Bool) (drm : DrmDevice) (conn : DrmConnector)
    (hok : ¬ (rm.bEnableWriteBack_ > 0 ∧ rm.iWriteBackDisplayId_ ≠ display))
    (hdev : rm.GetDrmDevice splitMask display = some drm)
    (hconn : drm.GetConnectorForDisplay display = some conn)
    (hstate : conn.state = DRM_MODE_CONNECTED)
    (hsize : ¬ (toInt32 (ALIGN_DOWN conn.current_mode.width 16) = rm.iWBWidth_ ∧
      toInt32 conn.current_mode.height = rm.iWBHeight_)) :
    rm.UpdateWriteBackResolution splitMask display initOk =
      some (if initOk then 0 else -1, { rm with
        mWBMode_ := conn.current_mode
        iWBWidth_ := toInt32 (ALIGN_DOWN conn.current_mode.width 16)
        iWBHeight_ := toInt32 conn.current_mode.height
        iWBFormat_ := HAL_PIXEL_FORMAT_YCrCb_NV12
        mWriteBackBQ_ := some (rm.mWriteBackBQ_.getD { queued := [] })
        mNextWriteBackBuffer_ := some (DrmBufferQueue.DequeueDrmBuffer rm.allocated_
          (toInt32 (ALIGN_DOWN conn.current_mode.width 16)) (toInt32 conn.current_mode.height)
          HAL_PIXEL_FORMAT_YCrCb_NV12 initOk)
        allocated_ := rm.allocated_ + 1 }) := by
  unfold ResourceManager.UpdateWriteBackResolution
  simp only [hok, if_false, hdev, hconn, hstate, ne_eq, not_true_eq_false, hsize]
  cases hq : rm.mWriteBackBQ_ <;> cases initOk <;>
    simp [DrmBufferQueue.DequeueDrmBuffer]

theorem swap_alloc_failure (rm : ResourceManager) (bq : DrmBufferQueue)
    (hen : rm.bEnableWriteBack_ > 0) (hq : rm.mWriteBackBQ_ = some bq) :
    rm.SwapWBBuffer 0 false = some (-1, { rm with
      mFinishWriteBackBuffer_ := rm.mDrawingWriteBackBuffer_
      mDrawingWriteBackBuffer_ := rm.mNextWriteBackBuffer_
      mWriteBackBQ_ := some { queued := bq.queued ++ [rm.mNextWriteBackBuffer_] }
      allocated_ := rm.allocated_ + 1 }) := by
  have hnot : ¬ rm.bEnableWriteBack_ ≤ 0 := by omega
  unfold ResourceManager.SwapWBBuffer
  simp [hnot, hq, DrmBufferQueue.QueueBuffer, DrmBufferQueue.DequeueDrmBuffer]

theorem enable_faults_without_device (splitMask : Int) (rm : ResourceManager) (display : Int)
    (initOk : Bool) (hdis : rm.bEnableWriteBack_ ≤ 0)
    (hdev : rm.GetDrmDevice splitMask display = none) :
    rm.EnableWriteBackMode splitMask display initOk = none := by
  have hnot : ¬ rm.bEnableWriteBack_ > 0 := by omega
  unfold ResourceManager.EnableWriteBackMode
  simp [hnot, hdev]

theorem enable_without_connector (splitMask : Int) (rm : ResourceManager) (display : Int)
    (initOk : Bool) (drm : DrmDevice) (hdis : rm.bEnableWriteBack_ ≤ 0)
    (hdev : rm.GetDrmDevice splitMask display = some drm)
    (hconn : drm.GetConnectorForDisplay display = none) :
    rm.EnableWriteBackMode splitMask display initOk = some (-1, rm) := by
  have hnot : ¬ rm.bEnableWriteBack_ > 0 := by omega
  unfold ResourceManager.EnableWriteBackMode
  simp [hnot, hdev, hconn]

theorem enable_connector_not_connected (splitMask : Int) (rm : ResourceManager) (display : Int)
    (initOk : Bool) (drm : DrmDevice) (conn : DrmConnector) (hdis : rm.bEnableWriteBack_ ≤ 0)
    (hdev : rm.GetDrmDevice splitMask display = some drm)
    (hconn : drm.GetConnectorForDisplay display = some conn)
    (hstate : conn.state ≠ DRM_MODE_CONNECTED) :
    rm.EnableWriteBackMode splitMask display initOk = some (-1, rm) := by
  have hnot : ¬ rm.bEnableWriteBack_ > 0 := by omega
  unfold ResourceManager.EnableWriteBackMode
  simp [hnot, hdev, hconn, hstate]

theorem enable_success_from_disabled (splitMask : Int) (rm rm1 : ResourceManager)
    (display : Int) (initOk : Bool) (hzero : rm.bEnableWriteBack_ = 0)
    (h : rm.EnableWriteBackMode splitMask display initOk = some (0, rm1)) :
    rm1.bEnableWriteBack_ = 1 ∧ rm1.iWriteBackDisplayId_ = display ∧
    (rm.mWriteBackBQ_ = none →
      rm1.mNextWriteBackBuffer_ = some (DrmBufferQueue.DequeueDrmBuffer rm.allocated_
        rm1.iWBWidth_ rm1.iWBHeight_ rm1.iWBFormat_ true)) ∧
    (rm.mWriteBackBQ_ ≠ none → rm1.mNextWriteBackBuffer_ = rm.mNextWriteBackBuffer_ ∧
      rm1.allocated_ = rm.allocated_) := by
  unfold ResourceManager.EnableWriteBackMode at h
  simp only at h
  repeat' split at h
  all_goals first
    | contradiction
    | omega
    | (simp only [Option.some.injEq, Prod.mk.injEq] at h
       obtain ⟨hret, rfl⟩ := h
       omega)
    | (simp only [Option.some.injEq, Prod.mk.injEq] at h
       obtain ⟨-, rfl⟩ := h
       rename_i hq hv
       refine ⟨by simp only [hzero]; decide, rfl, ?_, ?_⟩
       · intro _
         cases initOk
         · simp [DrmBufferQueue.DequeueDrmBuffer] at hv
         · rfl
       · intro hne
         exact absurd hq hne)
    | (simp only [Option.some.injEq, Prod.mk.injEq] at h
       obtain ⟨-, rfl⟩ := h
       rename_i q hq
       refine ⟨by simp only [hzero]; decide, rfl, ?_, ?_⟩
       · intro hn
         rw [hn] at hq
         contradiction
       · intro _
         exact ⟨rfl, rfl⟩)

theorem disable_other_display (rm : ResourceManager) (display : Int)
    (hne : display ≠ rm.iWriteBackDisplayId_) : rm.DisableWriteBackMode display = (0, rm) := by
  unfold ResourceManager.DisableWriteBackMode
  simp [hne]

theorem disable_last_reference (rm : ResourceManager) (display : Int)
    (hb : display = rm.iWriteBackDisplayId_) (hmin : -2147483648 < rm.bEnableWriteBack_)
    (hmax : rm.bEnableWriteBack_ ≤ 2147483647) (hle : rm.bEnableWriteBack_ - 1 ≤ 0) :
    rm.DisableWriteBackMode display = (0, { rm with
      bEnableWriteBack_ := rm.bEnableWriteBack_ - 1
      mNextWriteBackBuffer_ := none
      mDrawingWriteBackBuffer_ := none
      mFinishWriteBackBuffer_ := none
      mWriteBackBQ_ := none
      iWriteBackDisplayId_ := -1 }) := by
  have hw : wrapInt32 (rm.bEnableWriteBack_ - 1) = rm.bEnableWriteBack_ - 1 :=
    wrapInt32_of_range _ (by omega) (by omega)
  unfold ResourceManager.DisableWriteBackMode
  simp [hb, hle, hw]

theorem disable_keeps_reference (rm : ResourceManager) (display : Int)
    (hb : display = rm.iWriteBackDisplayId_) (hmax : rm.bEnableWriteBack_ ≤ 2147483647)
    (hgt : rm.bEnableWriteBack_ - 1 > 0) :
    rm.DisableWriteBackMode display =
      (0, { rm with bEnableWriteBack_ := rm.bEnableWriteBack_ - 1 }) := by
  have hnot : ¬ rm.bEnableWriteBack_ - 1 ≤ 0 := by omega
  have hw : wrapInt32 (rm.bEnableWriteBack_ - 1) = rm.bEnableWriteBack_ - 1 :=
    wrapInt32_of_range _ (by omega) (by omega)
  unfold ResourceManager.DisableWriteBackMode
  simp [hb, hnot, hw]

theorem enable_count_change (splitMask : Int) (rm rm1 : ResourceManager) (display ret : Int)
    (initOk : Bool) (hmin : -2147483648 ≤ rm.bEnableWriteBack_)
    (hmax : rm.bEnableWriteBack_ < 2147483647)
    (h : rm.EnableWriteBackMode splitMask display initOk = some (ret, rm1)) :
    rm.bEnableWriteBack_ ≤ rm1.bEnableWriteBack_ ∧
    rm1.bEnableWriteBack_ ≤ rm.bEnableWriteBack_ + 1 := by
  have hw : wrapInt32 (rm.bEnableWriteBack_ + 1) = rm.bEnableWriteBack_ + 1 :=
    wrapInt32_of_range _ (by omega) (by omega)
  unfold ResourceManager.EnableWriteBackMode at h
  simp only [hw] at h
  repeat' split at h
  all_goals first
    | contradiction
    | (simp only [Option.some.injEq, Prod.mk.injEq] at h
       obtain ⟨-, rfl⟩ := h
       (try simp only)
       omega)

theorem disable_count_change (rm : ResourceManager) (display : Int)
    (hmin : -2147483648 < rm.bEnableWriteBack_) (hmax : rm.bEnableWriteBack_ ≤ 2147483647) :
    rm.bEnableWriteBack_ - 1 ≤ (rm.DisableWriteBackMode display).2.bEnableWriteBack_ ∧
    (rm.DisableWriteBackMode display).2.bEnableWriteBack_ ≤ rm.bEnableWriteBack_ := by
  have hw : wrapInt32 (rm.bEnableWriteBack_ - 1) = rm.bEnableWriteBack_ - 1 :=
    wrapInt32_of_range _ (by omega) (by omega)
  unfold ResourceManager.DisableWriteBackMode
  simp only [hw]
  repeat' split
  all_goals (simp only; omega)

theorem enable_keeps_queue_when_enabled (splitMask : Int) (rm rm1 : ResourceManager)
    (display ret : Int) (initOk : Bool)
    (hq : rm.bEnableWriteBack_ > 0 → rm.mWriteBackBQ_.isSome = true)
    (h : rm.EnableWriteBackMode splitMask display initOk = some (ret, rm1)) :
    rm1.bEnableWriteBack_ > 0 → rm1.mWriteBackBQ_.isSome = true := by
  unfold ResourceManager.EnableWriteBackMode at h
  simp only at h
  repeat' split at h
  all_goals first
    | contradiction
    | (simp only [Option.some.injEq, Prod.mk.injEq] at h
       obtain ⟨-, rfl⟩ := h
       intro hpos
       first
         | exact hq hpos
         | exact hq (by assumption)
         | rfl
         | (simp only at hpos; omega)
         | (simp only; simp [*]))

theorem disable_keeps_queue_when_enabled (rm : ResourceManager) (display : Int)
    (hmin : -2147483648 < rm.bEnableWriteBack_) (hmax : rm.bEnableWriteBack_ ≤ 2147483647)
    (hq : rm.bEnableWriteBack_ > 0 → rm.mWriteBackBQ_.isSome = true) :
    (rm.DisableWriteBackMode display).2.bEnableWriteBack_ > 0 →
      (rm.DisableWriteBackMode display).2.mWriteBackBQ_.isSome = true := by
  have hw : wrapInt32 (rm.bEnableWriteBack_ - 1) = rm.bEnableWriteBack_ - 1 :=
    wrapInt32_of_range _ (by omega) (by omega)
  unfold ResourceManager.DisableWriteBackMode
  simp only [hw]
  repeat' split
  all_goals
    intro hpos
    (try simp only at hpos)
    first
      | exact hq hpos
      | omega
      | exact hq (by omega)

theorem update_keeps_queue_when_enabled (splitMask : Int) (rm rm1 : ResourceManager)
    (display ret : Int) (initOk : Bool)
    (hq : rm.bEnableWriteBack_ > 0 → rm.mWriteBackBQ_.isSome = true)
    (h : rm.UpdateWriteBackResolution splitMask display initOk = some (ret, rm1)) :
    rm1.bEnableWriteBack_ > 0 → rm1.mWriteBackBQ_.isSome = true := by
  unfold ResourceManager.UpdateWriteBackResolution at h
  simp only at h
  repeat' split at h
  all_goals first
    | contradiction
    | (simp only [Option.some.injEq, Prod.mk.injEq] at h
       obtain ⟨-, rfl⟩ := h
       intro hpos
       first
         | exact hq hpos
         | rfl)

theorem swap_keeps_queue_when_enabled (rm rm1 : ResourceManager) (queueRet ret : Int)
    (initOk : Bool) (hq : rm.bEnableWriteBack_ > 0 → rm.mWriteBackBQ_.isSome = true)
    (h : rm.SwapWBBuffer queueRet initOk = some (ret, rm1)) :
    rm1.bEnableWriteBack_ > 0 → rm1.mWriteBackBQ_.isSome = true := by
  unfold ResourceManager.SwapWBBuffer at h
  simp only at h
  repeat' split at h
  all_goals first
    | contradiction
    | (simp only [Option.some.injEq, Prod.mk.injEq] at h
       obtain ⟨-, rfl⟩ := h
       intro hpos
       first
         | exact hq hpos
         | rfl)

theorem step_keeps_queue_when_enabled (splitMask : Int) (rm rm1 : ResourceManager) (c : WBCall)
    (hmin : -2147483648 < rm.bEnableWriteBack_) (hmax : rm.bEnableWriteBack_ < 2147483647)
    (hq : rm.bEnableWriteBack_ > 0 → rm.mWriteBackBQ_.isSome = true)
    (h : rm.step splitMask c = some rm1) :
    (rm1.bEnableWriteBack_ > 0 → rm1.mWriteBackBQ_.isSome = true) ∧
    rm.bEnableWriteBack_ - 1 ≤ rm1.bEnableWriteBack_ ∧
    rm1.bEnableWriteBack_ ≤ rm.bEnableWriteBack_ + 1 := by
  cases c with
  | enable display initOk =>
    cases hE : rm.EnableWriteBackMode splitMask display initOk with
    | none => simp [ResourceManager.step, hE] at h
    | some r =>
      obtain ⟨ret, rm2⟩ := r
      simp only [ResourceManager.step, hE, Option.map_some', Option.some.injEq] at h
      subst h
      have hc := enable_count_change splitMask rm rm2 display ret initOk (by omega) hmax hE
      exact ⟨enable_keeps_queue_when_enabled splitMask rm rm2 display ret initOk hq hE,
        by omega, hc.2⟩
  | update display initOk =>
    cases hE : rm.UpdateWriteBackResolution splitMask display initOk with
    | none => simp [ResourceManager.step, hE] at h
    | some r =>
      obtain ⟨ret, rm2⟩ := r
      simp only [ResourceManager.step, hE, Option.map_some', Option.some.injEq] at h
      subst h
      have hc := (update_keeps_count splitMask rm rm2 display ret initOk hE).1
      exact ⟨update_keeps_queue_when_enabled splitMask rm rm2 display ret initOk hq hE,
        by omega, by omega⟩
  | disable display =>
    simp only [ResourceManager.step, Option.some.injEq] at h
    rw [← h]
    have hc := disable_count_change rm display hmin (by omega)
    exact ⟨disable_keeps_queue_when_enabled rm display hmin (by omega) hq, hc.1, by omega⟩
  | swap queueRet initOk =>
    cases hE : rm.SwapWBBuffer queueRet initOk with
    | none => simp [ResourceManager.step, hE] at h
    | some r =>
      obtain ⟨ret, rm2⟩ := r
      simp only [ResourceManager.step, hE, Option.map_some', Option.some.injEq] at h
      subst h
      have hc := (swap_keeps_count rm rm2 queueRet ret initOk hE).1
      exact ⟨swap_keeps_queue_when_enabled rm rm2 queueRet ret initOk hq hE,
        by omega, by omega⟩
  | devices drms =>
    simp only [ResourceManager.step, Option.some.injEq] at h
    rw [← h]
    exact ⟨hq, by simp only; omega, by simp only; omega⟩

theorem steps_keep_queue_when_enabled (splitMask : Int) (cs : List WBCall) :
    ∀ (rm rm1 : ResourceManager) (k : Nat),
      (rm.bEnableWriteBack_ > 0 → rm.mWriteBackBQ_.isSome = true) →
      -(k : Int) ≤ rm.bEnableWriteBack_ → rm.bEnableWriteBack_ ≤ k →
      k + cs.length ≤ 2147483647 →
      ResourceManager.steps splitMask rm cs = some rm1 →
      rm1.bEnableWriteBack_ > 0 → rm1.mWriteBackBQ_.isSome = true := by
  induction cs with
  | nil =>
    intro rm rm1 k hq _ _ _ h
    simp only [ResourceManager.steps, Option.some.injEq] at h
    rw [← h]; exact hq
  | cons c rest ih =>
    intro rm rm1 k hq hlo hhi hlen h
    simp only [List.length_cons] at hlen
    simp only [ResourceManager.steps] at h
    split at h
    · exact absurd h (by simp)
    · rename_i rm2 hstep
      obtain ⟨hq2, hlo2, hhi2⟩ := step_keeps_queue_when_enabled splitMask rm rm2 c
        (by omega) (by omega) hq hstep
      exact ih rm2 rm1 (k + 1) hq2 (by push_cast; omega) (by push_cast; omega) (by omega) h

theorem reachable_enabled_has_queue (splitMask : Int) (cs : List WBCall) (rm : ResourceManager)
    (hlen : cs.length ≤ 2147483647)
    (hreach : ResourceManager.steps splitMask ResourceManager.new cs = some rm)
    (hen : rm.bEnableWriteBack_ > 0) : ∃ bq, rm.mWriteBackBQ_ = some bq := by
  have h := steps_keep_queue_when_enabled splitMask cs ResourceManager.new rm 0
    (fun hpos => absurd hpos (by decide)) (by decide) (by decide) (by omega) hreach hen
  cases hq : rm.mWriteBackBQ_ with
  | none => rw [hq] at h; contradiction
  | some bq => exact ⟨bq, rfl⟩

/-! ## Producer context and planner: further lemmas -/

theorem cacheKeys_cacheSet_of_not_found (m : List (Nat × VpBufferInfo)) (k : Nat)
    (v : VpBufferInfo) (h : cacheFind m k = none) :
    cacheKeys (cacheSet m k v) = cacheKeys m ++ [k] := by
  induction m with
  | nil => simp [cacheSet, cacheKeys]
  | cons e rest ih =>
    unfold cacheFind at h
    simp only [List.find?_cons] at h
    cases hb : e.1 == k with
    | true => simp [hb] at h
    | false =>
      simp only [hb] at h
      simp only [cacheSet, hb, Bool.false_eq_true, if_false]
      have := ih h
      simp only [cacheKeys, List.map_cons, List.cons_append] at this ⊢
      rw [this]

theorem cacheFind_none_iff (m : List (Nat × VpBufferInfo)) (k : Nat) :
    cacheFind m k = none ↔ k ∉ cacheKeys m := by
  rw [← cacheFind_isSome_iff]
  cases cacheFind m k <;> simp

theorem getUsablePlanes_count (crtc : DrmCrtc) (primary overlay : List DrmPlane)
    (p : DrmPlane) :
    (Planner.GetUsablePlanes crtc primary overlay).count p =
      if p.GetCrtcSupported crtc then primary.count p + overlay.count p else 0 := by
  rw [getUsablePlanes_eq_filter, List.count_append]
  cases hs : p.GetCrtcSupported crtc with
  | true =>
    have h1 : (primary.filter (fun q => q.GetCrtcSupported crtc)).count p = primary.count p :=
      List.count_filter hs
    have h2 : (overlay.filter (fun q => q.GetCrtcSupported crtc)).count p = overlay.count p :=
      List.count_filter hs
    simp [h1, h2]
  | false =>
    have h1 : (primary.filter (fun q => q.GetCrtcSupported crtc)).count p = 0 :=
      List.count_eq_zero.2 (fun hm => by simp [List.mem_filter, hs] at hm)
    have h2 : (overlay.filter (fun q => q.GetCrtcSupported crtc)).count p = 0 :=
      List.count_eq_zero.2 (fun hm => by simp [List.mem_filter, hs] at hm)
    simp [h1, h2]

theorem getReleaseFence_of_not_cached (ctx : VpContext) (buffer_id : Nat)
    (hf : cacheFind ctx.mMapBuffer_ buffer_id = none) : ctx.GetReleaseFence buffer_id = none := by
  unfold VpContext.GetReleaseFence
  cases ctx.mTimeLine_.valid <;> simp [hf]

theorem signalReleaseFence_of_not_cached (ctx : VpContext) (buffer_id : Nat)
    (hf : cacheFind ctx.mMapBuffer_ buffer_id = none) :
    ctx.SignalReleaseFence buffer_id = (-1, ctx) := by
  unfold VpContext.SignalReleaseFence
  cases ctx.mTimeLine_.valid <;> simp [hf]

theorem addReleaseFence_of_invalid (ctx : VpContext) (buffer_id : Nat)
    (hv : ctx.mTimeLine_.valid = false) : ctx.AddReleaseFence buffer_id = some (-1, ctx) := by
  unfold VpContext.AddReleaseFence
  simp [hv]

theorem addReleaseFence_of_not_cached (ctx : VpContext) (buffer_id : Nat)
    (hf : cacheFind ctx.mMapBuffer_ buffer_id = none) :
    ctx.AddReleaseFence buffer_id = some (-1, ctx) := by
  unfold VpContext.AddReleaseFence
  cases ctx.mTimeLine_.valid <;> simp [hf]

theorem addReleaseFence_of_cached (ctx : VpContext) (buffer_id : Nat) (info : VpBufferInfo)
    (hv : ctx.mTimeLine_.valid = true) (hf : cacheFind ctx.mMapBuffer_ buffer_id = some info)
    (hfit : (fenceName ctx.iTunnelId_ buffer_id (ctx.mTimeLine_.counter + 1)).length + 1 ≤ 32) :
    ctx.AddReleaseFence buffer_id = some (0, { ctx with
      mTimeLine_ := { ctx.mTimeLine_ with counter := ctx.mTimeLine_.counter + 1 }
      uFrameNo_ := ctx.mTimeLine_.counter + 1
      mMapBuffer_ := cacheSet ctx.mMapBuffer_ buffer_id { info with
        release_fence := some ⟨ctx.mTimeLine_.counter + 1, ctx.iTunnelId_, buffer_id, false⟩ } }) := by
  have hnot : ¬ 32 < (fenceName ctx.iTunnelId_ buffer_id (ctx.mTimeLine_.counter + 1)).length + 1 := by
    omega
  unfold VpContext.AddReleaseFence
  simp only [hv, hf, SyncTimeline.IncTimeline, Bool.not_true, Bool.false_eq_true, if_false, hnot]

theorem addReleaseFence_of_long_name (ctx : VpContext) (buffer_id : Nat) (info : VpBufferInfo)
    (hv : ctx.mTimeLine_.valid = true) (hf : cacheFind ctx.mMapBuffer_ buffer_id = some info)
    (hlong : 32 < (fenceName ctx.iTunnelId_ buffer_id (ctx.mTimeLine_.counter + 1)).length + 1) :
    ctx.AddReleaseFence buffer_id = none := by
  unfold VpContext.AddReleaseFence
  simp only [hv, hf, SyncTimeline.IncTimeline, Bool.not_true, Bool.false_eq_true, if_false, hlong,
    if_true]

theorem addReleaseFence_result (ctx ctx1 : VpContext) (buffer_id : Nat) (ret : Int)
    (h : ctx.AddReleaseFence buffer_id = some (ret, ctx1)) :
    (ret = -1 ∧ ctx1 = ctx ∧
      (ctx.mTimeLine_.valid = false ∨ buffer_id ∉ cacheKeys ctx.mMapBuffer_)) ∨
    (ret = 0 ∧ ctx.mTimeLine_.valid = true ∧
      (fenceName ctx.iTunnelId_ buffer_id (ctx.mTimeLine_.counter + 1)).length + 1 ≤ 32 ∧
      ∃ info, cacheFind ctx.mMapBuffer_ buffer_id = some info ∧
        ctx1 = { ctx with
          mTimeLine_ := { ctx.mTimeLine_ with counter := ctx.mTimeLine_.counter + 1 }
          uFrameNo_ := ctx.mTimeLine_.counter + 1
          mMapBuffer_ := cacheSet ctx.mMapBuffer_ buffer_id { info with
            release_fence :=
              some ⟨ctx.mTimeLine_.counter + 1, ctx.iTunnelId_, buffer_id, false⟩ } }) := by
  cases hv : ctx.mTimeLine_.valid with
  | false =>
    rw [addReleaseFence_of_invalid ctx buffer_id hv] at h
    simp only [Option.some.injEq, Prod.mk.injEq] at h
    exact Or.inl ⟨h.1.symm, h.2.symm, Or.inl rfl⟩
  | true =>
    cases hf : cacheFind ctx.mMapBuffer_ buffer_id with
    | none =>
      rw [addReleaseFence_of_not_cached ctx buffer_id hf] at h
      simp only [Option.some.injEq, Prod.mk.injEq] at h
      exact Or.inl ⟨h.1.symm, h.2.symm, Or.inr ((cacheFind_none_iff _ _).1 hf)⟩
    | some info =>
      by_cases hlong :
          32 < (fenceName ctx.iTunnelId_ buffer_id (ctx.mTimeLine_.counter + 1)).length + 1
      · rw [addReleaseFence_of_long_name ctx buffer_id info hv hf hlong] at h
        contradiction
      · rw [addReleaseFence_of_cached ctx buffer_id info hv hf (by omega)] at h
        simp only [Option.some.injEq, Prod.mk.injEq] at h
        exact Or.inr ⟨h.1.symm, rfl, by omega, info, rfl, h.2.symm⟩

theorem addReleaseFence_failure (ctx ctx1 : VpContext) (buffer_id : Nat) (ret : Int)
    (h : ctx.AddReleaseFence buffer_id = some (ret, ctx1)) (hret : ret ≠ 0) : ctx1 = ctx := by
  rcases addReleaseFence_result ctx ctx1 buffer_id ret h with ⟨-, hc, -⟩ | ⟨h0, -⟩
  · exact hc
  · exact absurd h0 hret

theorem addReleaseFence_success (ctx ctx1 : VpContext) (buffer_id : Nat)
    (h : ctx.AddReleaseFence buffer_id = some (0, ctx1)) :
    ctx.mTimeLine_.valid = true ∧ buffer_id ∈ cacheKeys ctx.mMapBuffer_ ∧
    ctx1.mTimeLine_ = { ctx.mTimeLine_ with counter := ctx.mTimeLine_.counter + 1 } ∧
    ctx1.uFrameNo_ = ctx.mTimeLine_.counter + 1 ∧
    ctx1.iTunnelId_ = ctx.iTunnelId_ ∧
    cacheKeys ctx1.mMapBuffer_ = cacheKeys ctx.mMapBuffer_ ∧
    ctx1.GetReleaseFence buffer_id =
      some ⟨ctx.mTimeLine_.counter + 1, ctx.iTunnelId_, buffer_id, false⟩ := by
  rcases addReleaseFence_result ctx ctx1 buffer_id 0 h with ⟨h0, -⟩ | ⟨-, hv, -, info, hf, rfl⟩
  · exact absurd h0 (by decide)
  · have hmem : buffer_id ∈ cacheKeys ctx.mMapBuffer_ :=
      (cacheFind_isSome_iff _ _).1 (by simp [hf])
    refine ⟨hv, hmem, rfl, rfl, rfl, cacheKeys_cacheSet_of_found _ _ _ _ hf, ?_⟩
    simp only [VpContext.GetReleaseFence, hv, Bool.not_true, Bool.false_eq_true, if_false,
      cacheFind_cacheSet_self]

theorem addReleaseFences_increasing (ids : List Nat) : ∀ ctx : VpContext,
    List.Pairwise (fun a b => a < b) (ctx.addReleaseFences ids).1 ∧
    (∀ v ∈ (ctx.addReleaseFences ids).1, ctx.mTimeLine_.counter < v) ∧
    (ctx.addReleaseFences ids).1 =
      List.range' (ctx.mTimeLine_.counter + 1) (ctx.addReleaseFences ids).1.length := by
  induction ids with
  | nil => intro ctx; simp [VpContext.addReleaseFences]
  | cons buffer_id rest ih =>
    intro ctx
    cases hE : ctx.AddReleaseFence buffer_id with
    | none => simp [VpContext.addReleaseFences, hE]
    | some r =>
      obtain ⟨ret, ctx1⟩ := r
      by_cases hret : ret = 0
      · subst hret
        obtain ⟨-, -, htl, -, -, -, hget⟩ := addReleaseFence_success ctx ctx1 buffer_id hE
        obtain ⟨hp, hlt, hrange⟩ := ih ctx1
        rw [htl] at hlt hrange
        simp only at hlt hrange
        simp only [VpContext.addReleaseFences, hE, if_true, hget, List.pairwise_cons,
          List.mem_cons, forall_eq_or_imp, List.length_cons, List.range'_succ, List.cons.injEq,
          true_and]
        refine ⟨⟨fun v hv => hlt v hv, hp⟩, ⟨by omega, fun v hv => ?_⟩, hrange⟩
        have := hlt v hv
        omega
      · have hsame := addReleaseFence_failure ctx ctx1 buffer_id ret hE hret
        subst hsame
        have := ih ctx1
        simp only [VpContext.addReleaseFences, hE, hret, if_false]
        exact this

theorem addReleaseFences_count (ids : List Nat) : ∀ ctx ctx1 : VpContext,
    ctx.mTimeLine_.valid = true → (ctx.addReleaseFences ids).2 = some ctx1 →
    (ctx.addReleaseFences ids).1.length =
      (ids.filter (fun buffer_id => decide (buffer_id ∈ cacheKeys ctx.mMapBuffer_))).length := by
  induction ids with
  | nil => intro ctx ctx1 _ _; simp [VpContext.addReleaseFences]
  | cons buffer_id rest ih =>
    intro ctx ctx2 hv hrun
    cases hE : ctx.AddReleaseFence buffer_id with
    | none => simp [VpContext.addReleaseFences, hE] at hrun
    | some r =>
      obtain ⟨ret, ctx1⟩ := r
      by_cases hret : ret = 0
      · subst hret
        obtain ⟨-, hmem, htl, -, -, hkeys, hget⟩ := addReleaseFence_success ctx ctx1 buffer_id hE
        have hv1 : ctx1.mTimeLine_.valid = true := by rw [htl]; exact hv
        simp only [VpContext.addReleaseFences, hE, if_true, hget] at hrun
        have := ih ctx1 ctx2 hv1 hrun
        simp only [VpContext.addReleaseFences, hE, if_true, hget, List.length_cons, this, hkeys,
          List.filter_cons, hmem, decide_True]
      · rcases addReleaseFence_result ctx ctx1 buffer_id ret hE with
          ⟨-, hsame, hwhy⟩ | ⟨h0, -⟩
        · subst hsame
          have hnot : ¬ buffer_id ∈ cacheKeys ctx1.mMapBuffer_ := by
            rcases hwhy with hwhy | hwhy
            · rw [hv] at hwhy; contradiction
            · exact hwhy
          simp only [VpContext.addReleaseFences, hE, hret, if_false] at hrun
          have := ih ctx1 ctx2 hv hrun
          simp only [VpContext.addReleaseFences, hE, hret, if_false, this, List.filter_cons,
            hnot, decide_False, Bool.false_eq_true]
        · exact absurd h0 hret

theorem addReleaseFences_total (ids : List Nat) : ∀ ctx : VpContext,
    (∀ buffer_id ∈ ids, ∀ k : Nat, k < ids.length →
      (fenceName ctx.iTunnelId_ buffer_id (ctx.mTimeLine_.counter + 1 + k)).length + 1 ≤ 32) →
    ∃ ctx1, (ctx.addReleaseFences ids).2 = some ctx1 := by
  induction ids with
  | nil => intro ctx _; exact ⟨ctx, rfl⟩
  | cons buffer_id rest ih =>
    intro ctx hfit
    cases hv : ctx.mTimeLine_.valid with
    | false =>
      have hE := addReleaseFence_of_invalid ctx buffer_id hv
      obtain ⟨ctx2, h2⟩ := ih ctx (fun b hb k hk =>
        hfit b (List.mem_cons_of_mem _ hb) k (by simp only [List.length_cons]; omega))
      exact ⟨ctx2, by simp [VpContext.addReleaseFences, hE, h2]⟩
    | true =>
      cases hf : cacheFind ctx.mMapBuffer_ buffer_id with
      | none =>
        have hE := addReleaseFence_of_not_cached ctx buffer_id hf
        obtain ⟨ctx2, h2⟩ := ih ctx (fun b hb k hk =>
          hfit b (List.mem_cons_of_mem _ hb) k (by simp only [List.length_cons]; omega))
        exact ⟨ctx2, by simp [VpContext.addReleaseFences, hE, h2]⟩
      | some info =>
        have hfit0 := hfit buffer_id (List.mem_cons_self _ _) 0 (by simp)
        have hE := addReleaseFence_of_cached ctx buffer_id info hv hf hfit0
        obtain ⟨-, -, htl, -, htun, -, hget⟩ := addReleaseFence_success ctx _ buffer_id hE
        obtain ⟨ctx2, h2⟩ := ih _ (fun b hb k hk => by
          rw [htun, htl]
          have := hfit b (List.mem_cons_of_mem _ hb) (k + 1)
            (by simp only [List.length_cons]; omega)
          simp only
          rw [show ctx.mTimeLine_.counter + 1 + 1 + k = ctx.mTimeLine_.counter + 1 + (k + 1) by
            omega]
          exact this)
        refine ⟨ctx2, ?_⟩
        simp only [VpContext.addReleaseFences, hE, if_true, hget]
        exact h2

theorem addReleaseFence_when_name_fits (ctx : VpContext) (buffer_id : Nat)
    (hfit : (fenceName ctx.iTunnelId_ buffer_id (ctx.mTimeLine_.counter + 1)).length + 1 ≤ 32) :
    ∃ ret ctx1, ctx.AddReleaseFence buffer_id = some (ret, ctx1) ∧ (ret = 0 ∨ ret = -1) ∧
      (ret ≠ 0 ↔ (ctx.mTimeLine_.valid = false ∨ buffer_id ∉ cacheKeys ctx.mMapBuffer_)) ∧
      (ret ≠ 0 → ctx1 = ctx) ∧
      (ret = 0 →
        ctx1.mTimeLine_ = ctx.mTimeLine_.IncTimeline.2 ∧
        ctx1.mTimeLine_.counter = ctx.mTimeLine_.counter + 1 ∧
        ctx1.uFrameNo_ = ctx.mTimeLine_.counter + 1 ∧
        (cacheFind ctx.mMapBuffer_ buffer_id).isSome = true ∧
        cacheFind ctx1.mMapBuffer_ buffer_id =
          (cacheFind ctx.mMapBuffer_ buffer_id).map (fun info => { info with
            release_fence :=
              some ⟨ctx.mTimeLine_.counter + 1, ctx.iTunnelId_, buffer_id, false⟩ }) ∧
        (∀ other : Nat, other ≠ buffer_id →
          cacheFind ctx1.mMapBuffer_ other = cacheFind ctx.mMapBuffer_ other) ∧
        cacheKeys ctx1.mMapBuffer_ = cacheKeys ctx.mMapBuffer_) := by
  cases hv : ctx.mTimeLine_.valid with
  | false =>
    refine ⟨-1, ctx, addReleaseFence_of_invalid ctx buffer_id hv, Or.inr rfl, ?_, fun _ => rfl, ?_⟩
    · exact ⟨fun _ => Or.inl rfl, fun _ => by decide⟩
    · intro h; exact absurd h (by decide)
  | true =>
    cases hf : cacheFind ctx.mMapBuffer_ buffer_id with
    | none =>
      refine ⟨-1, ctx, addReleaseFence_of_not_cached ctx buffer_id hf, Or.inr rfl, ?_,
        fun _ => rfl, ?_⟩
      · exact ⟨fun _ => Or.inr ((cacheFind_none_iff _ _).1 hf), fun _ => by decide⟩
      · intro h; exact absurd h (by decide)
    | some info =>
      have hmem : buffer_id ∈ cacheKeys ctx.mMapBuffer_ :=
        (cacheFind_isSome_iff _ _).1 (by simp [hf])
      refine ⟨0, _, addReleaseFence_of_cached ctx buffer_id info hv hf hfit, Or.inl rfl, ?_,
        fun h => absurd rfl h, ?_⟩
      · constructor
        · intro h; exact absurd rfl h
        · rintro (h | h)
          · exact absurd h (by simp)
          · exact absurd hmem h
      · intro _
        refine ⟨rfl, rfl, rfl, rfl, ?_, ?_, ?_⟩
        · simp only [cacheFind_cacheSet_self, Option.map_some']
        · intro other hne
          exact cacheFind_cacheSet_of_ne _ _ _ _ hne
        · exact cacheKeys_cacheSet_of_found _ _ _ _ hf

/-! ## Failing swaps, device registration and compositor lookup: lemmas -/

theorem swap_queue_rejected (rm : ResourceManager) (bq : DrmBufferQueue) (queueRet : Int)
    (initOk : Bool) (hen : rm.bEnableWriteBack_ > 0) (hq : rm.mWriteBackBQ_ = some bq)
    (hrej : queueRet ≠ 0) :
    rm.SwapWBBuffer queueRet initOk = some (-1, { rm with
      mFinishWriteBackBuffer_ := rm.mDrawingWriteBackBuffer_
      mDrawingWriteBackBuffer_ := rm.mNextWriteBackBuffer_ }) := by
  have hnot : ¬ rm.bEnableWriteBack_ ≤ 0 := by omega
  unfold ResourceManager.SwapWBBuffer
  simp [hnot, hq, DrmBufferQueue.QueueBuffer, hrej]

theorem swap_failure_slots (rm : ResourceManager) (bq : DrmBufferQueue) (queueRet : Int)
    (initOk : Bool) (hen : rm.bEnableWriteBack_ > 0) (hq : rm.mWriteBackBQ_ = some bq)
    (hfail : queueRet ≠ 0 ∨ initOk = false) :
    ∃ rm1, rm.SwapWBBuffer queueRet initOk = some (-1, rm1) ∧
      rm1.mFinishWriteBackBuffer_ = rm.mDrawingWriteBackBuffer_ ∧
      rm1.mDrawingWriteBackBuffer_ = rm.mNextWriteBackBuffer_ ∧
      rm1.mNextWriteBackBuffer_ = rm.mNextWriteBackBuffer_ ∧
      rm1.bEnableWriteBack_ = rm.bEnableWriteBack_ ∧
      rm1.iWriteBackDisplayId_ = rm.iWriteBackDisplayId_ := by
  by_cases hrej : queueRet = 0
  · have hinit : initOk = false := by
      rcases hfail with h | h
      · exact absurd hrej h
      · exact h
    subst hrej
    subst hinit
    exact ⟨_, swap_alloc_failure rm bq hen hq, rfl, rfl, rfl, rfl, rfl⟩
  · exact ⟨_, swap_queue_rejected rm bq queueRet initOk hen hq hrej, rfl, rfl, rfl, rfl, rfl⟩

theorem swap_success_of_no_failure (rm : ResourceManager) (bq : DrmBufferQueue)
    (hen : rm.bEnableWriteBack_ > 0) (hq : rm.mWriteBackBQ_ = some bq) :
    (rm.SwapWBBuffer 0 true).map Prod.fst = some 0 := by
  have hnot : ¬ rm.bEnableWriteBack_ ≤ 0 := by omega
  unfold ResourceManager.SwapWBBuffer
  simp [hnot, hq, DrmBufferQueue.QueueBuffer, DrmBufferQueue.DequeueDrmBuffer]

theorem addDrmDevice_failure (probe : List Char → Int → DeviceProbe) (rm : ResourceManager)
    (path : List Char) (h : (rm.AddDrmDevice probe path).1 ≠ 0) :
    (rm.AddDrmDevice probe path).2.drms_ = rm.drms_ ∧
    (rm.AddDrmDevice probe path).2.importers_ = rm.importers_ ∧
    (rm.AddDrmDevice probe path).2.num_displays_ = rm.num_displays_ := by
  unfold ResourceManager.AddDrmDevice at h ⊢
  simp only at h ⊢
  by_cases hret : (probe path rm.num_displays_).ret = 0
  · cases himp : (probe path rm.num_displays_).importer with
    | none => simp [hret, himp]
    | some importer => simp [hret, himp] at h
  · simp [hret]

theorem addDrmDevice_status (probe : List Char → Int → DeviceProbe) (rm : ResourceManager)
    (path : List Char) :
    (rm.AddDrmDevice probe path).1 = 0 ↔
      ((probe path rm.num_displays_).ret = 0 ∧ (probe path rm.num_displays_).importer ≠ none) := by
  unfold ResourceManager.AddDrmDevice
  simp only
  by_cases hret : (probe path rm.num_displays_).ret = 0
  · cases himp : (probe path rm.num_displays_).importer with
    | none => simp [hret, himp, ENODEV]
    | some importer => simp [hret, himp]
  · simp [hret]

theorem addDrmDevices_registers (outcomes : List DeviceProbe) : ∀ rm : ResourceManager,
    (rm.addDrmDevices outcomes).drms_ = rm.drms_ ++ (registeredPairs outcomes).map Prod.fst ∧
    (rm.addDrmDevices outcomes).importers_ =
      rm.importers_ ++ (registeredPairs outcomes).map Prod.snd ∧
    (rm.addDrmDevices outcomes).num_displays_ = rm.num_displays_ + registeredDisplays outcomes := by
  induction outcomes with
  | nil => intro rm; simp [ResourceManager.addDrmDevices, registeredPairs, registeredDisplays]
  | cons p rest ih =>
    intro rm
    simp only [ResourceManager.addDrmDevices, registeredPairs, registeredDisplays]
    obtain ⟨h1, h2, h3⟩ := ih (rm.AddDrmDevice (fun _ _ => p) []).2
    rw [h1, h2, h3]
    unfold ResourceManager.AddDrmDevice
    by_cases hret : p.ret = 0
    · cases himp : p.importer with
      | none => simp [hret, himp]
      | some importer => simp [hret, himp, add_assoc]
    · simp [hret]

theorem getImporterLoop_of_paired (splitMask display : Int) (all : List Importer)
    (drms : List DrmDevice) : ∀ (importers : List Importer) (i : Nat),
    drms.length = importers.length → all.drop i = importers →
    GetImporterLoop splitMask display all i drms =
      some (((drms.zip importers).find?
        (fun e => e.1.HandlesDisplay (intAnd display (intNot splitMask)))).map Prod.snd) := by
  induction drms with
  | nil => intro importers i _ _; simp [GetImporterLoop]
  | cons drm rest ih =>
    intro importers i hlen hdrop
    cases importers with
    | nil => simp at hlen
    | cons importer others =>
      have hget : all[i]? = some importer := by
        have h0 : (all.drop i)[0]? = all[i + 0]? := List.getElem?_drop all i 0
        rw [hdrop] at h0
        simpa using h0.symm
      have hnext : all.drop (i + 1) = others := by
        have h1 : all.drop (i + 1) = (all.drop i).drop 1 := by
          rw [List.drop_drop, Nat.add_comm]
        rw [h1, hdrop]
        rfl
      simp only [GetImporterLoop, List.zip_cons_cons, List.find?_cons]
      cases hh : drm.HandlesDisplay (intAnd display (intNot splitMask))
      · simp only [Bool.false_eq_true, if_false]
        exact ih others (i + 1) (by simpa using hlen) hnext
      · simp [hget]

theorem getDrmDeviceLoop_of_paired (splitMask display : Int) (drms : List DrmDevice) :
    ∀ (importers : List Importer), drms.length = importers.length →
    GetDrmDeviceLoop splitMask display drms =
      ((drms.zip importers).find?
        (fun e => e.1.HandlesDisplay (intAnd display (intNot splitMask)))).map Prod.fst := by
  induction drms with
  | nil => intro importers _; simp [GetDrmDeviceLoop]
  | cons drm rest ih =>
    intro importers hlen
    cases importers with
    | nil => simp at hlen
    | cons importer others =>
      simp only [GetDrmDeviceLoop, List.zip_cons_cons, List.find?_cons]
      cases hh : drm.HandlesDisplay (intAnd display (intNot splitMask))
      · simp only [Bool.false_eq_true, if_false]
        exact ih others (by simpa using hlen)
      · simp

theorem getDrmDisplayCompositor_null (rm : ResourceManager) :
    rm.GetDrmDisplayCompositor none = some none := rfl

theorem getDrmDisplayCompositor_empty (rm : ResourceManager) (crtc : Option DrmCrtc)
    (hempty : rm.mapDrmDisplayCompositor_ = []) :
    rm.GetDrmDisplayCompositor crtc = some none := by
  cases crtc <;> simp [ResourceManager.GetDrmDisplayCompositor, hempty]

theorem getDrmDisplayCompositor_found (rm : ResourceManager) (crtc : DrmCrtc)
    (compositor : DrmDisplayCompositor)
    (hfound : mapFind rm.mapDrmDisplayCompositor_ crtc.id = some compositor) :
    rm.GetDrmDisplayCompositor (some crtc) = some (some compositor) := by
  have hne : rm.mapDrmDisplayCompositor_.length ≠ 0 := by
    intro h0
    have : rm.mapDrmDisplayCompositor_ = [] := List.length_eq_zero.1 h0
    rw [this] at hfound
    simp [mapFind] at hfound
  simp [ResourceManager.GetDrmDisplayCompositor, hne, hfound]

theorem getDrmDisplayCompositor_missing (rm : ResourceManager) (crtc : DrmCrtc)
    (hne : rm.mapDrmDisplayCompositor_ ≠ [])
    (hmiss : mapFind rm.mapDrmDisplayCompositor_ crtc.id = none) :
    rm.GetDrmDisplayCompositor (some crtc) = none := by
  have hlen : rm.mapDrmDisplayCompositor_.length ≠ 0 := fun h0 => hne (List.length_eq_zero.1 h0)
  simp [ResourceManager.GetDrmDisplayCompositor, hlen, hmiss]

/-! ## Long runs of the session: lemmas -/

theorem steps_append (splitMask : Int) (xs ys : List WBCall) : ∀ rm : ResourceManager,
    ResourceManager.steps splitMask rm (xs ++ ys) =
      (ResourceManager.steps splitMask rm xs).bind
        (fun rm1 => ResourceManager.steps splitMask rm1 ys) := by
  induction xs with
  | nil => intro rm; rfl
  | cons c rest ih =>
    intro rm
    simp only [List.cons_append, ResourceManager.steps]
    cases rm.step splitMask c with
    | none => rfl
    | some rm1 => exact ih rm1

theorem enable_same_display (splitMask : Int) (rm : ResourceManager) (d : Int) (initOk : Bool)
    (hen : rm.bEnableWriteBack_ > 0) (hb : rm.iWriteBackDisplayId_ = d) :
    rm.EnableWriteBackMode splitMask d initOk =
      some (0, { rm with bEnableWriteBack_ := wrapInt32 (rm.bEnableWriteBack_ + 1) }) := by
  unfold ResourceManager.EnableWriteBackMode
  simp [hen, hb]

theorem steps_replicate_enable (splitMask : Int) (s : ResourceManager) (d : Int)
    (initOk : Bool) (hb : s.iWriteBackDisplayId_ = d) (n : Nat) :
    ∀ c : Int, 0 < c → c + n ≤ 2147483647 →
      ResourceManager.steps splitMask { s with bEnableWriteBack_ := c }
          (List.replicate n (WBCall.enable d initOk)) =
        some { s with bEnableWriteBack_ := c + n } := by
  induction n with
  | zero => intro c _ _; simp [ResourceManager.steps]
  | succ n ih =>
    intro c hc hmax
    have hw : wrapInt32 (c + 1) = c + 1 := wrapInt32_of_range _ (by omega) (by omega)
    have hE := enable_same_display splitMask { s with bEnableWriteBack_ := c } d initOk hc hb
    simp only [hw] at hE
    rw [List.replicate_succ]
    simp only [ResourceManager.steps, ResourceManager.step, hE, Option.map_some']
    rw [ih (c + 1) (by omega) (by push_cast at hmax; omega)]
    have e : c + 1 + (n : Int) = c + ((n + 1 : Nat) : Int) := by push_cast; omega
    rw [e]

theorem steps_replicate_disable_sentinel (splitMask : Int) (n : Nat) :
    ∀ c : Int, c ≤ 0 → -2147483648 ≤ c - n →
      ResourceManager.steps splitMask { ResourceManager.new with bEnableWriteBack_ := c }
          (List.replicate n (WBCall.disable (-1))) =
        some { ResourceManager.new with bEnableWriteBack_ := c - n } := by
  induction n with
  | zero => intro c _ _; simp [ResourceManager.steps]
  | succ n ih =>
    intro c hc hmin
    have hw : wrapInt32 (c - 1) = c - 1 := wrapInt32_of_range _ (by push_cast at hmin; omega) (by omega)
    have hD : ({ ResourceManager.new with bEnableWriteBack_ := c } : ResourceManager).DisableWriteBackMode
        (-1) = (0, { ResourceManager.new with bEnableWriteBack_ := c - 1 }) := by
      have hle : c - 1 ≤ 0 := by omega
      unfold ResourceManager.DisableWriteBackMode
      simp [hw, hle, ResourceManager.new]
    rw [List.replicate_succ]
    simp only [ResourceManager.steps, ResourceManager.step, hD]
    rw [ih (c - 1) (by omega) (by push_cast at hmin ⊢; omega)]
    have e : c - 1 - (n : Int) = c - ((n + 1 : Nat) : Int) := by push_cast; omega
    rw [e]

theorem mem_cons_replicate_not_sentinel (c : WBCall) (drms : List DrmDevice) (n : Nat)
    (d : Int) (initOk : Bool) (hd : d ≠ -1)
    (h : c ∈ WBCall.devices drms :: List.replicate n (WBCall.enable d initOk)) :
    c.passesSentinel = false := by
  rcases List.mem_cons.1 h with h | h
  · rw [h]; rfl
  · rw [List.eq_of_mem_replicate h]
    simpa [WBCall.passesSentinel] using hd

theorem steps_enable_from_device (n : Nat) (hn : n + 1 ≤ 2147483647) :
    ResourceManager.steps 240 ResourceManager.new
        (WBCall.devices [deviceExample] :: List.replicate (n + 1) (WBCall.enable 0 true)) =
      some { sessionAfterCalls with bEnableWriteBack_ := 1 + n } := by
  have h1 : ResourceManager.steps 240 ResourceManager.new
      [WBCall.devices [deviceExample], WBCall.enable 0 true] = some sessionAfterCalls := by
    decide
  have h2 := steps_replicate_enable 240 sessionAfterCalls 0 true (by decide) n 1 (by decide)
    (by omega)
  have h3 := steps_append 240 [WBCall.devices [deviceExample], WBCall.enable 0 true]
    (List.replicate n (WBCall.enable 0 true)) ResourceManager.new
  rw [h1] at h3
  simp only [Option.some_bind] at h3
  rw [List.replicate_succ]
  exact h3.trans h2

theorem steps_enable_until_overflow :
    ResourceManager.steps 240 ResourceManager.new
        (WBCall.devices [deviceExample] :: List.replicate 2147483648 (WBCall.enable 0 true)) =
      some sessionCountOverflowed := by
  have h1 : ResourceManager.steps 240 ResourceManager.new
      (WBCall.devices [deviceExample] :: List.replicate 2147483647 (WBCall.enable 0 true)) =
      some sessionCountMax := steps_enable_from_device 2147483646 (by decide)
  have h2 : ResourceManager.steps 240 sessionCountMax [WBCall.enable 0 true] =
      some sessionCountOverflowed := by decide
  have h3 := steps_append 240
    (WBCall.devices [deviceExample] :: List.replicate 2147483647 (WBCall.enable 0 true))
    [WBCall.enable 0 true] ResourceManager.new
  rw [h1] at h3
  simp only [Option.some_bind] at h3
  have e : List.replicate 2147483648 (WBCall.enable 0 true) =
      List.replicate 2147483647 (WBCall.enable 0 true) ++ [WBCall.enable 0 true] :=
    List.replicate_succ' 2147483647 (WBCall.enable 0 true)
  rw [e, ← List.cons_append]
  exact h3.trans h2

/-! ## The claims -/

/-- C1, as amended: for every finite sequence of session operations in which no
`EnableWriteBackMode` / `DisableWriteBackMode` call passes the unbound sentinel -1 as its display
and which holds fewer than 2^31 `EnableWriteBackMode` calls (with any other display arguments,
devices, connector states and buffer-allocation outcomes), started from the initial disabled
session, every state the sequence reaches has a reference count that is not negative, and is
bound to no display (-1) if and only if the count is 0. -/
theorem writeback_count_matches_binding (splitMask : Int) (cs : List WBCall)
    (rm1 : ResourceManager) (hcs : ∀ c ∈ cs, c.passesSentinel = false)
    (hlen : enableCalls cs < 2147483648)
    (h : ResourceManager.steps splitMask ResourceManager.new cs = some rm1) :
    0 ≤ rm1.bEnableWriteBack_ ∧ (rm1.iWriteBackDisplayId_ = -1 ↔ rm1.bEnableWriteBack_ = 0) :=
  (steps_keep_count_binding splitMask cs ResourceManager.new rm1 (by decide)
    (by
      have h0 : ResourceManager.new.bEnableWriteBack_ = 0 := rfl
      rw [h0]
      omega) hcs h).1

/-- Witness of C1 as amended: the sequence `callsExample` runs to `sessionAfterCalls`. -/
theorem writeback_count_matches_binding_witness :
    (∀ c ∈ callsExample, c.passesSentinel = false) ∧ enableCalls callsExample < 2147483648 ∧
    ResourceManager.steps 240 ResourceManager.new callsExample = some sessionAfterCalls ∧
    (0 ≤ sessionAfterCalls.bEnableWriteBack_ ∧
      (sessionAfterCalls.iWriteBackDisplayId_ = -1 ↔ sessionAfterCalls.bEnableWriteBack_ = 0)) :=
  ⟨by decide, by decide, by decide,
    writeback_count_matches_binding 240 callsExample sessionAfterCalls (by decide) (by decide)
      (by decide)⟩

/-- Counterexample to C1 as stated, at two inputs. `DisableWriteBackMode(-1)` on the initial
session matches the sentinel, decrements the count to -1 and leaves the session unbound with a
non-zero count. A run of 2^31 calls `EnableWriteBackMode(0)` on a connected display, none of
which passes the sentinel, takes the count from `INT_MAX` to `INT_MIN` with its last call and
leaves the session bound to display 0 with a negative count. -/
theorem sentinel_and_overflow_break_count_binding :
    (ResourceManager.steps 240 ResourceManager.new [WBCall.disable (-1)] =
        some sessionAfterSentinelDisable ∧
      sessionAfterSentinelDisable.bEnableWriteBack_ = -1 ∧
      sessionAfterSentinelDisable.iWriteBackDisplayId_ = -1 ∧
      ¬ (0 ≤ sessionAfterSentinelDisable.bEnableWriteBack_ ∧
        (sessionAfterSentinelDisable.iWriteBackDisplayId_ = -1 ↔
          sessionAfterSentinelDisable.bEnableWriteBack_ = 0))) ∧
    ((∀ c ∈ WBCall.devices [deviceExample] :: List.replicate 2147483648 (WBCall.enable 0 true),
        c.passesSentinel = false) ∧
      ResourceManager.steps 240 ResourceManager.new
          (WBCall.devices [deviceExample] :: List.replicate 2147483648 (WBCall.enable 0 true)) =
        some sessionCountOverflowed ∧
      sessionCountOverflowed.bEnableWriteBack_ = -2147483648 ∧
      sessionCountOverflowed.iWriteBackDisplayId_ = 0 ∧
      ¬ (0 ≤ sessionCountOverflowed.bEnableWriteBack_ ∧
        (sessionCountOverflowed.iWriteBackDisplayId_ = -1 ↔
          sessionCountOverflowed.bEnableWriteBack_ = 0))) :=
  ⟨by decide,
    fun c hc => mem_cons_replicate_not_sentinel c [deviceExample] 2147483648 0 true (by decide) hc,
    steps_enable_until_overflow, by decide, by decide, by decide⟩

/-- An `EnableWriteBackMode(-1)` that succeeds binds the session to the sentinel: the count is 1
and the bound display is -1. -/
theorem enable_sentinel_binds_sentinel :
    (ResourceManager.steps 0 ResourceManager.new
        [WBCall.devices [deviceSentinel], WBCall.enable (-1) true]).map
      (fun rm => (rm.bEnableWriteBack_, rm.iWriteBackDisplayId_)) = some (1, -1) := by
  decide

/-- After the count has gone to -1, a successful `EnableWriteBackMode(0)` leaves the session
bound to display 0 with reference count 0. -/
theorem enable_after_sentinel_disable :
    (ResourceManager.steps 240 ResourceManager.new
        [WBCall.disable (-1), WBCall.devices [deviceExample], WBCall.enable 0 true]).map
      (fun rm => (rm.bEnableWriteBack_, rm.iWriteBackDisplayId_)) = some (0, 0) := by
  decide

/-- C2: for every enabled session reached from the initial one by session operations, a
`SwapWBBuffer` that returns 0 leaves in `finish` the buffer `drawing` held before the call, in
`drawing` the buffer `next` held before the call, and in `next` the buffer the dequeue returned,
whose identity differs from that of every buffer held in the three slots before the call. -/
theorem swap_success_rotates_slots (splitMask : Int) (cs : List WBCall)
    (rm rm1 : ResourceManager) (queueRet : Int) (initOk : Bool)
    (hreach : ResourceManager.steps splitMask ResourceManager.new cs = some rm)
    (_hen : rm.bEnableWriteBack_ > 0)
    (h : rm.SwapWBBuffer queueRet initOk = some (0, rm1)) :
    rm1.mFinishWriteBackBuffer_ = rm.mDrawingWriteBackBuffer_ ∧
    rm1.mDrawingWriteBackBuffer_ = rm.mNextWriteBackBuffer_ ∧
    rm1.mNextWriteBackBuffer_ = some (DrmBufferQueue.DequeueDrmBuffer rm.allocated_
      rm.iWBWidth_ rm.iWBHeight_ rm.iWBFormat_ initOk) ∧
    ∀ next old : DrmBuffer, rm1.mNextWriteBackBuffer_ = some next →
      (rm.mNextWriteBackBuffer_ = some old ∨ rm.mDrawingWriteBackBuffer_ = some old ∨
        rm.mFinishWriteBackBuffer_ = some old) → old.id ≠ next.id :=
  swap_success_rotates_of_allocated rm rm1 queueRet initOk
    (steps_keep_slots_allocated splitMask cs ResourceManager.new rm (by decide) hreach) h

/-- Witness of C2: `callsTwoSwaps` reaches `sessionTwoSwaps`, whose swap succeeds and yields
`sessionThreeSwaps`. -/
theorem swap_success_rotates_slots_witness :
    ResourceManager.steps 240 ResourceManager.new callsTwoSwaps = some sessionTwoSwaps ∧
    sessionTwoSwaps.bEnableWriteBack_ > 0 ∧
    sessionTwoSwaps.SwapWBBuffer 0 true = some (0, sessionThreeSwaps) ∧
    sessionThreeSwaps.mFinishWriteBackBuffer_ = sessionTwoSwaps.mDrawingWriteBackBuffer_ ∧
    sessionThreeSwaps.mDrawingWriteBackBuffer_ = sessionTwoSwaps.mNextWriteBackBuffer_ :=
  ⟨by decide, by decide, by decide,
    (swap_success_rotates_slots 240 callsTwoSwaps sessionTwoSwaps sessionThreeSwaps 0 true
      (by decide) (by decide) (by decide)).1,
    (swap_success_rotates_slots 240 callsTwoSwaps sessionTwoSwaps sessionThreeSwaps 0 true
      (by decide) (by decide) (by decide)).2.1⟩

/-- C3: in a session with a positive reference count bound to display `d`,
`EnableWriteBackMode(e)` for a display `e` other than `d` returns -1 and leaves the whole session
state, hence the three slots, the reference count and the bound display, as it was. -/
theorem enable_other_display_conflicts (splitMask : Int) (rm : ResourceManager) (d e : Int)
    (initOk : Bool) (hen : rm.bEnableWriteBack_ > 0) (hb : rm.iWriteBackDisplayId_ = d)
    (hne : e ≠ d) :
    rm.EnableWriteBackMode splitMask e initOk = some (-1, rm) := by
  unfold ResourceManager.EnableWriteBackMode
  have hne2 : rm.iWriteBackDisplayId_ ≠ e := by rw [hb]; exact fun hh => hne hh.symm
  simp [hen, hne2]

/-- Witness of C3: `sessionExample` is bound to display 0 and refuses display 1. -/
theorem enable_other_display_conflicts_witness :
    sessionExample.bEnableWriteBack_ > 0 ∧ sessionExample.iWriteBackDisplayId_ = 0 ∧
    (1 : Int) ≠ 0 ∧
    sessionExample.EnableWriteBackMode 240 1 true = some (-1, sessionExample) :=
  ⟨by decide, by decide, by decide,
    enable_other_display_conflicts 240 sessionExample 0 1 true (by decide) (by decide)
      (by decide)⟩

/-- C4, evaluated at the failing input: with the single fixed path `/dev/dri/card0`, whose node
initialises without error and exposes no display, `ResourceManager::Init` returns 0 although
`num_displays_` is 0 (one device has been added). -/
theorem init_zero_displays_returns_success :
    (ResourceManager.Init envNoDisplays 0 ResourceManager.new).map
      (fun r => (r.1, r.2.num_displays_, r.2.drms_.length)) = some (0, 0, 1) := by
  decide

/-- C5: when no plane of the primary or the overlay list supports the CRTC,
`Planner::TryHwcPolicy` returns `-ENODEV` with an empty assignment, whatever the stages and the
layers are, and calls no stage. -/
theorem tryHwcPolicy_no_usable_planes (stages_ : List PlanStage) (layers : List DrmHwcLayer)
    (crtc : DrmCrtc) (primary_planes overlay_planes : List DrmPlane)
    (hp : ∀ p ∈ primary_planes, p.GetCrtcSupported crtc = false)
    (ho : ∀ p ∈ overlay_planes, p.GetCrtcSupported crtc = false) :
    Planner.TryHwcPolicy stages_ layers crtc primary_planes overlay_planes = (-ENODEV, []) ∧
    (Planner.TryHwcPolicyCounted stages_ layers crtc primary_planes overlay_planes).2.2 = 0 := by
  have hu : Planner.GetUsablePlanes crtc primary_planes overlay_planes = [] := by
    rw [getUsablePlanes_eq_filter]
    simp only [List.append_eq_nil, List.filter_eq_nil_iff]
    exact ⟨fun p hpm => by simp [hp p hpm], fun p hpm => by simp [ho p hpm]⟩
  simp [Planner.TryHwcPolicy, Planner.TryHwcPolicyCounted, hu]

/-- Witness of C5: two planes that support another CRTC only. -/
theorem tryHwcPolicy_no_usable_planes_witness :
    (∀ p ∈ [(⟨1, [72]⟩ : DrmPlane)], p.GetCrtcSupported crtcExample = false) ∧
    (∀ p ∈ [(⟨2, [73]⟩ : DrmPlane)], p.GetCrtcSupported crtcExample = false) ∧
    Planner.TryHwcPolicy [stageReject] layersExample crtcExample [⟨1, [72]⟩] [⟨2, [73]⟩] =
      (-ENODEV, []) ∧
    (Planner.TryHwcPolicyCounted [stageReject] layersExample crtcExample [⟨1, [72]⟩]
      [⟨2, [73]⟩]).2.2 = 0 :=
  ⟨by decide, by decide,
    tryHwcPolicy_no_usable_planes [stageReject] layersExample crtcExample [⟨1, [72]⟩]
      [⟨2, [73]⟩] (by decide) (by decide)⟩

/-- C6: with a non-empty usable-plane set, `Planner::TryHwcPolicy` threads one state (assignment
accumulator, layers, plane pool) through the stages in list order. If the stages of `front` all
report 0 and the next stage `s` reports `r ≠ 0`, the result is `(r, [])` whatever the stages
appended, and exactly `front.length + 1` stages are called, so none of `back` is. If every stage
reports 0, the result is 0 with the accumulated assignment, and every stage is called. -/
theorem tryHwcPolicy_stage_pipeline (layers : List DrmHwcLayer) (crtc : DrmCrtc)
    (primary_planes overlay_planes : List DrmPlane)
    (hne : Planner.GetUsablePlanes crtc primary_planes overlay_planes ≠ []) :
    (∀ (front : List PlanStage) (s : PlanStage) (back : List PlanStage) (r : Int),
      allStagesOk crtc front
        ⟨[], layers, Planner.GetUsablePlanes crtc primary_planes overlay_planes⟩ = true →
      (s (stateAfter crtc front
        ⟨[], layers, Planner.GetUsablePlanes crtc primary_planes overlay_planes⟩) crtc).1 = r →
      r ≠ 0 →
      Planner.TryHwcPolicy (front ++ s :: back) layers crtc primary_planes overlay_planes
          = (r, []) ∧
        (Planner.TryHwcPolicyCounted (front ++ s :: back) layers crtc primary_planes
          overlay_planes).2.2 = front.length + 1) ∧
    (∀ stages_ : List PlanStage,
      allStagesOk crtc stages_
        ⟨[], layers, Planner.GetUsablePlanes crtc primary_planes overlay_planes⟩ = true →
      Planner.TryHwcPolicy stages_ layers crtc primary_planes overlay_planes
          = (0, (stateAfter crtc stages_
              ⟨[], layers, Planner.GetUsablePlanes crtc primary_planes overlay_planes⟩).composition) ∧
        (Planner.TryHwcPolicyCounted stages_ layers crtc primary_planes overlay_planes).2.2
          = stages_.length) := by
  have hemp : (Planner.GetUsablePlanes crtc primary_planes overlay_planes).isEmpty = false := by
    cases hu : Planner.GetUsablePlanes crtc primary_planes overlay_planes with
    | nil => exact absurd hu hne
    | cons _ _ => rfl
  constructor
  · intro front s back r hok hr hr0
    have hfail : (s (stateAfter crtc front
        ⟨[], layers, Planner.GetUsablePlanes crtc primary_planes overlay_planes⟩) crtc).1 ≠ 0 := by
      rw [hr]; exact hr0
    have hrun := runStages_first_failure crtc front s back _ 0 hok hfail
    simp only [Planner.TryHwcPolicy, Planner.TryHwcPolicyCounted, hemp, Bool.false_eq_true,
      if_false, hrun, hr, hr0, ne_eq, not_false_eq_true, if_true]
    simp
  · intro stages_ hok
    have hrun := runStages_all_ok crtc stages_ _ 0 hok
    simp only [Planner.TryHwcPolicy, Planner.TryHwcPolicyCounted, hemp, Bool.false_eq_true,
      if_false, hrun, ne_eq, not_true_eq_false]
    simp

/-- Witness of C6: a failing second stage gives `(-22, [])` after two calls, and two successful
stages give the assignment they accumulated. -/
theorem tryHwcPolicy_stage_pipeline_witness :
    Planner.GetUsablePlanes crtcExample [⟨1, [71]⟩] [⟨2, [71]⟩, ⟨3, [72]⟩] ≠ [] ∧
    (Planner.TryHwcPolicy ([stageTakePlane] ++ stageReject :: [stageTakePlane]) layersExample
        crtcExample [⟨1, [71]⟩] [⟨2, [71]⟩, ⟨3, [72]⟩] = (-22, []) ∧
      (Planner.TryHwcPolicyCounted ([stageTakePlane] ++ stageReject :: [stageTakePlane])
        layersExample crtcExample [⟨1, [71]⟩] [⟨2, [71]⟩, ⟨3, [72]⟩]).2.2 = 1 + 1) ∧
    Planner.TryHwcPolicy [stageTakePlane, stageTakePlane] layersExample crtcExample
        [⟨1, [71]⟩] [⟨2, [71]⟩, ⟨3, [72]⟩] =
      (0, [⟨some ⟨1, [71]⟩, [10]⟩, ⟨some ⟨2, [71]⟩, [11]⟩]) :=
  ⟨by decide,
    (tryHwcPolicy_stage_pipeline layersExample crtcExample [⟨1, [71]⟩] [⟨2, [71]⟩, ⟨3, [72]⟩]
      (by decide)).1 [stageTakePlane] stageReject [stageTakePlane] (-22) (by decide) (by decide)
      (by decide),
    ((tryHwcPolicy_stage_pipeline layersExample crtcExample [⟨1, [71]⟩] [⟨2, [71]⟩, ⟨3, [72]⟩]
      (by decide)).2 [stageTakePlane, stageTakePlane] (by decide)).1⟩

/-- C7: `GetDrmDevice` and `GetImporter` give the same result for `x | MASK` as for
`x & ~MASK`; both depend on `x` through `x & ~MASK` only; `GetDrmDevice` returns the first device
of `drms_` that handles the masked id, and `GetImporter` the entry of `importers_` at the index
of that device (none when no device handles it). -/
theorem lookup_ignores_split_mode_bits (splitMask : Int) (rm : ResourceManager) (x : Int) :
    rm.GetDrmDevice splitMask (intOr x splitMask) =
      rm.GetDrmDevice splitMask (intAnd x (intNot splitMask)) ∧
    rm.GetImporter splitMask (intOr x splitMask) =
      rm.GetImporter splitMask (intAnd x (intNot splitMask)) ∧
    rm.GetDrmDevice splitMask x = rm.GetDrmDevice splitMask (intAnd x (intNot splitMask)) ∧
    rm.GetImporter splitMask x = rm.GetImporter splitMask (intAnd x (intNot splitMask)) ∧
    rm.GetDrmDevice splitMask x =
      rm.drms_.find? (fun drm => drm.HandlesDisplay (intAnd x (intNot splitMask))) ∧
    rm.GetImporter splitMask x =
      (if rm.drms_.any (fun drm => drm.HandlesDisplay (intAnd x (intNot splitMask))) then
        (rm.importers_.get? (rm.drms_.findIdx
          (fun drm => drm.HandlesDisplay (intAnd x (intNot splitMask))))).map some
      else some none) := by
  have h1 : intAnd (intOr x splitMask) (intNot splitMask) =
      intAnd (intAnd x (intNot splitMask)) (intNot splitMask) := by
    rw [intAnd_intOr_mask, intAnd_mask_idem]
  have h2 : intAnd x (intNot splitMask) =
      intAnd (intAnd x (intNot splitMask)) (intNot splitMask) := (intAnd_mask_idem x splitMask).symm
  refine ⟨getDrmDeviceLoop_congr _ _ _ _ h1, getImporterLoop_congr _ _ _ _ _ _ h1,
    getDrmDeviceLoop_congr _ _ _ _ h2, getImporterLoop_congr _ _ _ _ _ _ h2,
    getDrmDeviceLoop_eq_find _ _ _, ?_⟩
  have := getImporterLoop_eq_findIdx splitMask x rm.importers_ rm.drms_ 0
  simpa [ResourceManager.GetImporter] using this

/-- C8: when a first `GetBufferCache` call returns a buffer `b1`, a second call with the same
external id returns that same buffer object with the crop rectangle of the second descriptor,
constructs no buffer (the count of constructed buffers is unchanged), leaves the set of cached
ids unchanged, and the cache holds that buffer under the id. -/
theorem getBufferCache_second_call_hits (ctx : VpContext) (first second : vt_buffer_t)
    (ok1 ok2 : Bool) (b1 : DrmBuffer)
    (h1 : (ctx.GetBufferCache first ok1).1 = some b1)
    (hid : second.buffer_id = first.buffer_id) :
    ((ctx.GetBufferCache first ok1).2.GetBufferCache second ok2).1 =
      some { b1 with crop := second.crop } ∧
    ((ctx.GetBufferCache first ok1).2.GetBufferCache second ok2).2.imported_ =
      (ctx.GetBufferCache first ok1).2.imported_ ∧
    cacheKeys ((ctx.GetBufferCache first ok1).2.GetBufferCache second ok2).2.mMapBuffer_ =
      cacheKeys (ctx.GetBufferCache first ok1).2.mMapBuffer_ ∧
    (cacheFind ((ctx.GetBufferCache first ok1).2.GetBufferCache second ok2).2.mMapBuffer_
      second.buffer_id).map VpBufferInfo.drm_buffer = some { b1 with crop := second.crop } := by
  have hit : ∀ (c : VpContext) (info : VpBufferInfo),
      cacheFind c.mMapBuffer_ second.buffer_id = some info →
      (c.GetBufferCache second ok2).1 = some { info.drm_buffer with crop := second.crop } ∧
      (c.GetBufferCache second ok2).2.imported_ = c.imported_ ∧
      cacheKeys (c.GetBufferCache second ok2).2.mMapBuffer_ = cacheKeys c.mMapBuffer_ ∧
      (cacheFind (c.GetBufferCache second ok2).2.mMapBuffer_ second.buffer_id).map
        VpBufferInfo.drm_buffer = some { info.drm_buffer with crop := second.crop } := by
    intro c info hf
    simp only [VpContext.GetBufferCache, hf, cacheFind_cacheSet_self, Option.map_some',
      true_and]
    exact ⟨cacheKeys_cacheSet_of_found _ _ _ _ hf, trivial⟩
  cases hf : cacheFind ctx.mMapBuffer_ first.buffer_id with
  | some info =>
    simp only [VpContext.GetBufferCache, hf, Option.some.injEq] at h1
    have hc : cacheFind (ctx.GetBufferCache first ok1).2.mMapBuffer_ second.buffer_id =
        some { info with vp_buffer := first,
                         drm_buffer := { info.drm_buffer with crop := first.crop } } := by
      simp only [VpContext.GetBufferCache, hf, hid, cacheFind_cacheSet_self]
    have := hit _ _ hc
    subst h1
    exact this
  | none =>
    cases ok1 with
    | false => simp [VpContext.GetBufferCache, hf] at h1
    | true =>
      simp only [VpContext.GetBufferCache, hf, Bool.not_true, Bool.false_eq_true, if_false,
        Option.some.injEq] at h1
      have hc : cacheFind (ctx.GetBufferCache first true).2.mMapBuffer_ second.buffer_id =
          some ⟨first, b1, none⟩ := by
        simp only [VpContext.GetBufferCache, hf, hid, Bool.not_true, Bool.false_eq_true,
          if_false, cacheFind_cacheSet_self, h1]
      exact hit _ _ hc

/-- Witness of C8: an import of id 7 followed by a second call with another crop rectangle. -/
theorem getBufferCache_second_call_hits_witness :
    (contextEmpty.GetBufferCache descriptorFirst true).1 = some bufferFirst ∧
    descriptorSecond.buffer_id = descriptorFirst.buffer_id ∧
    ((contextEmpty.GetBufferCache descriptorFirst true).2.GetBufferCache descriptorSecond
        false).1 = some { bufferFirst with crop := ⟨0, 0, 1280, 720⟩ } :=
  ⟨by decide, by decide,
    (getBufferCache_second_call_hits contextEmpty descriptorFirst descriptorSecond true false
      bufferFirst (by decide) (by decide)).1⟩

/-- C9: in a context with a valid timeline, the values of the fences attached by the successful
calls of any sequence of `AddReleaseFence` calls are strictly increasing and greater than the
counter at the start; they are the consecutive values after it. A call that returns a failure
status leaves the whole context, hence the counter, unchanged. The sequence is followed up to a
call that writes past `acBuf`, if there is one; when it has none (as when every name fits the
array) each call on a cached id is a successful one. -/
theorem release_fence_values_strictly_increase (ctx : VpContext) (ids : List Nat)
    (hv : ctx.mTimeLine_.valid = true) :
    List.Pairwise (fun a b => a < b) (ctx.addReleaseFences ids).1 ∧
    (∀ v ∈ (ctx.addReleaseFences ids).1, ctx.mTimeLine_.counter < v) ∧
    (ctx.addReleaseFences ids).1 =
      List.range' (ctx.mTimeLine_.counter + 1) (ctx.addReleaseFences ids).1.length ∧
    (∀ (c c1 : VpContext) (buffer_id : Nat) (ret : Int),
      c.AddReleaseFence buffer_id = some (ret, c1) → ret ≠ 0 → c1 = c) ∧
    (∀ ctx1 : VpContext, (ctx.addReleaseFences ids).2 = some ctx1 →
      (ctx.addReleaseFences ids).1.length =
        (ids.filter (fun buffer_id => decide (buffer_id ∈ cacheKeys ctx.mMapBuffer_))).length) ∧
    ((∀ buffer_id ∈ ids, ∀ k : Nat, k < ids.length →
        (fenceName ctx.iTunnelId_ buffer_id (ctx.mTimeLine_.counter + 1 + k)).length + 1 ≤ 32) →
      ∃ ctx1, (ctx.addReleaseFences ids).2 = some ctx1) :=
  ⟨(addReleaseFences_increasing ids ctx).1, (addReleaseFences_increasing ids ctx).2.1,
    (addReleaseFences_increasing ids ctx).2.2,
    fun c c1 buffer_id ret h hret => addReleaseFence_failure c c1 buffer_id ret h hret,
    fun ctx1 hrun => addReleaseFences_count ids ctx ctx1 hv hrun,
    fun hfit => addReleaseFences_total ids ctx hfit⟩

/-- Witness of C9: four calls, one of them on an id that is not cached, and three calls the
second of which writes past `acBuf`. -/
theorem release_fence_values_strictly_increase_witness :
    contextTwoBuffers.mTimeLine_.valid = true ∧
    (contextTwoBuffers.addReleaseFences [7, 9, 8, 7]).1 = [1, 2, 3] ∧
    (contextTwoBuffers.addReleaseFences [7, 9, 8, 7]).2.isSome = true ∧
    List.Pairwise (fun a b => a < b) (contextTwoBuffers.addReleaseFences [7, 9, 8, 7]).1 ∧
    contextLongId.addReleaseFences [7, 18446744073709551615, 7] = ([1], none) ∧
    List.Pairwise (fun a b => a < b)
      (contextLongId.addReleaseFences [7, 18446744073709551615, 7]).1 :=
  ⟨by decide, by decide, by decide,
    (release_fence_values_strictly_increase contextTwoBuffers [7, 9, 8, 7] (by decide)).1,
    by decide,
    (release_fence_values_strictly_increase contextLongId [7, 18446744073709551615, 7]
      (by decide)).1⟩

/-- C10, as amended: for a `uint32_t` mode width `w`, `ALIGN_DOWN(w, 16)` is `16 * (w / 16)`,
the greatest multiple of 16 not above `w`, within 15 of `w`; 1928 gives 1920 and 1920 gives 1920.
On a connected connector in mode `w` x `h`, `EnableWriteBackMode` (called while disabled) and
`UpdateWriteBackResolution` (called without conflict) store the capture size in `int` members:
the capture width is `16 * (w / 16)` when `w < 2^31` and that value minus 2^32 otherwise, and the
capture height is `h`, as it is, when `h < 2^31` and `h` minus 2^32 otherwise. -/
theorem capture_width_aligned_down (w h : Nat) (splitMask : Int) (rm : ResourceManager)
    (display : Int) (initOk : Bool) (drm : DrmDevice) (conn : DrmConnector)
    (hw : w < 4294967296) (hh : h < 4294967296)
    (hdev : rm.GetDrmDevice splitMask display = some drm)
    (hconn : drm.GetConnectorForDisplay display = some conn)
    (hstate : conn.state = DRM_MODE_CONNECTED)
    (hmode : conn.current_mode = ⟨w, h⟩) :
    ALIGN_DOWN w 16 = 16 * (w / 16) ∧ ALIGN_DOWN w 16 % 16 = 0 ∧ ALIGN_DOWN w 16 ≤ w ∧
    w ≤ ALIGN_DOWN w 16 + 15 ∧ (∀ m : Nat, m % 16 = 0 → m ≤ w → m ≤ ALIGN_DOWN w 16) ∧
    ALIGN_DOWN 1928 16 = 1920 ∧ ALIGN_DOWN 1920 16 = 1920 ∧
    (rm.bEnableWriteBack_ ≤ 0 →
      (rm.EnableWriteBackMode splitMask display initOk).map
          (fun r => (r.2.iWBWidth_, r.2.iWBHeight_)) =
        some (if w < 2147483648 then ((16 * (w / 16) : Nat) : Int)
                else ((16 * (w / 16) : Nat) : Int) - 4294967296,
              if h < 2147483648 then (h : Int) else (h : Int) - 4294967296)) ∧
    (¬ (rm.bEnableWriteBack_ > 0 ∧ rm.iWriteBackDisplayId_ ≠ display) →
      (rm.UpdateWriteBackResolution splitMask display initOk).map
          (fun r => (r.2.iWBWidth_, r.2.iWBHeight_)) =
        some (if w < 2147483648 then ((16 * (w / 16) : Nat) : Int)
                else ((16 * (w / 16) : Nat) : Int) - 4294967296,
              if h < 2147483648 then (h : Int) else (h : Int) - 4294967296)) := by
  obtain ⟨h1, h2, h3, h4, h5⟩ := align_down_16_facts w hw
  obtain ⟨hsw, hsh⟩ := capture_size_as_int w h hw hh
  refine ⟨h1, h2, h3, h4, h5, by decide, by decide, ?_, ?_⟩
  · intro hdis
    have := enable_sets_capture_size splitMask rm display initOk drm conn hdis hdev hconn hstate
    rw [hmode] at this
    simp only at this
    rw [hsw, hsh] at this
    have h2 := congrArg (Option.map (fun t : DrmMode × Int × Int => t.2)) this
    simpa [Option.map_map, Function.comp] using h2
  · intro hok
    have := update_sets_capture_size splitMask rm display initOk drm conn hok hdev hconn hstate
    rw [hmode] at this
    simp only at this
    rw [hsw, hsh] at this
    have h2 := congrArg (Option.map (fun t : DrmMode × Int × Int => t.2)) this
    simpa [Option.map_map, Function.comp] using h2

/-- Witness of C10 as amended: the mode 1928x1080 of `deviceExample` gives a 1920x1080
capture. -/
theorem capture_width_aligned_down_witness :
    (1928 : Nat) < 4294967296 ∧ (1080 : Nat) < 4294967296 ∧
    sessionWithDevice.GetDrmDevice 240 0 = some deviceExample ∧
    deviceExample.GetConnectorForDisplay 0 = some ⟨0, 1, ⟨1928, 1080⟩⟩ ∧
    ALIGN_DOWN 1928 16 = 16 * (1928 / 16) ∧
    (sessionWithDevice.EnableWriteBackMode 240 0 true).map
        (fun r => (r.2.iWBWidth_, r.2.iWBHeight_)) = some (1920, 1080) :=
  ⟨by decide, by decide, by decide, by decide,
    (capture_width_aligned_down 1928 1080 240 sessionWithDevice 0 true deviceExample
      ⟨0, 1, ⟨1928, 1080⟩⟩ (by decide) (by decide) (by decide) (by decide) (by decide) rfl).1,
    ((capture_width_aligned_down 1928 1080 240 sessionWithDevice 0 true deviceExample
      ⟨0, 1, ⟨1928, 1080⟩⟩ (by decide) (by decide) (by decide) (by decide) (by decide)
      rfl).2.2.2.2.2.2.2.1 (by decide)).trans (by decide)⟩

/-- Counterexample to C10 as stated: on the connected connector of `deviceHugeMode`, in mode
4294967295 x 2147483648, `ALIGN_DOWN` gives 4294967280, and `EnableWriteBackMode(0)` and
`UpdateWriteBackResolution(0)` leave -16 as capture width and -2147483648 as capture height:
neither the aligned width nor the mode height. -/
theorem capture_size_above_int_max_is_negative :
    sessionHugeMode.bEnableWriteBack_ = 0 ∧
    sessionHugeMode.GetDrmDevice 240 0 = some deviceHugeMode ∧
    deviceHugeMode.GetConnectorForDisplay 0 =
      some ⟨0, DRM_MODE_CONNECTED, ⟨4294967295, 2147483648⟩⟩ ∧
    ALIGN_DOWN 4294967295 16 = 4294967280 ∧ 16 * (4294967295 / 16) = 4294967280 ∧
    (sessionHugeMode.EnableWriteBackMode 240 0 true).map
        (fun r => (r.1, r.2.iWBWidth_, r.2.iWBHeight_)) = some (0, -16, -2147483648) ∧
    (sessionHugeMode.UpdateWriteBackResolution 240 0 true).map
        (fun r => (r.1, r.2.iWBWidth_, r.2.iWBHeight_)) = some (0, -16, -2147483648) ∧
    (-16 : Int) ≠ ((16 * (4294967295 / 16) : Nat) : Int) ∧
    (-2147483648 : Int) ≠ ((2147483648 : Nat) : Int) := by
  decide

/-- C11, as amended: `UpdateWriteBackResolution(d)` fails with the conflict status -1, leaving
the session as it was, when the session is enabled (reference count > 0) and bound to a display
other than `d`. When the session is disabled the conflict check does not apply: on a connected
connector the call caches the connector's mode, returns 0 without a dequeue if the capture size
is the cached one, and otherwise stores the new capture size, builds the queue if there is none
and dequeues a next buffer, returning the status of its initialisation check. -/
theorem update_conflict_only_when_bound_elsewhere (splitMask : Int) (rm : ResourceManager)
    (d : Int) (initOk : Bool) :
    (rm.bEnableWriteBack_ > 0 → rm.iWriteBackDisplayId_ ≠ d →
      rm.UpdateWriteBackResolution splitMask d initOk = some (-1, rm)) ∧
    (rm.bEnableWriteBack_ ≤ 0 → ∀ (drm : DrmDevice) (conn : DrmConnector),
      rm.GetDrmDevice splitMask d = some drm → drm.GetConnectorForDisplay d = some conn →
      conn.state = DRM_MODE_CONNECTED →
      ((toInt32 (ALIGN_DOWN conn.current_mode.width 16) = rm.iWBWidth_ ∧
          toInt32 conn.current_mode.height = rm.iWBHeight_) →
        rm.UpdateWriteBackResolution splitMask d initOk =
          some (0, { rm with mWBMode_ := conn.current_mode })) ∧
      (¬ (toInt32 (ALIGN_DOWN conn.current_mode.width 16) = rm.iWBWidth_ ∧
          toInt32 conn.current_mode.height = rm.iWBHeight_) →
        rm.UpdateWriteBackResolution splitMask d initOk =
          some (if initOk then 0 else -1, { rm with
            mWBMode_ := conn.current_mode
            iWBWidth_ := toInt32 (ALIGN_DOWN conn.current_mode.width 16)
            iWBHeight_ := toInt32 conn.current_mode.height
            iWBFormat_ := HAL_PIXEL_FORMAT_YCrCb_NV12
            mWriteBackBQ_ := some (rm.mWriteBackBQ_.getD { queued := [] })
            mNextWriteBackBuffer_ := some (DrmBufferQueue.DequeueDrmBuffer rm.allocated_
              (toInt32 (ALIGN_DOWN conn.current_mode.width 16))
              (toInt32 conn.current_mode.height) HAL_PIXEL_FORMAT_YCrCb_NV12 initOk)
            allocated_ := rm.allocated_ + 1 }))) := by
  refine ⟨fun hen hne => update_conflict splitMask rm d initOk hen hne, ?_⟩
  intro hdis drm conn hdev hconn hstate
  have hok : ¬ (rm.bEnableWriteBack_ > 0 ∧ rm.iWriteBackDisplayId_ ≠ d) := by
    intro hc; omega
  exact ⟨fun hs => update_same_size splitMask rm d initOk drm conn hok hdev hconn hstate hs.1 hs.2,
    fun hs => update_new_size splitMask rm d initOk drm conn hok hdev hconn hstate hs⟩

/-- Witness of C11 as amended: `sessionExample`, bound to display 0, refuses display 1, and the
disabled session `sessionWithDevice` takes the capture size of its connector. -/
theorem update_conflict_only_when_bound_elsewhere_witness :
    sessionExample.bEnableWriteBack_ > 0 ∧ sessionExample.iWriteBackDisplayId_ ≠ 1 ∧
    sessionExample.UpdateWriteBackResolution 240 1 true = some (-1, sessionExample) ∧
    sessionWithDevice.bEnableWriteBack_ ≤ 0 ∧
    sessionWithDevice.UpdateWriteBackResolution 240 0 true =
      some (0, sessionUpdatedWhileDisabled) :=
  ⟨by decide, by decide,
    (update_conflict_only_when_bound_elsewhere 240 sessionExample 1 true).1 (by decide)
      (by decide),
    by decide,
    (((update_conflict_only_when_bound_elsewhere 240 sessionWithDevice 0 true).2 (by decide)
      deviceExample ⟨0, 1, ⟨1928, 1080⟩⟩ (by decide) (by decide) (by decide)).2
      (by decide)).trans (by decide)⟩

/-- Counterexample to C11 as stated: on the disabled session `sessionWithDevice` the call
`UpdateWriteBackResolution(0)` returns 0 and changes the cached mode, the capture size, the queue
and the next slot. -/
theorem update_on_disabled_session_succeeds :
    sessionWithDevice.bEnableWriteBack_ = 0 ∧
    sessionWithDevice.UpdateWriteBackResolution 240 0 true =
      some (0, sessionUpdatedWhileDisabled) ∧
    sessionUpdatedWhileDisabled.mWBMode_ ≠ sessionWithDevice.mWBMode_ ∧
    sessionUpdatedWhileDisabled.iWBWidth_ ≠ sessionWithDevice.iWBWidth_ ∧
    sessionUpdatedWhileDisabled.mWriteBackBQ_ ≠ sessionWithDevice.mWriteBackBQ_ ∧
    sessionUpdatedWhileDisabled.mNextWriteBackBuffer_ ≠
      sessionWithDevice.mNextWriteBackBuffer_ := by
  decide

/-- C12, as amended: in every enabled session, when the submission of the new drawing buffer
to the session's queue succeeds and the replacement buffer fails its initialisation check,
`SwapWBBuffer` returns -1 and the next slot keeps the buffer it held before the call, which is
now also the drawing buffer; the failed replacement is not stored, and the slot is empty after
the call only if it was empty before. -/
theorem swap_alloc_failure_keeps_next (rm : ResourceManager) (bq : DrmBufferQueue)
    (hen : rm.bEnableWriteBack_ > 0) (hq : rm.mWriteBackBQ_ = some bq) :
    (rm.SwapWBBuffer 0 false).map Prod.fst = some (-1) ∧
    (rm.SwapWBBuffer 0 false).map (fun r => r.2.mNextWriteBackBuffer_) =
      some rm.mNextWriteBackBuffer_ ∧
    (rm.SwapWBBuffer 0 false).map (fun r => r.2.mDrawingWriteBackBuffer_) =
      some rm.mNextWriteBackBuffer_ := by
  rw [swap_alloc_failure rm bq hen hq]
  simp

/-- Witness of C12 as amended: the failing swap of `sessionTwoSwaps`, the session the calls
`callsTwoSwaps` reach. -/
theorem swap_alloc_failure_keeps_next_witness :
    ResourceManager.steps 240 ResourceManager.new callsTwoSwaps = some sessionTwoSwaps ∧
    sessionTwoSwaps.bEnableWriteBack_ > 0 ∧
    sessionTwoSwaps.mWriteBackBQ_ = some { queued :=
      [some (DrmBufferQueue.DequeueDrmBuffer 0 1920 1080 21 true),
       some (DrmBufferQueue.DequeueDrmBuffer 1 1920 1080 21 true)] } ∧
    (sessionTwoSwaps.SwapWBBuffer 0 false).map (fun r => r.2.mNextWriteBackBuffer_) =
      some sessionTwoSwaps.mNextWriteBackBuffer_ :=
  ⟨by decide, by decide, by decide,
    (swap_alloc_failure_keeps_next sessionTwoSwaps { queued :=
      [some (DrmBufferQueue.DequeueDrmBuffer 0 1920 1080 21 true),
       some (DrmBufferQueue.DequeueDrmBuffer 1 1920 1080 21 true)] } (by decide)
      (by decide)).2.1⟩

/-- Counterexample to C12 as stated: after the failing swap of `sessionTwoSwaps` the next slot
is not empty; it holds the buffer with serial 2, the one the drawing slot holds. -/
theorem swap_alloc_failure_next_not_empty :
    sessionTwoSwaps.bEnableWriteBack_ > 0 ∧
    sessionTwoSwaps.SwapWBBuffer 0 false = some (-1, sessionSwapFailed) ∧
    sessionSwapFailed.mNextWriteBackBuffer_ ≠ none ∧
    sessionSwapFailed.mNextWriteBackBuffer_ =
      some (DrmBufferQueue.DequeueDrmBuffer 2 1920 1080 21 true) := by
  decide

/-- C13, evaluated at the failing inputs. After an `EnableWriteBackMode(0)` that failed on the
initialisation check of its buffer, a second `EnableWriteBackMode(0)` returns 0 with reference
count 1 and bound display 0 while the next slot holds the buffer that failed the check, and no
buffer is dequeued. After an `UpdateWriteBackResolution(0)` that ran while disabled and a change
of mode to 1280x720, `EnableWriteBackMode(0)` returns 0 with capture size 1280x720 while the next
slot holds the buffer dequeued at 1920x1080. -/
theorem enable_after_failure_keeps_old_buffer :
    (ResourceManager.steps 240 ResourceManager.new
        [WBCall.devices [deviceExample], WBCall.enable 0 false] =
      some sessionAfterFailedEnable ∧
    sessionAfterFailedEnable.bEnableWriteBack_ = 0 ∧
    sessionAfterFailedEnable.EnableWriteBackMode 240 0 true =
      some (0, sessionEnabledWithFailedBuffer) ∧
    sessionEnabledWithFailedBuffer.bEnableWriteBack_ = 1 ∧
    sessionEnabledWithFailedBuffer.mNextWriteBackBuffer_.map (fun b => b.valid) = some false ∧
    sessionEnabledWithFailedBuffer.allocated_ = sessionAfterFailedEnable.allocated_) ∧
    (ResourceManager.steps 240 ResourceManager.new
        [WBCall.devices [deviceExample], WBCall.update 0 true,
          WBCall.devices [deviceMode1280]] =
      some sessionUpdatedThenModeChanged ∧
    sessionUpdatedThenModeChanged.bEnableWriteBack_ = 0 ∧
    sessionUpdatedThenModeChanged.EnableWriteBackMode 240 0 true =
      some (0, sessionEnabledWithStaleBuffer) ∧
    (sessionEnabledWithStaleBuffer.iWBWidth_, sessionEnabledWithStaleBuffer.iWBHeight_) =
      (1280, 720) ∧
    sessionEnabledWithStaleBuffer.mNextWriteBackBuffer_.map (fun b => (b.width, b.height)) =
      some (1920, 1080)) := by
  decide

/-- C14, as amended: in a session whose reference count is above `INT_MIN` (and, being an
`int`, not above `INT_MAX`), `DisableWriteBackMode(d)` returns 0. If `d` is not the bound display
the session is unchanged. Otherwise the reference count decreases by one; if it reaches zero the
three slots and the queue are cleared and the bound display becomes -1, and if it stays positive
nothing but the count changes. -/
theorem disable_effect (rm : ResourceManager) (d : Int)
    (hmin : -2147483648 < rm.bEnableWriteBack_) (hmax : rm.bEnableWriteBack_ ≤ 2147483647) :
    (rm.DisableWriteBackMode d).1 = 0 ∧
    (d ≠ rm.iWriteBackDisplayId_ → (rm.DisableWriteBackMode d).2 = rm) ∧
    (d = rm.iWriteBackDisplayId_ →
      (rm.DisableWriteBackMode d).2.bEnableWriteBack_ = rm.bEnableWriteBack_ - 1 ∧
      (rm.bEnableWriteBack_ - 1 = 0 →
        (rm.DisableWriteBackMode d).2 = { rm with
          bEnableWriteBack_ := 0
          mNextWriteBackBuffer_ := none
          mDrawingWriteBackBuffer_ := none
          mFinishWriteBackBuffer_ := none
          mWriteBackBQ_ := none
          iWriteBackDisplayId_ := -1 }) ∧
      (rm.bEnableWriteBack_ - 1 > 0 →
        (rm.DisableWriteBackMode d).2 =
          { rm with bEnableWriteBack_ := rm.bEnableWriteBack_ - 1 })) := by
  refine ⟨?_, ?_, ?_⟩
  · unfold ResourceManager.DisableWriteBackMode
    simp only
    repeat' split
    all_goals rfl
  · intro hne
    rw [disable_other_display rm d hne]
  · intro hb
    refine ⟨?_, ?_, ?_⟩
    · by_cases hle : rm.bEnableWriteBack_ - 1 ≤ 0
      · rw [disable_last_reference rm d hb hmin hmax hle]
      · rw [disable_keeps_reference rm d hb hmax (by omega)]
    · intro hz
      rw [disable_last_reference rm d hb hmin hmax (by omega), hz]
    · intro hgt
      rw [disable_keeps_reference rm d hb hmax hgt]

/-- Witness of C14 as amended: the last reference of `sessionExample` is dropped, one of the two
references of `sessionEnabledTwice` is dropped, and a call for display 1 changes nothing. -/
theorem disable_effect_witness :
    -2147483648 < sessionExample.bEnableWriteBack_ ∧
    sessionExample.bEnableWriteBack_ ≤ 2147483647 ∧
    sessionExample.DisableWriteBackMode 0 = (0, sessionDisabledAgain) ∧
    (sessionExample.DisableWriteBackMode 0).2.bEnableWriteBack_ =
      sessionExample.bEnableWriteBack_ - 1 ∧
    (sessionEnabledTwice.DisableWriteBackMode 0).2 = sessionExample ∧
    (sessionExample.DisableWriteBackMode 1).2 = sessionExample :=
  ⟨by decide, by decide, by decide,
    ((disable_effect sessionExample 0 (by decide) (by decide)).2.2 (by decide)).1,
    by decide, (disable_effect sessionExample 1 (by decide) (by decide)).2.1 (by decide)⟩

/-- Counterexample to C14 as stated: 2^31 calls `DisableWriteBackMode(-1)` take the initial
session to `sessionCountMin`, whose reference count is `INT_MIN` and whose bound display is -1.
One more `DisableWriteBackMode(-1)` matches the bound display and leaves the count `INT_MAX`:
the count has not decreased by one, and it is positive in a session with neither a queue nor a
bound display. -/
theorem disable_at_int_min_wraps :
    ResourceManager.steps 240 ResourceManager.new
        (List.replicate 2147483648 (WBCall.disable (-1))) = some sessionCountMin ∧
    sessionCountMin.bEnableWriteBack_ = -2147483648 ∧
    sessionCountMin.iWriteBackDisplayId_ = -1 ∧
    sessionCountMin.DisableWriteBackMode (-1) = (0, sessionCountWrapped) ∧
    sessionCountWrapped.bEnableWriteBack_ = 2147483647 ∧
    (sessionCountMin.DisableWriteBackMode (-1)).2.bEnableWriteBack_ ≠
      sessionCountMin.bEnableWriteBack_ - 1 ∧
    sessionCountWrapped.mWriteBackBQ_ = none ∧ sessionCountWrapped.iWriteBackDisplayId_ = -1 :=
  ⟨steps_replicate_disable_sentinel 240 2147483648 0 (by decide) (by decide),
    by decide, by decide, by decide, by decide, by decide, by decide, by decide⟩

/-- C15, evaluated at the failing input: on the disabled session `sessionWithDevice`, whose only
device handles display 0, `GetDrmDevice(5)` is null and `EnableWriteBackMode(5)` dereferences
it: the call has no result. -/
theorem enable_unhandled_display_faults :
    sessionWithDevice.bEnableWriteBack_ = 0 ∧
    sessionWithDevice.GetDrmDevice 240 5 = none ∧
    sessionWithDevice.EnableWriteBackMode 240 5 true = none := by
  decide

/-- C16, evaluated at the failing inputs. In `contextLongId` the timeline is valid and the id
2^64 - 1 is cached; the name of its fence, `RFVP-ID1-B18446744073709551615-FN1`, takes 35 bytes
with its terminating NUL, and `AddReleaseFence` writes it past the 32 bytes of `acBuf`: the call
has no result, where the call for the cached id 7 returns 0. In `contextLongRun`, with tunnel id
45 and 9999 fences issued, the name for the cached id 6442450944001 takes 33 bytes and the call
has no result either. -/
theorem addReleaseFence_long_name_overflows :
    (contextLongId.mTimeLine_.valid = true ∧
      18446744073709551615 ∈ cacheKeys contextLongId.mMapBuffer_ ∧
      fenceName contextLongId.iTunnelId_ 18446744073709551615
          (contextLongId.mTimeLine_.counter + 1) =
        "RFVP-ID1-B18446744073709551615-FN1".toList ∧
      (fenceName contextLongId.iTunnelId_ 18446744073709551615
          (contextLongId.mTimeLine_.counter + 1)).length + 1 = 35 ∧
      contextLongId.AddReleaseFence 18446744073709551615 = none ∧
      (contextLongId.AddReleaseFence 7).map Prod.fst = some 0) ∧
    (contextLongRun.mTimeLine_.valid = true ∧
      6442450944001 ∈ cacheKeys contextLongRun.mMapBuffer_ ∧
      fenceName contextLongRun.iTunnelId_ 6442450944001
          (contextLongRun.mTimeLine_.counter + 1) =
        "RFVP-ID45-B6442450944001-FN10000".toList ∧
      (fenceName contextLongRun.iTunnelId_ 6442450944001
          (contextLongRun.mTimeLine_.counter + 1)).length + 1 = 33 ∧
      contextLongRun.AddReleaseFence 6442450944001 = none) := by
  decide

/-- C17: for a descriptor whose external id is not cached, a `GetBufferCache` whose imported
buffer fails the validity check returns no buffer and leaves the cache as it was, so that
`AddReleaseFence`, `GetReleaseFence` and `SignalReleaseFence` on the id still fail; when the
check passes the call returns the new buffer, which carries the crop rectangle and the external
id of the descriptor, and the id is added to the cache with that buffer. -/
theorem getBufferCache_miss (ctx : VpContext) (vp_buffer : vt_buffer_t)
    (hmiss : cacheFind ctx.mMapBuffer_ vp_buffer.buffer_id = none) :
    (ctx.GetBufferCache vp_buffer false).1 = none ∧
    (ctx.GetBufferCache vp_buffer false).2.mMapBuffer_ = ctx.mMapBuffer_ ∧
    cacheFind (ctx.GetBufferCache vp_buffer false).2.mMapBuffer_ vp_buffer.buffer_id = none ∧
    ((ctx.GetBufferCache vp_buffer false).2.AddReleaseFence vp_buffer.buffer_id).map Prod.fst =
      some (-1) ∧
    (ctx.GetBufferCache vp_buffer false).2.GetReleaseFence vp_buffer.buffer_id = none ∧
    ((ctx.GetBufferCache vp_buffer false).2.SignalReleaseFence vp_buffer.buffer_id).1 = -1 ∧
    (ctx.GetBufferCache vp_buffer true).1 =
      some { id := ctx.imported_, width := 0, height := 0, format := 0, valid := true,
             crop := vp_buffer.crop, externalId := vp_buffer.buffer_id } ∧
    cacheKeys (ctx.GetBufferCache vp_buffer true).2.mMapBuffer_ =
      cacheKeys ctx.mMapBuffer_ ++ [vp_buffer.buffer_id] ∧
    (cacheFind (ctx.GetBufferCache vp_buffer true).2.mMapBuffer_ vp_buffer.buffer_id).map
        VpBufferInfo.drm_buffer = (ctx.GetBufferCache vp_buffer true).1 := by
  have hfalse : ctx.GetBufferCache vp_buffer false =
      (none, { ctx with imported_ := ctx.imported_ + 1 }) := by
    simp [VpContext.GetBufferCache, hmiss]
  have hmiss1 : cacheFind (ctx.GetBufferCache vp_buffer false).2.mMapBuffer_
      vp_buffer.buffer_id = none := by
    rw [hfalse]; exact hmiss
  refine ⟨by rw [hfalse], by rw [hfalse], hmiss1, ?_, ?_, ?_, ?_, ?_, ?_⟩
  · rw [addReleaseFence_of_not_cached _ _ hmiss1]
    rfl
  · exact getReleaseFence_of_not_cached _ _ hmiss1
  · rw [signalReleaseFence_of_not_cached _ _ hmiss1]
  · simp [VpContext.GetBufferCache, hmiss]
  · simp only [VpContext.GetBufferCache, hmiss, Bool.not_true, Bool.false_eq_true, if_false]
    exact cacheKeys_cacheSet_of_not_found _ _ _ hmiss
  · simp only [VpContext.GetBufferCache, hmiss, Bool.not_true, Bool.false_eq_true, if_false,
      cacheFind_cacheSet_self, Option.map_some']

/-- Witness of C17: the id 7 is not cached in `contextEmpty`. -/
theorem getBufferCache_miss_witness :
    cacheFind contextEmpty.mMapBuffer_ descriptorFirst.buffer_id = none ∧
    (contextEmpty.GetBufferCache descriptorFirst false).1 = none ∧
    (contextEmpty.GetBufferCache descriptorFirst true).1 = some bufferFirst :=
  ⟨by decide, (getBufferCache_miss contextEmpty descriptorFirst (by decide)).1,
    (getBufferCache_miss contextEmpty descriptorFirst (by decide)).2.2.2.2.2.2.1⟩

/-- C18, as amended: in a session enabled for display `d` whose connector is connected, if the
16-aligned-down width and the height of the connector's current mode equal the cached capture
width and height, `UpdateWriteBackResolution(d)` returns 0, performs no dequeue, and leaves every
field of the session other than the cached output mode unchanged; the cached output mode becomes
the connector's current mode. -/
theorem update_same_size_refreshes_mode_only (splitMask : Int) (rm : ResourceManager) (d : Int)
    (initOk : Bool) (drm : DrmDevice) (conn : DrmConnector)
    (_hen : rm.bEnableWriteBack_ > 0) (hb : rm.iWriteBackDisplayId_ = d)
    (hdev : rm.GetDrmDevice splitMask d = some drm)
    (hconn : drm.GetConnectorForDisplay d = some conn)
    (hstate : conn.state = DRM_MODE_CONNECTED)
    (hw : toInt32 (ALIGN_DOWN conn.current_mode.width 16) = rm.iWBWidth_)
    (hh : toInt32 conn.current_mode.height = rm.iWBHeight_) :
    rm.UpdateWriteBackResolution splitMask d initOk =
      some (0, { rm with mWBMode_ := conn.current_mode }) :=
  update_same_size splitMask rm d initOk drm conn (fun hc => hc.2 hb) hdev hconn hstate hw hh

/-- Witness of C18 as amended: `sessionAfterCalls`, whose connector is still in the cached mode. -/
theorem update_same_size_refreshes_mode_only_witness :
    sessionAfterCalls.bEnableWriteBack_ > 0 ∧ sessionAfterCalls.iWriteBackDisplayId_ = 0 ∧
    sessionAfterCalls.GetDrmDevice 240 0 = some deviceExample ∧
    deviceExample.GetConnectorForDisplay 0 = some ⟨0, 1, ⟨1928, 1080⟩⟩ ∧
    sessionAfterCalls.UpdateWriteBackResolution 240 0 true =
      some (0, { sessionAfterCalls with mWBMode_ := ⟨1928, 1080⟩ }) :=
  ⟨by decide, by decide, by decide, by decide,
    update_same_size_refreshes_mode_only 240 sessionAfterCalls 0 true deviceExample
      ⟨0, 1, ⟨1928, 1080⟩⟩ (by decide) (by decide) (by decide) (by decide) (by decide)
      (by decide) (by decide)⟩

/-- Counterexample to C18 as stated: `sessionModeChanged` is enabled for display 0 with cached
mode 1928x1080 and capture size 1920x1080; its connector is connected in mode 1920x1080, which has
the same capture size; `UpdateWriteBackResolution(0)` returns 0 and the cached mode has changed. -/
theorem update_same_size_changes_cached_mode :
    sessionModeChanged.bEnableWriteBack_ > 0 ∧ sessionModeChanged.iWriteBackDisplayId_ = 0 ∧
    sessionModeChanged.GetDrmDevice 240 0 = some deviceMode1920 ∧
    deviceMode1920.GetConnectorForDisplay 0 = some ⟨0, DRM_MODE_CONNECTED, ⟨1920, 1080⟩⟩ ∧
    toInt32 (ALIGN_DOWN 1920 16) = sessionModeChanged.iWBWidth_ ∧
    toInt32 1080 = sessionModeChanged.iWBHeight_ ∧
    sessionModeChanged.UpdateWriteBackResolution 240 0 true =
      some (0, { sessionModeChanged with mWBMode_ := ⟨1920, 1080⟩ }) ∧
    ({ sessionModeChanged with mWBMode_ := ⟨1920, 1080⟩ } : ResourceManager).mWBMode_ ≠
      sessionModeChanged.mWBMode_ := by
  decide

/-- C19, as amended: in a session with reference count `n`, `0 < n < INT_MAX`, bound to display
`d`, `EnableWriteBackMode(d)` returns 0 and changes nothing but the reference count, which
becomes `n + 1`: bound display, cached mode, capture size and format, queue and slots are as
before, no buffer is allocated, and the result does not depend on the devices or on the outcome
a dequeue would have had. -/
theorem enable_same_display_counts (splitMask : Int) (rm : ResourceManager) (d : Int)
    (initOk : Bool) (hen : rm.bEnableWriteBack_ > 0) (hmax : rm.bEnableWriteBack_ < 2147483647)
    (hb : rm.iWriteBackDisplayId_ = d) :
    rm.EnableWriteBackMode splitMask d initOk =
      some (0, { rm with bEnableWriteBack_ := rm.bEnableWriteBack_ + 1 }) := by
  have hw : wrapInt32 (rm.bEnableWriteBack_ + 1) = rm.bEnableWriteBack_ + 1 :=
    wrapInt32_of_range _ (by omega) (by omega)
  rw [enable_same_display splitMask rm d initOk hen hb, hw]

/-- Witness of C19 as amended: `sessionExample`, which has no device at all, enabled again for
display 0. -/
theorem enable_same_display_counts_witness :
    sessionExample.bEnableWriteBack_ > 0 ∧ sessionExample.bEnableWriteBack_ < 2147483647 ∧
    sessionExample.iWriteBackDisplayId_ = 0 ∧
    sessionExample.EnableWriteBackMode 240 0 false = some (0, sessionEnabledTwice) :=
  ⟨by decide, by decide, by decide,
    enable_same_display_counts 240 sessionExample 0 false (by decide) (by decide) (by decide)⟩

/-- Counterexample to C19 as stated: 2^31 - 1 calls `EnableWriteBackMode(0)` on a connected
display take the initial session to `sessionCountMax`, bound to display 0 with reference count
`INT_MAX`. One more `EnableWriteBackMode(0)` returns 0 and leaves the count `INT_MIN`, not
`INT_MAX + 1`: the session reads as disabled while its queue, slot and binding are kept. -/
theorem enable_at_int_max_wraps :
    ResourceManager.steps 240 ResourceManager.new
        (WBCall.devices [deviceExample] :: List.replicate 2147483647 (WBCall.enable 0 true)) =
      some sessionCountMax ∧
    sessionCountMax.bEnableWriteBack_ = 2147483647 ∧
    sessionCountMax.iWriteBackDisplayId_ = 0 ∧
    sessionCountMax.EnableWriteBackMode 240 0 true = some (0, sessionCountOverflowed) ∧
    sessionCountOverflowed.bEnableWriteBack_ = -2147483648 ∧
    sessionCountOverflowed.bEnableWriteBack_ ≠ sessionCountMax.bEnableWriteBack_ + 1 ∧
    sessionCountOverflowed.iWriteBackDisplayId_ = 0 ∧
    sessionCountOverflowed.mWriteBackBQ_ = sessionCountMax.mWriteBackBQ_ :=
  ⟨steps_enable_from_device 2147483646 (by decide), by decide, by decide, by decide, by decide,
    by decide, by decide, by decide⟩

/-- C20: `Planner::GetUsablePlanes` returns the primary planes that support the CRTC followed by
the overlay planes that support it. Every returned plane supports the CRTC; a plane that
supports it occurs as often as in the two lists together, and any other plane does not occur;
the result begins with the supporting primary planes and ends with the supporting overlay
planes, each in the order of its list. -/
theorem getUsablePlanes_filters_in_order (crtc : DrmCrtc)
    (primary_planes overlay_planes : List DrmPlane) :
    Planner.GetUsablePlanes crtc primary_planes overlay_planes =
      primary_planes.filter (fun p => p.GetCrtcSupported crtc) ++
        overlay_planes.filter (fun p => p.GetCrtcSupported crtc) ∧
    (∀ p ∈ Planner.GetUsablePlanes crtc primary_planes overlay_planes,
      p.GetCrtcSupported crtc = true) ∧
    (∀ p : DrmPlane, (Planner.GetUsablePlanes crtc primary_planes overlay_planes).count p =
      if p.GetCrtcSupported crtc then primary_planes.count p + overlay_planes.count p else 0) ∧
    (Planner.GetUsablePlanes crtc primary_planes overlay_planes).take
        (primary_planes.filter (fun p => p.GetCrtcSupported crtc)).length =
      primary_planes.filter (fun p => p.GetCrtcSupported crtc) ∧
    (Planner.GetUsablePlanes crtc primary_planes overlay_planes).drop
        (primary_planes.filter (fun p => p.GetCrtcSupported crtc)).length =
      overlay_planes.filter (fun p => p.GetCrtcSupported crtc) ∧
    (primary_planes.filter (fun p => p.GetCrtcSupported crtc)).Sublist primary_planes ∧
    (overlay_planes.filter (fun p => p.GetCrtcSupported crtc)).Sublist overlay_planes := by
  refine ⟨getUsablePlanes_eq_filter crtc primary_planes overlay_planes, ?_,
    getUsablePlanes_count crtc primary_planes overlay_planes, ?_, ?_,
    List.filter_sublist _, List.filter_sublist _⟩
  · intro p hp
    rw [getUsablePlanes_eq_filter, List.mem_append] at hp
    rcases hp with hp | hp
    · exact (List.mem_filter.1 hp).2
    · exact (List.mem_filter.1 hp).2
  · rw [getUsablePlanes_eq_filter, List.take_left]
  · rw [getUsablePlanes_eq_filter, List.drop_left]

/-- Witness of C20: of three primary and two overlay planes, those that support CRTC 71. -/
theorem getUsablePlanes_filters_in_order_witness :
    Planner.GetUsablePlanes crtcExample primaryExample overlayExample =
      [⟨1, [71]⟩, ⟨3, [71, 72]⟩, ⟨5, [71]⟩] ∧
    Planner.GetUsablePlanes crtcExample primaryExample overlayExample =
      primaryExample.filter (fun p => p.GetCrtcSupported crtcExample) ++
        overlayExample.filter (fun p => p.GetCrtcSupported crtcExample) :=
  ⟨by decide, (getUsablePlanes_filters_in_order crtcExample primaryExample overlayExample).1⟩

/-- C21: in every enabled session, a `SwapWBBuffer` whose submission to the session's queue is
rejected, or whose replacement buffer fails its initialisation check, returns -1 with the
rotation applied and not undone: `finish` holds the buffer `drawing` held before the call,
`drawing` the buffer `next` held before the call, and `next` still holds that same buffer, so
that `next` and `drawing` are the same buffer; the reference count and the bound display are as
before. -/
theorem swap_failure_keeps_rotation (rm : ResourceManager) (bq : DrmBufferQueue)
    (queueRet : Int) (initOk : Bool)
    (hen : rm.bEnableWriteBack_ > 0) (hq : rm.mWriteBackBQ_ = some bq)
    (hfail : queueRet ≠ 0 ∨ initOk = false) :
    ∃ rm1, rm.SwapWBBuffer queueRet initOk = some (-1, rm1) ∧
      rm1.mFinishWriteBackBuffer_ = rm.mDrawingWriteBackBuffer_ ∧
      rm1.mDrawingWriteBackBuffer_ = rm.mNextWriteBackBuffer_ ∧
      rm1.mNextWriteBackBuffer_ = rm.mNextWriteBackBuffer_ ∧
      rm1.mNextWriteBackBuffer_ = rm1.mDrawingWriteBackBuffer_ ∧
      rm1.bEnableWriteBack_ = rm.bEnableWriteBack_ ∧
      rm1.iWriteBackDisplayId_ = rm.iWriteBackDisplayId_ := by
  obtain ⟨rm1, hswap, hf, hd, hn, hc, hi⟩ :=
    swap_failure_slots rm bq queueRet initOk hen hq hfail
  exact ⟨rm1, hswap, hf, hd, hn, by rw [hn, hd], hc, hi⟩

/-- Witness of C21: the swap of `sessionTwoSwaps`, the session the calls `callsTwoSwaps` reach,
with a rejected queue submission. -/
theorem swap_failure_keeps_rotation_witness :
    ResourceManager.steps 240 ResourceManager.new callsTwoSwaps = some sessionTwoSwaps ∧
    sessionTwoSwaps.bEnableWriteBack_ > 0 ∧
    sessionTwoSwaps.mWriteBackBQ_ = some { queued :=
      [some (DrmBufferQueue.DequeueDrmBuffer 0 1920 1080 21 true),
       some (DrmBufferQueue.DequeueDrmBuffer 1 1920 1080 21 true)] } ∧
    ((-1 : Int) ≠ 0 ∨ true = false) ∧
    ∃ rm1, sessionTwoSwaps.SwapWBBuffer (-1) true = some (-1, rm1) ∧
      rm1.mFinishWriteBackBuffer_ = sessionTwoSwaps.mDrawingWriteBackBuffer_ ∧
      rm1.mDrawingWriteBackBuffer_ = sessionTwoSwaps.mNextWriteBackBuffer_ ∧
      rm1.mNextWriteBackBuffer_ = sessionTwoSwaps.mNextWriteBackBuffer_ ∧
      rm1.mNextWriteBackBuffer_ = rm1.mDrawingWriteBackBuffer_ ∧
      rm1.bEnableWriteBack_ = sessionTwoSwaps.bEnableWriteBack_ ∧
      rm1.iWriteBackDisplayId_ = sessionTwoSwaps.iWriteBackDisplayId_ :=
  ⟨by decide, by decide, by decide, by decide,
    swap_failure_keeps_rotation sessionTwoSwaps { queued :=
      [some (DrmBufferQueue.DequeueDrmBuffer 0 1920 1080 21 true),
       some (DrmBufferQueue.DequeueDrmBuffer 1 1920 1080 21 true)] } (-1) true (by decide)
      (by decide) (by decide)⟩

/-- C22: after any sequence of `AddDrmDevice` calls on a new resource manager, whatever the
outcomes of device initialisation and importer creation are, `drms_` and `importers_` have the
same length and hold, position by position, the device and the importer of the calls that
succeeded, and `num_displays_` is the sum of their display counts; a call that fails appends to
neither sequence and leaves the display count as it was. Hence `GetImporter` never indexes
outside `importers_`: it returns the importer at the position of the device `GetDrmDevice`
returns, and is absent exactly when `GetDrmDevice` is. -/
theorem registry_sequences_stay_paired (outcomes : List DeviceProbe) (splitMask display : Int) :
    (ResourceManager.new.addDrmDevices outcomes).drms_.length =
      (ResourceManager.new.addDrmDevices outcomes).importers_.length ∧
    (ResourceManager.new.addDrmDevices outcomes).drms_.zip
        (ResourceManager.new.addDrmDevices outcomes).importers_ = registeredPairs outcomes ∧
    (ResourceManager.new.addDrmDevices outcomes).num_displays_ = registeredDisplays outcomes ∧
    (∀ (rm : ResourceManager) (probe : List Char → Int → DeviceProbe) (path : List Char),
      (rm.AddDrmDevice probe path).1 = 0 ∨
      ((rm.AddDrmDevice probe path).2.drms_ = rm.drms_ ∧
        (rm.AddDrmDevice probe path).2.importers_ = rm.importers_ ∧
        (rm.AddDrmDevice probe path).2.num_displays_ = rm.num_displays_)) ∧
    (ResourceManager.new.addDrmDevices outcomes).GetImporter splitMask display =
      some (((registeredPairs outcomes).find?
        (fun e => e.1.HandlesDisplay (intAnd display (intNot splitMask)))).map Prod.snd) ∧
    (ResourceManager.new.addDrmDevices outcomes).GetDrmDevice splitMask display =
      ((registeredPairs outcomes).find?
        (fun e => e.1.HandlesDisplay (intAnd display (intNot splitMask)))).map Prod.fst ∧
    ((ResourceManager.new.addDrmDevices outcomes).GetImporter splitMask display = some none ↔
      (ResourceManager.new.addDrmDevices outcomes).GetDrmDevice splitMask display = none) := by
  obtain ⟨hd, hi, hn⟩ := addDrmDevices_registers outcomes ResourceManager.new
  have hd1 : (ResourceManager.new.addDrmDevices outcomes).drms_ =
      (registeredPairs outcomes).map Prod.fst := by rw [hd]; rfl
  have hi1 : (ResourceManager.new.addDrmDevices outcomes).importers_ =
      (registeredPairs outcomes).map Prod.snd := by rw [hi]; rfl
  have hlen : (ResourceManager.new.addDrmDevices outcomes).drms_.length =
      (ResourceManager.new.addDrmDevices outcomes).importers_.length := by
    rw [hd1, hi1, List.length_map, List.length_map]
  have hzip : (ResourceManager.new.addDrmDevices outcomes).drms_.zip
      (ResourceManager.new.addDrmDevices outcomes).importers_ = registeredPairs outcomes := by
    rw [hd1, hi1]
    exact (List.zip_of_prod rfl rfl).symm
  have himp := getImporterLoop_of_paired splitMask display
    (ResourceManager.new.addDrmDevices outcomes).importers_
    (ResourceManager.new.addDrmDevices outcomes).drms_
    (ResourceManager.new.addDrmDevices outcomes).importers_ 0 hlen rfl
  have hdev := getDrmDeviceLoop_of_paired splitMask display
    (ResourceManager.new.addDrmDevices outcomes).drms_
    (ResourceManager.new.addDrmDevices outcomes).importers_ hlen
  rw [hzip] at himp hdev
  refine ⟨hlen, hzip, ?_, ?_, himp, hdev, ?_⟩
  · rw [hn]
    show (0 : Int) + registeredDisplays outcomes = registeredDisplays outcomes
    omega
  · intro rm probe path
    by_cases h : (rm.AddDrmDevice probe path).1 = 0
    · exact Or.inl h
    · exact Or.inr (addDrmDevice_failure probe rm path h)
  · unfold ResourceManager.GetImporter ResourceManager.GetDrmDevice
    rw [himp, hdev]
    cases (registeredPairs outcomes).find?
      (fun e => e.1.HandlesDisplay (intAnd display (intNot splitMask))) <;> simp

/-- Witness of C22: of four calls the second and the third fail; two devices and their two
importers are registered, and the lookups for display 1 give the second of each. -/
theorem registry_sequences_stay_paired_witness :
    (ResourceManager.new.addDrmDevices outcomesExample).drms_ = [deviceExample, deviceSecond] ∧
    (ResourceManager.new.addDrmDevices outcomesExample).importers_ = [⟨3⟩, ⟨4⟩] ∧
    (ResourceManager.new.addDrmDevices outcomesExample).GetImporter 240 1 = some (some ⟨4⟩) ∧
    (ResourceManager.new.addDrmDevices outcomesExample).drms_.length =
      (ResourceManager.new.addDrmDevices outcomesExample).importers_.length :=
  ⟨by decide, by decide, by decide,
    (registry_sequences_stay_paired outcomesExample 240 1).1⟩

/-- C23, evaluated at the failing input: the compositor map of `managerWithCompositor` is not
empty and has no entry for the id 72; for a CRTC with that id `GetDrmDisplayCompositor`
dereferences the end iterator `find` returns, and the call has no result. -/
theorem getDrmDisplayCompositor_missing_key_faults :
    managerWithCompositor.mapDrmDisplayCompositor_ ≠ [] ∧
    mapFind managerWithCompositor.mapDrmDisplayCompositor_ 72 = none ∧
    managerWithCompositor.GetDrmDisplayCompositor (some ⟨72, 1⟩) = none ∧
    managerWithCompositor.GetDrmDisplayCompositor (some ⟨71, 0⟩) = some (some ⟨0⟩) := by
  decide
